import Mathlib

/-!
# Tetris core of the LPC4088 teaching firmware

Shallow embedding of `piezas.c`, `cubeta.c` and the game loop of `juego.c`
(directory `Librerias`).  C arrays are functions on indices, `for` loops are
folds over `List.range`, signed machine integers are `Int`, unsigned ones are
`Nat`, and every narrowing conversion is written out (`int16`, `uint8`,
`uint32`).  A failed `ASSERT` / `ERROR` (which never returns) is `none`.
-/

namespace Tetris

/-! ## Machine integers -/

/-- Conversion of an `int` value to `int16_t` (two's complement wrap-around). -/
def int16 (v : Int) : Int := (v + 32768) % 65536 - 32768

/-- Conversion of an integer value to `uint8_t`. -/
def uint8 (v : Int) : Nat := (v % 256).toNat

/-- Conversion of an integer value to `uint32_t`. -/
def uint32 (v : Int) : Nat := (v % 4294967296).toNat

/-- Array store `m[r][c] = v` on a two-dimensional array seen as a function. -/
def poner {α : Type} (m : Nat → Nat → α) (r c : Nat) (v : α) : Nat → Nat → α :=
  fun r' c' => if r' = r ∧ c' = c then v else m r' c'

/-! ## glcd.h: colours -/

/-- The macro `RGB(r, g, b)` of `glcd.h` (RGB565 packing). -/
def RGB (r g b : Nat) : Nat :=
  (((r &&& 0xF8) <<< 8) ||| ((g &&& 0xFC) <<< 3)) ||| ((b &&& 0xF8) >>> 3)

def NEGRO : Nat := RGB 0 0 0
def NARANJA : Nat := RGB 255 128 0
def AZUL : Nat := RGB 0 0 255
def VERDE : Nat := RGB 0 255 0
def CIAN : Nat := RGB 0 255 255
def ROJO : Nat := RGB 255 0 0
def MAGENTA : Nat := RGB 255 0 255
def AMARILLO : Nat := RGB 255 255 0

/-! ## piezas.h / piezas.c -/

def PIEZAS_NUM_PIEZAS : Nat := 7
def PIEZAS_TAM_MATRIZ : Nat := 4

/-- The enumeration `piezas_giro`. -/
def DERECHA : Nat := 0
def IZQUIERDA : Nat := 1

/-- The enumeration `piezas_tipo_t`, by its integer values. -/
def PIEZAS_PALO : Nat := 0
def PIEZAS_CUADRADO : Nat := 1
def PIEZAS_ESE : Nat := 2
def PIEZAS_ZETA : Nat := 3
def PIEZAS_ELE : Nat := 4
def PIEZAS_ELEREVES : Nat := 5
def PIEZAS_TE : Nat := 6

/-- The struct `piezas_t`: `tipo`, `tamano` (`uint8_t`), `color` (`uint16_t`)
and the `uint8_t matriz[4][4]`. -/
structure piezas_t where
  tipo : Nat
  tamano : Nat
  color : Nat
  matriz : Nat → Nat → Nat

/-- A brace initialiser `{{..},{..},{..},{..}}` read as a two-dimensional array. -/
def de_filas (l : List (List Nat)) : Nat → Nat → Nat :=
  fun i j => (l.getD i []).getD j 0

def piezas_palo : piezas_t :=
  { tipo := PIEZAS_PALO, tamano := 4, color := ROJO,
    matriz := de_filas [[0, 1, 0, 0],
                        [0, 1, 0, 0],
                        [0, 1, 0, 0],
                        [0, 1, 0, 0]] }

def piezas_cuadrado : piezas_t :=
  { tipo := PIEZAS_CUADRADO, tamano := 2, color := AZUL,
    matriz := de_filas [[1, 1, 0, 0],
                        [1, 1, 0, 0],
                        [0, 0, 0, 0],
                        [0, 0, 0, 0]] }

def piezas_ese : piezas_t :=
  { tipo := PIEZAS_ESE, tamano := 3, color := CIAN,
    matriz := de_filas [[0, 1, 1, 0],
                        [1, 1, 0, 0],
                        [0, 0, 0, 0],
                        [0, 0, 0, 0]] }

def piezas_zeta : piezas_t :=
  { tipo := PIEZAS_ZETA, tamano := 3, color := MAGENTA,
    matriz := de_filas [[1, 1, 0, 0],
                        [0, 1, 1, 0],
                        [0, 0, 0, 0],
                        [0, 0, 0, 0]] }

def piezas_ele : piezas_t :=
  { tipo := PIEZAS_ELE, tamano := 3, color := AMARILLO,
    matriz := de_filas [[0, 1, 0, 0],
                        [0, 1, 0, 0],
                        [0, 1, 1, 0],
                        [0, 0, 0, 0]] }

def piezas_elereves : piezas_t :=
  { tipo := PIEZAS_ELEREVES, tamano := 3, color := NARANJA,
    matriz := de_filas [[0, 1, 0, 0],
                        [0, 1, 0, 0],
                        [1, 1, 0, 0],
                        [0, 0, 0, 0]] }

def piezas_te : piezas_t :=
  { tipo := PIEZAS_TE, tamano := 3, color := VERDE,
    matriz := de_filas [[0, 1, 0, 0],
                        [1, 1, 1, 0],
                        [0, 0, 0, 0],
                        [0, 0, 0, 0]] }

/-- The function `piezas_inicializar`: the value written to `*ptr_pieza`, or
`none` when the `default:` branch calls `ERROR`. -/
def piezas_inicializar (tipo : Nat) : Option piezas_t :=
  if tipo = PIEZAS_PALO then some piezas_palo
  else if tipo = PIEZAS_ESE then some piezas_ese
  else if tipo = PIEZAS_ZETA then some piezas_zeta
  else if tipo = PIEZAS_CUADRADO then some piezas_cuadrado
  else if tipo = PIEZAS_ELE then some piezas_ele
  else if tipo = PIEZAS_ELEREVES then some piezas_elereves
  else if tipo = PIEZAS_TE then some piezas_te
  else none

/-- The function `piezas_rotar`, with the indeterminate initial content
`temp0` of the local array `temp` made explicit. -/
def piezas_rotar_con (temp0 : Nat → Nat → Nat) (p : piezas_t) (sentido : Nat) : piezas_t :=
  let temp : Nat → Nat → Nat :=
    if sentido = DERECHA then
      (List.range p.tamano).foldl (fun t i =>
        (List.range p.tamano).foldl (fun t j =>
          poner t j (p.tamano - i - 1) (p.matriz i j)) t) temp0
    else
      (List.range p.tamano).foldl (fun t i =>
        (List.range p.tamano).foldl (fun t j =>
          poner t (p.tamano - j - 1) i (p.matriz i j)) t) temp0
  { p with
    matriz :=
      (List.range p.tamano).foldl (fun m i =>
        (List.range p.tamano).foldl (fun m j => poner m i j (temp i j)) m) p.matriz }

/-- The function `piezas_rotar` (the local array `temp` starts as zeros; the
result does not depend on that choice, see `piezas_rotar_con_indep`). -/
def piezas_rotar (p : piezas_t) (sentido : Nat) : piezas_t :=
  piezas_rotar_con (fun _ _ => 0) p sentido

/-! ## cubeta.h / cubeta.c -/

def CUBETA_ALTO : Nat := 17
def CUBETA_ANCHO : Nat := 10
def BLOQUE_TAMANO : Nat := 15

/-- The struct `cubeta_t`: `int16_t matriz[17][10]` and the screen origin. -/
structure cubeta_t where
  matriz : Nat → Nat → Int
  x_pantalla : Int
  y_pantalla : Int

/-- The function `cubeta_inicializar`. -/
def cubeta_inicializar (c : cubeta_t) : cubeta_t :=
  { matriz :=
      (List.range CUBETA_ALTO).foldl (fun m i =>
        (List.range CUBETA_ANCHO).foldl (fun m j => poner m i j 0) m) c.matriz
    x_pantalla := int16 (7 * BLOQUE_TAMANO)
    y_pantalla := 0 }

/-- Value of `j` when the inner loop of `cubeta_revisar_filas` stops on row
`i`: the first column holding 0, or `CUBETA_ANCHO` when the loop runs out. -/
def primera_vacia (c : cubeta_t) (i : Nat) : Nat :=
  ((List.range CUBETA_ANCHO).find? (fun j => c.matriz i j == 0)).getD CUBETA_ANCHO

/-- The loop `for (i = fila; i > 0; i--)` of `cubeta_eliminar_fila`, started at `i`. -/
def bajar_filas (m : Nat → Nat → Int) : Nat → Nat → Nat → Int
  | 0 => m
  | i + 1 =>
    bajar_filas
      ((List.range CUBETA_ANCHO).foldl (fun m j => poner m (i + 1) j (m i j)) m) i

/-- The function `cubeta_eliminar_fila`; `none` when its range `ASSERT` fails. -/
def cubeta_eliminar_fila (c : cubeta_t) (fila : Int) : Option cubeta_t :=
  if fila ≥ 0 ∧ fila < CUBETA_ALTO then
    some { c with
      matriz :=
        (List.range CUBETA_ANCHO).foldl (fun m j => poner m 0 j 0)
          (bajar_filas c.matriz fila.toNat) }
  else none

/-- One pass of the outer loop of `cubeta_revisar_filas` on row `i`. -/
def revisar_fila (acc : Option (cubeta_t × Nat)) (i : Nat) : Option (cubeta_t × Nat) :=
  match acc with
  | none => none
  | some (c, filas_eliminadas) =>
    if primera_vacia c i = CUBETA_ANCHO then
      match cubeta_eliminar_fila c (int16 i) with
      | none => none
      | some c' => some (c', filas_eliminadas + 1)
    else some (c, filas_eliminadas)

/-- The function `cubeta_revisar_filas`: the board it leaves and the `uint8_t`
it returns; `none` when an `ASSERT` fails on the way. -/
def cubeta_revisar_filas (c : cubeta_t) : Option (cubeta_t × Nat) :=
  match (List.range CUBETA_ALTO).foldl revisar_fila (some (c, 0)) with
  | none => none
  | some (c', filas_eliminadas) => some (c', uint8 filas_eliminadas)

/-- The function `cubeta_fijar_pieza`. -/
def cubeta_fijar_pieza (c : cubeta_t) (p : piezas_t) (x y : Int) : cubeta_t :=
  { c with
    matriz :=
      (List.range p.tamano).foldl (fun m (i : Nat) =>
        (List.range p.tamano).foldl (fun m (j : Nat) =>
          if (y + i) ≥ 0 ∧ (y + i) < CUBETA_ALTO ∧
              (x + j) ≥ 0 ∧ (x + j) < CUBETA_ANCHO ∧ p.matriz i j ≠ 0 then
            poner m (y + i).toNat (x + j).toNat (int16 p.color)
          else m) m) c.matriz }

/-- The function `cubeta_hay_interseccion`: the nested loops return `TRUE` at
the first filled cell that meets one of the two tests, `FALSE` otherwise. -/
def cubeta_hay_interseccion (c : cubeta_t) (p : piezas_t) (x y : Int) : Bool :=
  (List.range p.tamano).any fun (i : Nat) =>
    (List.range p.tamano).any fun (j : Nat) =>
      p.matriz i j != 0 &&
        ((decide ((y + i) ≥ CUBETA_ALTO) || decide ((x + j) ≥ CUBETA_ANCHO) ||
            decide ((x + j) < 0)) ||
          (decide ((y + i) ≥ 0) && decide ((y + i) < CUBETA_ALTO) &&
            decide ((x + j) ≥ 0) && decide ((x + j) < CUBETA_ANCHO) &&
            c.matriz (y + i).toNat (x + j).toNat != 0))

/-- The function `cubeta_hay_desbordamiento` (the board argument is unused). -/
def cubeta_hay_desbordamiento (_c : cubeta_t) (p : piezas_t) (y : Int) : Bool :=
  (List.range p.tamano).any fun (i : Nat) =>
    (List.range p.tamano).any fun (j : Nat) =>
      p.matriz i j != 0 && decide ((y + i) < 0)

/-! ## joystick.h / menu.h: values returned by `leer_pulsacion` -/

def JOYSTICK_NADA : Nat := 0
def JOYSTICK_ARRIBA : Nat := 1
def JOYSTICK_ABAJO : Nat := 2
def JOYSTICK_IZQUIERDA : Nat := 3
def JOYSTICK_DERECHA : Nat := 4
def JOYSTICK_CENTRO : Nat := 5
def JOYSTICK_INACTIVO : Nat := 0xA5

/-! ## menu.c: the single-slot event register -/

/-- The static variables `hay_nueva_pulsacion` and `nueva_pulsacion` of
`menu.c` and the static local `pulsacion_anterior` of `TIMER1_IRQHandler`. -/
structure pulsador_t where
  hay_nueva_pulsacion : Bool
  nueva_pulsacion : Nat
  pulsacion_anterior : Nat

/-- The values the three variables are initialised with. -/
def pulsador_inicial : pulsador_t :=
  { hay_nueva_pulsacion := false, nueva_pulsacion := JOYSTICK_NADA, pulsacion_anterior := 0 }

/-- The function `leer_pulsacion`: the value returned and the slot it leaves. -/
def leer_pulsacion (m : pulsador_t) : Nat × pulsador_t :=
  if m.hay_nueva_pulsacion then
    (m.nueva_pulsacion, { m with hay_nueva_pulsacion := false })
  else (JOYSTICK_NADA, m)

/-- The function `TIMER1_IRQHandler`; `pulsacion_actual` is the value
`joystick_leer()` returns in this call. -/
def TIMER1_IRQHandler (m : pulsador_t) (pulsacion_actual : Nat) : pulsador_t :=
  let m : pulsador_t :=
    if m.pulsacion_anterior = JOYSTICK_NADA ∧ pulsacion_actual ≠ JOYSTICK_NADA ∧
        (!m.hay_nueva_pulsacion) = true then
      { m with nueva_pulsacion := pulsacion_actual, hay_nueva_pulsacion := true }
    else if m.pulsacion_anterior ≠ JOYSTICK_NADA ∧ pulsacion_actual = JOYSTICK_NADA ∧
        (!m.hay_nueva_pulsacion) = true then
      { m with nueva_pulsacion := JOYSTICK_INACTIVO, hay_nueva_pulsacion := true }
    else m
  { m with pulsacion_anterior := pulsacion_actual }

/-! ## juego.c -/

/-- The variables of `juego` that live across loop iterations, and the global
`contador_ms` of `menu.c`. -/
structure estado_t where
  piezas_actual : piezas_t
  piezas_siguiente : piezas_t
  cubeta : cubeta_t
  x_piezas_actual : Int
  y_piezas_actual : Int
  nivel : Nat
  filas_completadas : Nat
  puntos : Nat
  tiempo_paso : Nat
  temp_tiempo_paso : Nat
  contador_ms : Nat

/-- What one pass of the `while (1)` body of `juego` leads to. -/
inductive resultado_t where
  /-- The body ran to its end: the loop is back at the top of an iteration. -/
  | continua (s : estado_t)
  /-- The GAME OVER banner is drawn; `juego` waits for a press and returns. -/
  | game_over (s : estado_t)
  /-- An `ASSERT` or `ERROR` stopped the program. -/
  | detenido

/-- The function `TIMER0_IRQHandler`: one millisecond tick. -/
def TIMER0_IRQHandler (s : estado_t) : estado_t :=
  { s with contador_ms := uint32 (s.contador_ms + 1) }

/-- The code of `juego` before its loop.  `cubeta0` is what the static
variable `cubeta` held, `contador_ms` the tick count on entry, and `rnd1`,
`rnd2` are the values of the two calls of `rand()`. -/
def juego_inicio (cubeta0 : cubeta_t) (contador_ms : Nat) (rnd1 rnd2 : Nat) :
    Option estado_t :=
  let nivel : Nat := 1
  let tiempo_paso : Nat := uint32 (750 - 50 * ((nivel : Int) - 1))
  match piezas_inicializar (rnd1 % PIEZAS_NUM_PIEZAS) with
  | none => none
  | some piezas_actual =>
    match piezas_inicializar (rnd2 % PIEZAS_NUM_PIEZAS) with
    | none => none
    | some piezas_siguiente =>
      some
        { piezas_actual := piezas_actual
          piezas_siguiente := piezas_siguiente
          cubeta := cubeta_inicializar cubeta0
          x_piezas_actual :=
            int16 (((CUBETA_ANCHO : Int) + (piezas_actual.tamano : Int) - 4) / 2)
          y_piezas_actual := int16 (-(piezas_actual.tamano : Int))
          nivel := nivel
          filas_completadas := 0
          puntos := 0
          tiempo_paso := tiempo_paso
          temp_tiempo_paso := tiempo_paso
          contador_ms := contador_ms }

/-- The branch of the loop body that fixes the active piece (lines 83-111 of
`juego.c`), entered with `contador_ms` already reset. -/
def juego_fijar (s : estado_t) (rnd : Nat) : resultado_t :=
  match cubeta_revisar_filas
      (cubeta_fijar_pieza s.cubeta s.piezas_actual s.x_piezas_actual s.y_piezas_actual) with
  | none => resultado_t.detenido
  | some (cubeta, filas_eliminadas) =>
    let filas_completadas : Nat :=
      if filas_eliminadas > 0 then uint32 (s.filas_completadas + filas_eliminadas)
      else s.filas_completadas
    let puntos : Nat :=
      if filas_eliminadas > 0 then uint32 (s.puntos + filas_eliminadas * 10 * s.nivel)
      else s.puntos
    let nivel : Nat :=
      if filas_eliminadas > 0 ∧ s.nivel < 9 then uint8 (filas_completadas / 10 + 1)
      else s.nivel
    let tiempo_paso : Nat :=
      if filas_eliminadas > 0 ∧ s.nivel < 9 then uint32 (750 - 50 * ((nivel : Int) - 1))
      else s.tiempo_paso
    match piezas_inicializar (rnd % PIEZAS_NUM_PIEZAS) with
    | none => resultado_t.detenido
    | some piezas_nueva =>
      resultado_t.continua
        { s with
          cubeta := cubeta
          filas_completadas := filas_completadas
          puntos := puntos
          nivel := nivel
          tiempo_paso := tiempo_paso
          piezas_actual := s.piezas_siguiente
          x_piezas_actual :=
            int16 (((CUBETA_ANCHO : Int) + (s.piezas_siguiente.tamano : Int) - 4) / 2)
          y_piezas_actual := int16 (-(s.piezas_siguiente.tamano : Int))
          piezas_siguiente := piezas_nueva }

/-- The branch `else if (tecla_pulsada != JOYSTICK_NADA)` of the loop body
(lines 119-156 of `juego.c`). -/
def juego_tecla (s : estado_t) (tecla_pulsada : Nat) : estado_t :=
  let s : estado_t := { s with tiempo_paso := s.temp_tiempo_paso }
  if tecla_pulsada = JOYSTICK_ARRIBA then
    let piezas_temp := piezas_rotar s.piezas_actual DERECHA
    if !cubeta_hay_interseccion s.cubeta piezas_temp s.x_piezas_actual s.y_piezas_actual then
      { s with piezas_actual := piezas_rotar s.piezas_actual DERECHA }
    else s
  else if tecla_pulsada = JOYSTICK_CENTRO then
    let piezas_temp := piezas_rotar s.piezas_actual IZQUIERDA
    if !cubeta_hay_interseccion s.cubeta piezas_temp s.x_piezas_actual s.y_piezas_actual then
      { s with piezas_actual := piezas_rotar s.piezas_actual IZQUIERDA }
    else s
  else if tecla_pulsada = JOYSTICK_IZQUIERDA ∧
      (!cubeta_hay_interseccion s.cubeta s.piezas_actual
        (int16 (s.x_piezas_actual - 1)) s.y_piezas_actual) = true then
    { s with x_piezas_actual := int16 (s.x_piezas_actual - 1) }
  else if tecla_pulsada = JOYSTICK_DERECHA ∧
      (!cubeta_hay_interseccion s.cubeta s.piezas_actual
        (int16 (s.x_piezas_actual + 1)) s.y_piezas_actual) = true then
    { s with x_piezas_actual := int16 (s.x_piezas_actual + 1) }
  else if tecla_pulsada = JOYSTICK_ABAJO then
    { s with temp_tiempo_paso := s.tiempo_paso, tiempo_paso := 50 }
  else s

/-- One pass of the body of `while (1)` in `juego`.  `tecla_pulsada` is the
value `leer_pulsacion()` returned at the top of the pass and `rnd` the value
`rand()` returns if it is called. -/
def juego_iteracion (s : estado_t) (tecla_pulsada : Nat) (rnd : Nat) : resultado_t :=
  if s.contador_ms ≥ s.tiempo_paso then
    let s : estado_t := { s with contador_ms := 0 }
    if cubeta_hay_interseccion s.cubeta s.piezas_actual s.x_piezas_actual
        (int16 (s.y_piezas_actual + 1)) then
      if cubeta_hay_desbordamiento s.cubeta s.piezas_actual s.y_piezas_actual then
        resultado_t.game_over s
      else juego_fijar s rnd
    else
      resultado_t.continua { s with y_piezas_actual := int16 (s.y_piezas_actual + 1) }
  else if tecla_pulsada ≠ JOYSTICK_NADA then
    resultado_t.continua (juego_tecla s tecla_pulsada)
  else resultado_t.continua s

/-- The loop `do { tecla_pulsada = leer_pulsacion(); } while (...)` that
follows the GAME OVER banner, run on the successive values returned by
`leer_pulsacion`: the press that ends the wait, or `none` while every value
read so far is `JOYSTICK_NADA` or `JOYSTICK_INACTIVO`. -/
def esperar_pulsacion : List Nat → Option Nat
  | [] => none
  | tecla_pulsada :: resto =>
    if tecla_pulsada = JOYSTICK_NADA ∨ tecla_pulsada = JOYSTICK_INACTIVO then
      esperar_pulsacion resto
    else some tecla_pulsada

/-- States of `juego` at the top of a loop iteration: the state the code
before the loop builds, and every state reached from one of them by a
millisecond tick or by one pass of the loop body that comes back to the top,
whatever the polled joystick event and the random draw are. -/
inductive Alcanzable : estado_t → Prop where
  | inicio (cubeta0 : cubeta_t) (contador_ms rnd1 rnd2 : Nat) (s : estado_t) :
      juego_inicio cubeta0 contador_ms rnd1 rnd2 = some s → Alcanzable s
  | tic (s : estado_t) : Alcanzable s → Alcanzable (TIMER0_IRQHandler s)
  | iteracion (s s' : estado_t) (tecla_pulsada rnd : Nat) :
      Alcanzable s → juego_iteracion s tecla_pulsada rnd = resultado_t.continua s' →
      Alcanzable s'

/-- The relation `PasosGravedad n s s'`: `s'` is reached from `s` by `n`
consecutive loop passes that each take the gravity branch without fixing the
piece (tick due, no collision one row below), with any number of millisecond
ticks before each pass and any polled event and random value in it. -/
inductive PasosGravedad : Nat → estado_t → estado_t → Prop where
  | cero (s : estado_t) : PasosGravedad 0 s s
  | paso (n : Nat) (s s1 s2 : estado_t) (tics tecla_pulsada rnd : Nat) :
      PasosGravedad n s s1 →
      (Nat.iterate TIMER0_IRQHandler tics s1).contador_ms ≥ s1.tiempo_paso →
      cubeta_hay_interseccion s1.cubeta s1.piezas_actual s1.x_piezas_actual
        (int16 (s1.y_piezas_actual + 1)) = false →
      juego_iteracion (Nat.iterate TIMER0_IRQHandler tics s1) tecla_pulsada rnd =
        resultado_t.continua s2 →
      PasosGravedad (n + 1) s s2

/-! ## Views used by the statements -/

/-- The cells `(i, j)` of the 4 x 4 array `matriz` of a piece that are not
zero, in row-major order. -/
def celdas_llenas (p : piezas_t) : List (Nat × Nat) :=
  ((List.range PIEZAS_TAM_MATRIZ).flatMap fun i =>
    (List.range PIEZAS_TAM_MATRIZ).map fun j => (i, j)).filter
      fun ij => p.matriz ij.1 ij.2 != 0


/-- Row `r` of the board as the list of its `CUBETA_ANCHO` cells. -/
def fila (c : cubeta_t) (r : Nat) : List Int :=
  (List.range CUBETA_ANCHO).map fun col => c.matriz r col

/-- The board as the list of its `CUBETA_ALTO` rows, top row first. -/
def filas (c : cubeta_t) : List (List Int) :=
  (List.range CUBETA_ALTO).map (fila c)

/-- A row is full when it contains no zero cell. -/
def fila_llena (f : List Int) : Bool := f.all fun v => v != 0

/-- Reference compaction, after the words of the specification: the rows that
are not full, in their order, below as many all-zero rows as rows were
removed. -/
def compactar_referencia (fs : List (List Int)) : List (List Int) :=
  List.replicate (fs.countP fila_llena) (List.replicate CUBETA_ANCHO 0) ++
    fs.filter fun f => !fila_llena f

/-! ## Boards used as concrete inputs -/

/-- An all-zero board at the screen origin `cubeta_inicializar` sets. -/
def cubeta_vacia : cubeta_t :=
  { matriz := fun _ _ => 0, x_pantalla := 105, y_pantalla := 0 }

/-- Scenario F of the specification: rows 13..16 full except column 9. -/
def cubeta_cuatro : cubeta_t :=
  { matriz := fun r col => if 13 ≤ r ∧ r < 17 ∧ col < 9 then 31 else 0
    x_pantalla := 105, y_pantalla := 0 }

/-- A board whose only occupied row is row 16, which is full. -/
def cubeta_fondo : cubeta_t :=
  { matriz := fun r col => if r = 16 ∧ col < 10 then 31 else 0
    x_pantalla := 105, y_pantalla := 0 }

/-- Four stacked full rows 5..8 between two partly filled rows 4 and 9. -/
def cubeta_apilada : cubeta_t :=
  { matriz := fun r col =>
      if 5 ≤ r ∧ r < 9 ∧ col < 10 then 7 else if (r = 4 ∨ r = 9) ∧ col < 3 then 5 else 0
    x_pantalla := 105, y_pantalla := 0 }

/-! ## Game states used as concrete inputs -/

/-- The state `juego` builds before its loop when the two draws are a PALO
and a TE, entered with `contador_ms = 750`. -/
def estado_inicial : estado_t :=
  { piezas_actual := piezas_palo, piezas_siguiente := piezas_te,
    cubeta := cubeta_inicializar cubeta_vacia,
    x_piezas_actual := 5, y_piezas_actual := -4,
    nivel := 1, filas_completadas := 0, puntos := 0,
    tiempo_paso := 750, temp_tiempo_paso := 750, contador_ms := 750 }

/-- Scenario F: the PALO stands in column 9 on rows 13..16 of `cubeta_cuatro`,
at level 3 with 27 lines and 100 points, and the gravity tick is due. -/
def estado_cuatro : estado_t :=
  { piezas_actual := piezas_palo, piezas_siguiente := piezas_te,
    cubeta := cubeta_cuatro,
    x_piezas_actual := 8, y_piezas_actual := 13,
    nivel := 3, filas_completadas := 27, puntos := 100,
    tiempo_paso := 650, temp_tiempo_paso := 750, contador_ms := 650 }

/-- A PALO that cannot go down from its first position: column 6 is occupied
from row 0 downwards, and the gravity tick is due. -/
def estado_desbordado : estado_t :=
  { piezas_actual := piezas_palo, piezas_siguiente := piezas_te,
    cubeta := { matriz := fun _ col => if col = 6 then 31 else 0,
                x_pantalla := 105, y_pantalla := 0 },
    x_piezas_actual := 5, y_piezas_actual := -4,
    nivel := 1, filas_completadas := 0, puntos := 0,
    tiempo_paso := 750, temp_tiempo_paso := 750, contador_ms := 750 }

/-- The state `juego` builds before its loop when the two draws are a PALO
and a TE, entered with `contador_ms = 0`. -/
def estado_arranque : estado_t := { estado_inicial with contador_ms := 0 }

/-- The state `estado_arranque` after a Down press: soft drop in effect. -/
def estado_caida_rapida : estado_t := { estado_arranque with tiempo_paso := 50 }

/-- A state just after the lock that brought the line count to 10 at level 1:
level 2, period 700, and the saved period still 750; the tick is not due. -/
def estado_nivel_dos : estado_t :=
  { estado_arranque with nivel := 2, filas_completadas := 10, puntos := 100,
                         tiempo_paso := 700, temp_tiempo_paso := 750 }

/-- Scenario F at level 1 with 6 lines: the lock brings the line count to 10. -/
def estado_diez : estado_t :=
  { estado_cuatro with nivel := 1, filas_completadas := 6, puntos := 60,
                       tiempo_paso := 750, contador_ms := 750 }

/-- The PALO of `estado_arranque` moved against the left wall: its filled
column stands in board column 0. -/
def estado_pared : estado_t :=
  { estado_arranque with x_piezas_actual := -1, y_piezas_actual := 3 }

/-- Scenario E of the specification: the only occupied cell is row 6, column 0. -/
def cubeta_vecino : cubeta_t :=
  { matriz := fun r col => if r = 6 ∧ col = 0 then 31 else 0
    x_pantalla := 105, y_pantalla := 0 }

/-- Scenario E: a TE in its initial orientation at x = 0, y = 5 on
`cubeta_vecino`; the gravity tick is not due. -/
def estado_vecino : estado_t :=
  { estado_arranque with piezas_actual := piezas_te, cubeta := cubeta_vecino,
                         x_piezas_actual := 0, y_piezas_actual := 5 }

/-- Number of board rows that hold at least one filled cell of the piece
placed at `(x, y)` (cells between the walls). -/
def filas_ocupadas (p : piezas_t) (x y : Int) : Nat :=
  (List.range CUBETA_ALTO).countP fun (r : Nat) =>
    (List.range p.tamano).any fun (i : Nat) =>
      (List.range p.tamano).any fun (j : Nat) =>
        p.matriz i j != 0 && decide (y + i = (r : Int)) && decide (0 ≤ x + j) &&
          decide (x + j < CUBETA_ANCHO)

/-- Number of rows the loop pass that starts in `s` removes: the value
`cubeta_revisar_filas` returns in the branch that fixes the piece (lines
85-86 of `juego.c`), and 0 in every other pass. -/
def filas_eliminadas_pasada (s : estado_t) : Nat :=
  if s.contador_ms ≥ s.tiempo_paso ∧
      cubeta_hay_interseccion s.cubeta s.piezas_actual s.x_piezas_actual
        (int16 (s.y_piezas_actual + 1)) = true ∧
      cubeta_hay_desbordamiento s.cubeta s.piezas_actual s.y_piezas_actual = false then
    match cubeta_revisar_filas
        (cubeta_fijar_pieza s.cubeta s.piezas_actual s.x_piezas_actual s.y_piezas_actual) with
    | some (_, filas_eliminadas) => filas_eliminadas
    | none => 0
  else 0

/-- The relation `Recorrido total s`: the state `s` is at the top of a loop
iteration of a run of `juego` in which `total` rows have been removed since
the game started (`total` is the true count, not the `uint32_t` counter). -/
inductive Recorrido : Nat → estado_t → Prop where
  | inicio (cubeta0 : cubeta_t) (contador_ms rnd1 rnd2 : Nat) (s : estado_t) :
      juego_inicio cubeta0 contador_ms rnd1 rnd2 = some s → Recorrido 0 s
  | tic (total : Nat) (s : estado_t) : Recorrido total s →
      Recorrido total (TIMER0_IRQHandler s)
  | iteracion (total : Nat) (s s' : estado_t) (tecla_pulsada rnd : Nat) :
      Recorrido total s → juego_iteracion s tecla_pulsada rnd = resultado_t.continua s' →
      Recorrido (total + filas_eliminadas_pasada s) s'

/-- The values a board cell holds after a catalog piece has been fixed on it:
the `color` of one of the seven pieces, converted to the `int16_t` of the cell. -/
def color_de_pieza (v : Int) : Prop :=
  ∃ k p, piezas_inicializar k = some p ∧ v = int16 p.color

/-- Number of non-zero cells of the 17 x 10 board. -/
def celdas_ocupadas (c : cubeta_t) : Nat :=
  ((Finset.range CUBETA_ALTO ×ˢ Finset.range CUBETA_ANCHO).filter
    fun rc => c.matriz rc.1 rc.2 ≠ 0).card

/-- Number of filled cells `(i, j)` of the piece, within its `tamano` x
`tamano` box, whose absolute position `(y + i, x + j)` is inside the board. -/
def celdas_dentro (p : piezas_t) (x y : Int) : Nat :=
  ((Finset.range p.tamano ×ˢ Finset.range p.tamano).filter fun ij =>
    p.matriz ij.1 ij.2 ≠ 0 ∧ 0 ≤ y + (ij.1 : Int) ∧ y + (ij.1 : Int) < CUBETA_ALTO ∧
      0 ≤ x + (ij.2 : Int) ∧ x + (ij.2 : Int) < CUBETA_ANCHO).card

/-! ## Array accesses

The arrays of the embedding are total functions, so an index outside an array
does not show in the values computed.  The definitions below list, for the
functions that index with a position or a piece size, the accesses the code
performs, with the index values it computes. -/

/-- One array access: `ptr_pieza->matriz[i][j]`, `ptr_cubeta->matriz[r][c]`,
or `temp[i][j]` (the local array of `piezas_rotar`). -/
inductive acceso_t where
  | pieza (i j : Int)
  | cubeta (r c : Int)
  | temp (i j : Int)

/-- The access is inside its array: `uint8_t matriz[4][4]`,
`int16_t matriz[17][10]`, `uint8_t temp[4][4]`. -/
def acceso_valido : acceso_t → Bool
  | acceso_t.pieza i j =>
    decide (0 ≤ i ∧ i < PIEZAS_TAM_MATRIZ ∧ 0 ≤ j ∧ j < PIEZAS_TAM_MATRIZ)
  | acceso_t.cubeta r c =>
    decide (0 ≤ r ∧ r < CUBETA_ALTO ∧ 0 ≤ c ∧ c < CUBETA_ANCHO)
  | acceso_t.temp i j =>
    decide (0 ≤ i ∧ i < PIEZAS_TAM_MATRIZ ∧ 0 ≤ j ∧ j < PIEZAS_TAM_MATRIZ)

/-- The index pairs `(i, j)` of two nested loops `for (i = 0; i < n; i++)`,
`for (j = 0; j < n; j++)`, in execution order. -/
def pares (n : Nat) : List (Nat × Nat) :=
  (List.range n).flatMap fun i => (List.range n).map fun j => (i, j)

/-- Accesses of nested loops whose body, at `(i, j)`, performs the accesses
`(paso i j).1` and then returns from the function when `(paso i j).2` holds. -/
def recorrer_pares (paso : Nat → Nat → List acceso_t × Bool) :
    List (Nat × Nat) → List acceso_t
  | [] => []
  | ij :: resto =>
    (paso ij.1 ij.2).1 ++ if (paso ij.1 ij.2).2 then [] else recorrer_pares paso resto

/-- Loop body of `cubeta_fijar_pieza`: the `&&` chain reads the piece cell
only after the four range tests, and the board is written when all hold. -/
def cubeta_fijar_pieza_paso (p : piezas_t) (x y : Int) (i j : Nat) : List acceso_t × Bool :=
  if (y + i) ≥ 0 ∧ (y + i) < CUBETA_ALTO ∧ (x + j) ≥ 0 ∧ (x + j) < CUBETA_ANCHO then
    ([acceso_t.pieza i j] ++
      (if p.matriz i j ≠ 0 then [acceso_t.cubeta (y + i) (x + j)] else []), false)
  else ([], false)

/-- Accesses of `cubeta_fijar_pieza`. -/
def cubeta_fijar_pieza_accesos (p : piezas_t) (x y : Int) : List acceso_t :=
  recorrer_pares (cubeta_fijar_pieza_paso p x y) (pares p.tamano)

/-- Loop body of `cubeta_hay_interseccion`: the piece cell is read; for a
filled cell the first test returns, otherwise the second test reads the board
after its four range tests and returns when the board cell is not 0. -/
def cubeta_hay_interseccion_paso (c : cubeta_t) (p : piezas_t) (x y : Int) (i j : Nat) :
    List acceso_t × Bool :=
  ([acceso_t.pieza i j] ++
    (if p.matriz i j ≠ 0 ∧
        ¬((y + i) ≥ CUBETA_ALTO ∨ (x + j) ≥ CUBETA_ANCHO ∨ (x + j) < 0) ∧
        (y + i) ≥ 0 ∧ (y + i) < CUBETA_ALTO ∧ (x + j) ≥ 0 ∧ (x + j) < CUBETA_ANCHO then
      [acceso_t.cubeta (y + i) (x + j)]
    else []),
    p.matriz i j != 0 &&
      ((decide ((y + i) ≥ CUBETA_ALTO) || decide ((x + j) ≥ CUBETA_ANCHO) ||
          decide ((x + j) < 0)) ||
        (decide ((y + i) ≥ 0) && decide ((y + i) < CUBETA_ALTO) &&
          decide ((x + j) ≥ 0) && decide ((x + j) < CUBETA_ANCHO) &&
          c.matriz (y + i).toNat (x + j).toNat != 0)))

/-- Accesses of `cubeta_hay_interseccion`. -/
def cubeta_hay_interseccion_accesos (c : cubeta_t) (p : piezas_t) (x y : Int) :
    List acceso_t :=
  recorrer_pares (cubeta_hay_interseccion_paso c p x y) (pares p.tamano)

/-- Loop body of `cubeta_hay_desbordamiento`. -/
def cubeta_hay_desbordamiento_paso (p : piezas_t) (y : Int) (i j : Nat) :
    List acceso_t × Bool :=
  ([acceso_t.pieza i j], p.matriz i j != 0 && decide ((y + i) < 0))

/-- Accesses of `cubeta_hay_desbordamiento`. -/
def cubeta_hay_desbordamiento_accesos (p : piezas_t) (y : Int) : List acceso_t :=
  recorrer_pares (cubeta_hay_desbordamiento_paso p y) (pares p.tamano)

/-- Accesses of `piezas_rotar`: the loops that fill `temp` (the index
`tamano - i - 1` is computed in `int`), then the loops that copy it back. -/
def piezas_rotar_accesos (p : piezas_t) (sentido : Nat) : List acceso_t :=
  recorrer_pares (fun i j =>
      (if sentido = DERECHA then
        [acceso_t.pieza i j, acceso_t.temp j ((p.tamano : Int) - i - 1)]
      else [acceso_t.pieza i j, acceso_t.temp ((p.tamano : Int) - j - 1) i], false))
    (pares p.tamano) ++
  recorrer_pares (fun i j => ([acceso_t.temp i j, acceso_t.pieza i j], false))
    (pares p.tamano)

/-- The board after a PALO has been fixed in column 1 on rows 13..16 of the
empty board. -/
def cubeta_torre1 : cubeta_t :=
  cubeta_fijar_pieza (cubeta_inicializar cubeta_vacia) piezas_palo 0 13

/-- The board `cubeta_torre1` after a second PALO has been fixed in column 1
on rows 9..12. -/
def cubeta_torre2 : cubeta_t := cubeta_fijar_pieza cubeta_torre1 piezas_palo 0 9

/-- The board `cubeta_torre2` after a CUADRADO has been fixed on rows 7..8 of
columns 1..2: cell row 7, column 1 is occupied. -/
def cubeta_torre : cubeta_t := cubeta_fijar_pieza cubeta_torre2 piezas_cuadrado 1 7

/-- A state of a game started with `contador_ms = 0` whose draws are PALO,
PALO, CUADRADO, TE, PALO: the three first pieces are fixed as in
`cubeta_torre` and the TE, in its initial orientation, has been moved to
x = 0 and has fallen to y = 5. -/
def estado_bloqueado : estado_t :=
  { piezas_actual := piezas_te, piezas_siguiente := piezas_palo, cubeta := cubeta_torre,
    x_piezas_actual := 0, y_piezas_actual := 5,
    nivel := 1, filas_completadas := 0, puntos := 0,
    tiempo_paso := 750, temp_tiempo_paso := 750, contador_ms := 0 }

/-! ## Abbreviations of statements -/

/-- The laws of C10 for one piece, used to state them for the catalog. -/
def ley_ciclica (p : piezas_t) : Prop :=
  piezas_rotar (piezas_rotar p DERECHA) IZQUIERDA = p ∧
  piezas_rotar (piezas_rotar p IZQUIERDA) DERECHA = p ∧
  Nat.iterate (fun q => piezas_rotar q DERECHA) 4 p = p ∧
  ∀ r, r ≤ 4 →
    Nat.iterate (fun q => piezas_rotar q DERECHA) r p =
      Nat.iterate (fun q => piezas_rotar q IZQUIERDA) (4 - r) p

/-! ## Loops -/

theorem foldl_range_succ {β : Type} (f : β → Nat → β) (b : β) (n : Nat) :
    (List.range (n + 1)).foldl f b = f ((List.range n).foldl f b) n := by
  rw [List.range_succ, List.foldl_append]
  rfl

/-- A full rectangular pass `m[i][j] = F i j` for `i < n`, `j < k`. -/
theorem foldl_copia_fila {α : Type} (F : Nat → α) (i k : Nat) (m : Nat → Nat → α) :
    (List.range k).foldl (fun m j => poner m i j (F j)) m =
      fun r c => if r = i ∧ c < k then F c else m r c := by
  induction k with
  | zero => funext r c; simp
  | succ k ih =>
    rw [foldl_range_succ, ih]
    funext r c
    simp only [poner]
    by_cases h1 : r = i
    · by_cases h2 : c = k
      · subst h1; subst h2; simp
      · have : (c < k + 1) ↔ c < k := by omega
        simp [h1, h2, this]
    · simp [h1]

theorem foldl_copia {α : Type} (F : Nat → Nat → α) (n k : Nat) (m : Nat → Nat → α) :
    (List.range n).foldl (fun m i =>
        (List.range k).foldl (fun m j => poner m i j (F i j)) m) m =
      fun r c => if r < n ∧ c < k then F r c else m r c := by
  induction n with
  | zero => funext r c; simp
  | succ n ih =>
    rw [foldl_range_succ, ih, foldl_copia_fila]
    funext r c
    by_cases h1 : r = n
    · subst h1; simp
    · have : (r < n + 1) ↔ r < n := by omega
      simp [h1, this]

/-! ## piezas_rotar -/

theorem temp_derecha_fila (M : Nat → Nat → Nat) (s i k : Nat) (t : Nat → Nat → Nat) :
    (List.range k).foldl (fun t j => poner t j (s - i - 1) (M i j)) t =
      fun a b => if a < k ∧ b = s - i - 1 then M i a else t a b := by
  induction k with
  | zero => funext a b; simp
  | succ k ih =>
    rw [foldl_range_succ, ih]
    funext a b
    simp only [poner]
    by_cases h1 : a = k
    · subst h1; simp
    · have : (a < k + 1) ↔ a < k := by omega
      simp [h1, this]

theorem temp_derecha (M : Nat → Nat → Nat) (s n : Nat) (hn : n ≤ s) (t : Nat → Nat → Nat) :
    (List.range n).foldl (fun t i =>
        (List.range s).foldl (fun t j => poner t j (s - i - 1) (M i j)) t) t =
      fun a b => if a < s ∧ b < s ∧ s - 1 - b < n then M (s - 1 - b) a else t a b := by
  induction n with
  | zero => funext a b; simp
  | succ n ih =>
    rw [foldl_range_succ, ih (by omega), temp_derecha_fila]
    funext a b
    by_cases h1 : a < s ∧ b = s - n - 1
    · obtain ⟨ha, hb⟩ := h1
      have h2 : s - 1 - b = n := by omega
      have h3 : b < s := by omega
      rw [if_pos ⟨ha, hb⟩, if_pos ⟨ha, h3, by omega⟩, h2]
    · rw [if_neg h1]
      by_cases h4 : a < s ∧ b < s ∧ s - 1 - b < n
      · rw [if_pos h4, if_pos ⟨h4.1, h4.2.1, by omega⟩]
      · rw [if_neg h4, if_neg]
        intro h5
        apply h4
        refine ⟨h5.1, h5.2.1, ?_⟩
        by_contra h6
        apply h1
        exact ⟨h5.1, by omega⟩

theorem temp_izquierda_fila (M : Nat → Nat → Nat) (s i k : Nat) (hk : k ≤ s)
    (t : Nat → Nat → Nat) :
    (List.range k).foldl (fun t j => poner t (s - j - 1) i (M i j)) t =
      fun a b => if b = i ∧ a < s ∧ s - 1 - a < k then M i (s - 1 - a) else t a b := by
  induction k with
  | zero => funext a b; simp
  | succ k ih =>
    rw [foldl_range_succ, ih (by omega)]
    funext a b
    simp only [poner]
    by_cases h1 : a = s - k - 1 ∧ b = i
    · obtain ⟨ha, hb⟩ := h1
      have h2 : s - 1 - a = k := by omega
      have h3 : a < s := by omega
      rw [if_pos ⟨ha, hb⟩, if_pos ⟨hb, h3, by omega⟩, h2]
    · rw [if_neg h1]
      by_cases h4 : b = i ∧ a < s ∧ s - 1 - a < k
      · rw [if_pos h4, if_pos ⟨h4.1, h4.2.1, by omega⟩]
      · rw [if_neg h4, if_neg]
        intro h5
        apply h4
        refine ⟨h5.1, h5.2.1, ?_⟩
        by_contra h6
        apply h1
        exact ⟨by omega, h5.1⟩

theorem temp_izquierda (M : Nat → Nat → Nat) (s n : Nat) (t : Nat → Nat → Nat) :
    (List.range n).foldl (fun t i =>
        (List.range s).foldl (fun t j => poner t (s - j - 1) i (M i j)) t) t =
      fun a b => if a < s ∧ b < n then M b (s - 1 - a) else t a b := by
  induction n with
  | zero => funext a b; simp
  | succ n ih =>
    rw [foldl_range_succ, ih, temp_izquierda_fila M s n s (le_refl s)]
    funext a b
    by_cases h1 : b = n
    · subst h1
      by_cases h2 : a < s
      · have h3 : s - 1 - a < s := by omega
        simp [h2, h3]
      · simp [h2]
    · have : (b < n + 1) ↔ b < n := by omega
      simp [h1, this]

/-- The matrix left by a right rotation. -/
theorem piezas_rotar_con_derecha (t0 : Nat → Nat → Nat) (p : piezas_t) :
    piezas_rotar_con t0 p DERECHA =
      { p with
        matriz := fun a b =>
          if a < p.tamano ∧ b < p.tamano then p.matriz (p.tamano - 1 - b) a
          else p.matriz a b } := by
  unfold piezas_rotar_con
  simp only [if_true]
  rw [temp_derecha p.matriz p.tamano p.tamano (le_refl _), foldl_copia]
  congr 1
  funext a b
  by_cases h : a < p.tamano ∧ b < p.tamano
  · have h3 : p.tamano - 1 - b < p.tamano := by omega
    simp [h.1, h.2, h3]
  · simp [h]

/-- The matrix left by a left rotation (any `sentido` other than `DERECHA`). -/
theorem piezas_rotar_con_izquierda (t0 : Nat → Nat → Nat) (p : piezas_t) (sentido : Nat)
    (hs : sentido ≠ DERECHA) :
    piezas_rotar_con t0 p sentido =
      { p with
        matriz := fun a b =>
          if a < p.tamano ∧ b < p.tamano then p.matriz b (p.tamano - 1 - a)
          else p.matriz a b } := by
  unfold piezas_rotar_con
  simp only [if_neg hs]
  rw [temp_izquierda, foldl_copia]
  congr 1
  funext a b
  by_cases h : a < p.tamano ∧ b < p.tamano
  · simp [h.1, h.2]
  · simp [h]

/-- The result of `piezas_rotar` does not depend on what the local array
`temp` held on entry: every cell of `temp` that is read was written before. -/
theorem piezas_rotar_con_indep (t0 t1 : Nat → Nat → Nat) (p : piezas_t) (sentido : Nat) :
    piezas_rotar_con t0 p sentido = piezas_rotar_con t1 p sentido := by
  by_cases hs : sentido = DERECHA
  · subst hs
    rw [piezas_rotar_con_derecha, piezas_rotar_con_derecha]
  · rw [piezas_rotar_con_izquierda t0 p sentido hs, piezas_rotar_con_izquierda t1 p sentido hs]

theorem piezas_rotar_derecha (p : piezas_t) :
    piezas_rotar p DERECHA =
      { p with
        matriz := fun a b =>
          if a < p.tamano ∧ b < p.tamano then p.matriz (p.tamano - 1 - b) a
          else p.matriz a b } :=
  piezas_rotar_con_derecha _ p

theorem piezas_rotar_izquierda (p : piezas_t) (sentido : Nat) (hs : sentido ≠ DERECHA) :
    piezas_rotar p sentido =
      { p with
        matriz := fun a b =>
          if a < p.tamano ∧ b < p.tamano then p.matriz b (p.tamano - 1 - a)
          else p.matriz a b } :=
  piezas_rotar_con_izquierda _ p sentido hs

theorem piezas_rotar_izquierda_derecha (p : piezas_t) :
    piezas_rotar (piezas_rotar p DERECHA) IZQUIERDA = p := by
  rw [piezas_rotar_izquierda _ IZQUIERDA (by decide), piezas_rotar_derecha]
  cases p with
  | mk tipo s color M =>
    simp only [piezas_t.mk.injEq, true_and]
    funext a b
    by_cases h : a < s ∧ b < s
    · have h2 : b < s ∧ s - 1 - a < s := ⟨h.2, by omega⟩
      have h3 : s - 1 - (s - 1 - a) = a := by omega
      rw [if_pos h, if_pos h2, h3]
    · rw [if_neg h, if_neg h]

theorem piezas_rotar_derecha_izquierda (p : piezas_t) :
    piezas_rotar (piezas_rotar p IZQUIERDA) DERECHA = p := by
  rw [piezas_rotar_derecha, piezas_rotar_izquierda _ IZQUIERDA (by decide)]
  cases p with
  | mk tipo s color M =>
    simp only [piezas_t.mk.injEq, true_and]
    funext a b
    by_cases h : a < s ∧ b < s
    · have h2 : s - 1 - b < s ∧ a < s := ⟨by omega, h.1⟩
      have h3 : s - 1 - (s - 1 - b) = b := by omega
      rw [if_pos h, if_pos h2, h3]
    · rw [if_neg h, if_neg h]

theorem piezas_rotar_derecha_cuatro (p : piezas_t) :
    piezas_rotar (piezas_rotar (piezas_rotar (piezas_rotar p DERECHA) DERECHA) DERECHA)
      DERECHA = p := by
  rw [piezas_rotar_derecha, piezas_rotar_derecha, piezas_rotar_derecha, piezas_rotar_derecha]
  cases p with
  | mk tipo s color M =>
    simp only [piezas_t.mk.injEq, true_and]
    funext a b
    by_cases h : a < s ∧ b < s
    · have h2 : s - 1 - b < s ∧ a < s := ⟨by omega, h.1⟩
      have h3 : s - 1 - a < s ∧ s - 1 - b < s := ⟨by omega, by omega⟩
      have h4 : s - 1 - (s - 1 - b) < s ∧ s - 1 - a < s := ⟨by omega, by omega⟩
      have h5 : s - 1 - (s - 1 - b) = b := by omega
      have h6 : s - 1 - (s - 1 - a) = a := by omega
      rw [if_pos h, if_pos h2, if_pos h3, if_pos h4, h5, h6]
    · simp only [if_neg h]

/-- C9. For a piece of size `s` in {2, 3, 4} with arbitrary matrix contents,
`piezas_rotar` with `sentido = DERECHA` gives `matriz'[j][s-1-i] = matriz[i][j]`
for all `i, j < s`, and with any other `sentido` gives
`matriz'[s-1-j][i] = matriz[i][j]`; in both cases the cells outside the
top-left `s x s` box and the fields `tipo`, `tamano`, `color` are unchanged, so
a piece that is zero outside its box stays zero there. -/
theorem piezas_rotar_celdas (p : piezas_t) (sentido : Nat)
    (hs : p.tamano = 2 ∨ p.tamano = 3 ∨ p.tamano = 4) :
    (sentido = DERECHA → ∀ i j, i < p.tamano → j < p.tamano →
        (piezas_rotar p sentido).matriz j (p.tamano - 1 - i) = p.matriz i j) ∧
    (sentido ≠ DERECHA → ∀ i j, i < p.tamano → j < p.tamano →
        (piezas_rotar p sentido).matriz (p.tamano - 1 - j) i = p.matriz i j) ∧
    (∀ a b, ¬(a < p.tamano ∧ b < p.tamano) →
        (piezas_rotar p sentido).matriz a b = p.matriz a b) ∧
    (piezas_rotar p sentido).tipo = p.tipo ∧
    (piezas_rotar p sentido).tamano = p.tamano ∧
    (piezas_rotar p sentido).color = p.color ∧
    ((∀ a b, ¬(a < p.tamano ∧ b < p.tamano) → p.matriz a b = 0) →
      ∀ a b, ¬(a < p.tamano ∧ b < p.tamano) → (piezas_rotar p sentido).matriz a b = 0) := by
  have hpos : 0 < p.tamano := by omega
  by_cases hd : sentido = DERECHA
  · subst hd
    rw [piezas_rotar_derecha]
    refine ⟨fun _ i j hi hj => ?_, fun h => absurd rfl h, fun a b h => ?_, rfl, rfl, rfl,
      fun h0 a b h => ?_⟩
    · have h1 : j < p.tamano ∧ p.tamano - 1 - i < p.tamano := ⟨hj, by omega⟩
      have h2 : p.tamano - 1 - (p.tamano - 1 - i) = i := by omega
      simp only [if_pos h1, h2]
    · simp only [if_neg h]
    · simp only [if_neg h]
      exact h0 a b h
  · rw [piezas_rotar_izquierda p sentido hd]
    refine ⟨fun h => absurd h hd, fun _ i j hi hj => ?_, fun a b h => ?_, rfl, rfl, rfl,
      fun h0 a b h => ?_⟩
    · have h1 : p.tamano - 1 - j < p.tamano ∧ i < p.tamano := ⟨by omega, hi⟩
      have h2 : p.tamano - 1 - (p.tamano - 1 - j) = j := by omega
      simp only [if_pos h1, h2]
    · simp only [if_neg h]
    · simp only [if_neg h]
      exact h0 a b h

theorem piezas_rotar_celdas_witness :
    (∀ i j, i < 3 → j < 3 →
        (piezas_rotar piezas_te DERECHA).matriz j (3 - 1 - i) = piezas_te.matriz i j) ∧
    (piezas_rotar piezas_te DERECHA).color = VERDE :=
  ⟨fun i j hi hj =>
      (piezas_rotar_celdas piezas_te DERECHA (Or.inr (Or.inl rfl))).1 rfl i j hi hj,
    (piezas_rotar_celdas piezas_te DERECHA (Or.inr (Or.inl rfl))).2.2.2.2.2.1⟩

/-- C10. Rotations form a cyclic group of order 4: for a piece of size 2, 3 or
4, right then left and left then right give the piece back, four right
rotations give the piece back, and for r = 0..4, r right rotations give the
same piece as 4 - r left rotations. -/
theorem piezas_rotar_grupo (p : piezas_t)
    (_hs : p.tamano = 2 ∨ p.tamano = 3 ∨ p.tamano = 4) :
    piezas_rotar (piezas_rotar p DERECHA) IZQUIERDA = p ∧
    piezas_rotar (piezas_rotar p IZQUIERDA) DERECHA = p ∧
    Nat.iterate (fun q => piezas_rotar q DERECHA) 4 p = p ∧
    ∀ r, r ≤ 4 →
      Nat.iterate (fun q => piezas_rotar q DERECHA) r p =
        Nat.iterate (fun q => piezas_rotar q IZQUIERDA) (4 - r) p := by
  have h4 := piezas_rotar_derecha_cuatro p
  refine ⟨piezas_rotar_izquierda_derecha p, piezas_rotar_derecha_izquierda p, h4, ?_⟩
  intro r hr
  interval_cases r
  · show p = _
    simp only [Function.iterate_succ, Function.iterate_zero, Function.comp, id]
    conv_rhs => rw [← h4]
    simp only [piezas_rotar_izquierda_derecha]
  · simp only [Function.iterate_succ, Function.iterate_zero, Function.comp, id]
    conv_rhs => rw [← h4]
    simp only [piezas_rotar_izquierda_derecha]
  · simp only [Function.iterate_succ, Function.iterate_zero, Function.comp, id]
    conv_rhs => rw [← h4]
    simp only [piezas_rotar_izquierda_derecha]
  · simp only [Function.iterate_succ, Function.iterate_zero, Function.comp, id]
    conv_rhs => rw [← h4]
    simp only [piezas_rotar_izquierda_derecha]
  · simp only [Function.iterate_succ, Function.iterate_zero, Function.comp, id]
    exact h4

/-! ## cubeta_hay_interseccion, cubeta_hay_desbordamiento -/

theorem hay_interseccion_iff (c : cubeta_t) (p : piezas_t) (x y : Int) :
    cubeta_hay_interseccion c p x y = true ↔
      ∃ i j : Nat, i < p.tamano ∧ j < p.tamano ∧ p.matriz i j ≠ 0 ∧
        (x + j < 0 ∨ x + j ≥ 10 ∨ y + i ≥ 17 ∨
          (0 ≤ y + i ∧ y + i < 17 ∧ 0 ≤ x + j ∧ x + j < 10 ∧
            c.matriz (y + i).toNat (x + j).toNat ≠ 0)) := by
  unfold cubeta_hay_interseccion
  simp only [List.any_eq_true, List.mem_range, Bool.and_eq_true, Bool.or_eq_true,
    decide_eq_true_eq, bne_iff_ne, ne_eq, CUBETA_ALTO, CUBETA_ANCHO, Nat.cast_ofNat]
  constructor
  · rintro ⟨i, hi, j, hj, hf, h⟩
    exact ⟨i, j, hi, hj, hf, by tauto⟩
  · rintro ⟨i, j, hi, hj, hf, h⟩
    exact ⟨i, hi, j, hj, hf, by tauto⟩

theorem hay_desbordamiento_iff (c : cubeta_t) (p : piezas_t) (y : Int) :
    cubeta_hay_desbordamiento c p y = true ↔
      ∃ i j : Nat, i < p.tamano ∧ j < p.tamano ∧ p.matriz i j ≠ 0 ∧ y + i < 0 := by
  unfold cubeta_hay_desbordamiento
  simp only [List.any_eq_true, List.mem_range, Bool.and_eq_true,
    decide_eq_true_eq, bne_iff_ne, ne_eq]
  constructor
  · rintro ⟨i, hi, j, hj, hf, h⟩
    exact ⟨i, j, hi, hj, hf, h⟩
  · rintro ⟨i, j, hi, hj, hf, h⟩
    exact ⟨i, hi, j, hj, hf, h⟩

/-! ## cubeta_fijar_pieza -/

/-- A loop whose pass `k` stores the one value `v` in the cells picked by
`Q k` and leaves the others alone stores `v` in the cells picked by some pass. -/
theorem foldl_marca (Q : Nat → Nat → Nat → Prop) (v : Int)
    (f : (Nat → Nat → Int) → Nat → Nat → Nat → Int)
    (hf : ∀ m k r c, (Q k r c → f m k r c = v) ∧ (¬Q k r c → f m k r c = m r c))
    (n : Nat) (m0 : Nat → Nat → Int) (r c : Nat) :
    ((∃ k, k < n ∧ Q k r c) → (List.range n).foldl f m0 r c = v) ∧
    ((¬∃ k, k < n ∧ Q k r c) → (List.range n).foldl f m0 r c = m0 r c) := by
  induction n with
  | zero => simp
  | succ n ih =>
    rw [foldl_range_succ]
    by_cases hq : Q n r c
    · refine ⟨fun _ => (hf _ n r c).1 hq, fun h => absurd ⟨n, Nat.lt_succ_self n, hq⟩ h⟩
    · rw [(hf _ n r c).2 hq]
      constructor
      · rintro ⟨k, hk, hk2⟩
        have hkn : k ≠ n := fun h => hq (h ▸ hk2)
        exact ih.1 ⟨k, by omega, hk2⟩
      · intro h
        exact ih.2 (fun ⟨k, hk, hk2⟩ => h ⟨k, by omega, hk2⟩)

theorem fijar_pieza_celda (c : cubeta_t) (p : piezas_t) (x y : Int) (r col : Nat) :
    ((∃ i j : Nat, i < p.tamano ∧ j < p.tamano ∧ p.matriz i j ≠ 0 ∧
          y + i = r ∧ x + j = col ∧ r < 17 ∧ col < 10) →
        (cubeta_fijar_pieza c p x y).matriz r col = int16 p.color) ∧
    ((¬∃ i j : Nat, i < p.tamano ∧ j < p.tamano ∧ p.matriz i j ≠ 0 ∧
          y + i = r ∧ x + j = col ∧ r < 17 ∧ col < 10) →
        (cubeta_fijar_pieza c p x y).matriz r col = c.matriz r col) := by
  have hin : ∀ (i : Nat) (m : Nat → Nat → Int) (j r col : Nat),
      let Q : Nat → Nat → Nat → Prop := fun j r col =>
        p.matriz i j ≠ 0 ∧ y + i = r ∧ x + j = col ∧ r < 17 ∧ col < 10
      (Q j r col →
        (if (y + i) ≥ 0 ∧ (y + i) < CUBETA_ALTO ∧ (x + j) ≥ 0 ∧ (x + j) < CUBETA_ANCHO ∧
            p.matriz i j ≠ 0 then poner m (y + i).toNat (x + j).toNat (int16 p.color)
          else m) r col = int16 p.color) ∧
      (¬Q j r col →
        (if (y + i) ≥ 0 ∧ (y + i) < CUBETA_ALTO ∧ (x + j) ≥ 0 ∧ (x + j) < CUBETA_ANCHO ∧
            p.matriz i j ≠ 0 then poner m (y + i).toNat (x + j).toNat (int16 p.color)
          else m) r col = m r col) := by
    intro i m j r col Q
    simp only [Q, CUBETA_ALTO, CUBETA_ANCHO, Nat.cast_ofNat]
    constructor
    · rintro ⟨hf, hr, hc, hr2, hc2⟩
      have : (y + i) ≥ 0 ∧ (y + i) < 17 ∧ (x + j) ≥ 0 ∧ (x + j) < 10 ∧ p.matriz i j ≠ 0 :=
        ⟨by omega, by omega, by omega, by omega, hf⟩
      rw [if_pos this]
      simp only [poner]
      rw [if_pos ⟨by omega, by omega⟩]
    · intro hQ
      split
      · rename_i h
        simp only [poner]
        rw [if_neg]
        rintro ⟨h1, h2⟩
        exact hQ ⟨h.2.2.2.2, by omega, by omega, by omega, by omega⟩
      · rfl
  have hout := foldl_marca
    (fun i r col => ∃ j, j < p.tamano ∧
      (p.matriz i j ≠ 0 ∧ y + i = r ∧ x + j = col ∧ r < 17 ∧ col < 10))
    (int16 p.color)
    (fun m (i : Nat) => (List.range p.tamano).foldl (fun m (j : Nat) =>
      if (y + i) ≥ 0 ∧ (y + i) < CUBETA_ALTO ∧ (x + j) ≥ 0 ∧ (x + j) < CUBETA_ANCHO ∧
          p.matriz i j ≠ 0 then poner m (y + i).toNat (x + j).toNat (int16 p.color)
      else m) m)
    (fun m i r col => foldl_marca _ (int16 p.color) _ (fun m' j r' c' => hin i m' j r' c')
      p.tamano m r col)
    p.tamano c.matriz r col
  constructor
  · rintro ⟨i, j, hi, hj, h⟩
    exact hout.1 ⟨i, hi, j, hj, h⟩
  · intro h
    exact hout.2 (fun ⟨i, hi, j, hj, h2⟩ => h ⟨i, j, hi, hj, h2⟩)

/-! ## cubeta_eliminar_fila, cubeta_revisar_filas -/

theorem bajar_fila_paso (i k : Nat) (m : Nat → Nat → Int) :
    (List.range k).foldl (fun m j => poner m (i + 1) j (m i j)) m =
      fun r c => if r = i + 1 ∧ c < k then m i c else m r c := by
  induction k with
  | zero => funext r c; simp
  | succ k ih =>
    rw [foldl_range_succ, ih]
    funext r c
    simp only [poner]
    have hi : ¬(i = i + 1 ∧ k < k) := by omega
    by_cases h1 : r = i + 1
    · by_cases h2 : c = k
      · subst h1; subst h2; simp
      · have : (c < k + 1) ↔ c < k := by omega
        simp [h1, h2, this]
    · simp [h1]

theorem bajar_filas_eq (i : Nat) (m : Nat → Nat → Int) :
    bajar_filas m i =
      fun r c => if 1 ≤ r ∧ r ≤ i ∧ c < CUBETA_ANCHO then m (r - 1) c else m r c := by
  induction i generalizing m with
  | zero =>
    funext r c
    have : ¬(1 ≤ r ∧ r ≤ 0 ∧ c < CUBETA_ANCHO) := by omega
    simp only [bajar_filas, if_neg this]
  | succ i ih =>
    rw [bajar_filas, ih, bajar_fila_paso]
    funext r c
    show (if 1 ≤ r ∧ r ≤ i ∧ c < CUBETA_ANCHO then
        (if r - 1 = i + 1 ∧ c < CUBETA_ANCHO then m i c else m (r - 1) c)
      else (if r = i + 1 ∧ c < CUBETA_ANCHO then m i c else m r c)) = _
    by_cases h1 : 1 ≤ r ∧ r ≤ i ∧ c < CUBETA_ANCHO
    · have h2 : ¬(r - 1 = i + 1 ∧ c < CUBETA_ANCHO) := by omega
      rw [if_pos h1, if_neg h2, if_pos ⟨h1.1, by omega, h1.2.2⟩]
    · rw [if_neg h1]
      by_cases h3 : r = i + 1 ∧ c < CUBETA_ANCHO
      · rw [if_pos h3, if_pos ⟨by omega, by omega, h3.2⟩]
        have : r - 1 = i := by omega
        rw [this]
      · rw [if_neg h3, if_neg]
        omega

theorem int16_nat (n : Nat) (h : n < 32768) : int16 n = n := by
  unfold int16
  omega

theorem eliminar_fila_eq (c : cubeta_t) (n : Nat) (hn : n < CUBETA_ALTO) :
    cubeta_eliminar_fila c (int16 n) =
      some { c with
        matriz := fun r col =>
          if col < CUBETA_ANCHO then
            if r = 0 then 0 else if r ≤ n then c.matriz (r - 1) col else c.matriz r col
          else c.matriz r col } := by
  have hn2 : n < 17 := hn
  rw [int16_nat n (by omega)]
  unfold cubeta_eliminar_fila
  have h1 : (n : Int) ≥ 0 ∧ (n : Int) < (CUBETA_ALTO : Nat) := by
    simp only [CUBETA_ALTO]; omega
  rw [if_pos h1, bajar_filas_eq, foldl_copia_fila (fun _ => (0 : Int))]
  simp only [Int.toNat_ofNat, Option.some.injEq, cubeta_t.mk.injEq, and_true]
  funext r col
  by_cases hc : col < CUBETA_ANCHO
  · by_cases hr : r = 0
    · simp [hc, hr]
    · by_cases hr2 : r ≤ n
      · have : 1 ≤ r := by omega
        simp [hc, hr, hr2, this]
      · simp [hc, hr, hr2]
  · simp [hc]

theorem fila_eliminar (c : cubeta_t) (n r : Nat) :
    fila { c with
        matriz := fun r col =>
          if col < CUBETA_ANCHO then
            if r = 0 then 0 else if r ≤ n then c.matriz (r - 1) col else c.matriz r col
          else c.matriz r col } r =
      if r = 0 then List.replicate CUBETA_ANCHO 0
      else if r ≤ n then fila c (r - 1) else fila c r := by
  unfold fila
  by_cases h0 : r = 0
  · rw [if_pos h0]
    apply List.ext_getElem
    · simp
    · intro k h1 h2
      simp at h1
      simp [h0, h1]
  · rw [if_neg h0]
    by_cases h1 : r ≤ n
    · rw [if_pos h1]
      apply List.map_congr_left
      intro col hcol
      rw [List.mem_range] at hcol
      simp [hcol, h0, h1]
    · rw [if_neg h1]
      apply List.map_congr_left
      intro col hcol
      rw [List.mem_range] at hcol
      simp [hcol, h0, h1]

theorem filas_length (c : cubeta_t) : (filas c).length = CUBETA_ALTO := by
  simp [filas]

theorem filas_getElem (c : cubeta_t) (r : Nat) (h : r < (filas c).length) :
    (filas c)[r] = fila c r := by
  simp [filas]

theorem filas_eliminar (c c' : cubeta_t) (n : Nat) (hn : n < CUBETA_ALTO)
    (h : cubeta_eliminar_fila c (int16 n) = some c') :
    filas c' =
      List.replicate CUBETA_ANCHO 0 :: ((filas c).take n ++ (filas c).drop (n + 1)) := by
  rw [eliminar_fila_eq c n hn] at h
  injection h with h
  subst h
  have hn2 : n < 17 := hn
  apply List.ext_getElem
  · simp only [List.length_cons, List.length_append, List.length_take, List.length_drop,
      filas_length, CUBETA_ALTO]
    omega
  · intro r h1 h2
    have hr : r < 17 := by rw [filas_length] at h1; exact h1
    rw [filas_getElem, fila_eliminar]
    rcases r with _ | r
    · simp
    · have hr0 : r + 1 ≠ 0 := by omega
      rw [if_neg hr0, List.getElem_cons_succ, List.getElem_append]
      by_cases h3 : r + 1 ≤ n
      · have h4 : r < (List.take n (filas c)).length := by
          rw [List.length_take, filas_length]; simp only [CUBETA_ALTO]; omega
        rw [if_pos h3, dif_pos h4, List.getElem_take, filas_getElem]
        rfl
      · have h4 : ¬ r < (List.take n (filas c)).length := by
          rw [List.length_take, filas_length]; simp only [CUBETA_ALTO]; omega
        rw [if_neg h3, dif_neg h4, List.getElem_drop, filas_getElem]
        congr 1
        rw [List.length_take, filas_length]
        simp only [CUBETA_ALTO]
        omega

theorem fila_llena_iff (c : cubeta_t) (i : Nat) :
    fila_llena (fila c i) = true ↔ ∀ j, j < CUBETA_ANCHO → c.matriz i j ≠ 0 := by
  unfold fila_llena fila
  rw [List.all_eq_true]
  constructor
  · intro h j hj
    have := h (c.matriz i j) (List.mem_map.mpr ⟨j, List.mem_range.mpr hj, rfl⟩)
    simpa using this
  · intro h v hv
    obtain ⟨j, hj, rfl⟩ := List.mem_map.mp hv
    have := h j (List.mem_range.mp hj)
    simpa using this

theorem primera_vacia_iff (c : cubeta_t) (i : Nat) :
    primera_vacia c i = CUBETA_ANCHO ↔ fila_llena (fila c i) = true := by
  rw [fila_llena_iff]
  unfold primera_vacia
  constructor
  · intro h j hj hz
    cases hfind : (List.range CUBETA_ANCHO).find? (fun j => c.matriz i j == 0) with
    | none =>
      rw [List.find?_eq_none] at hfind
      exact hfind j (List.mem_range.mpr hj) (by simpa using hz)
    | some k =>
      rw [hfind] at h
      have hk := List.mem_of_find?_eq_some hfind
      rw [List.mem_range] at hk
      simp only [Option.getD_some] at h
      omega
  · intro h
    have : (List.range CUBETA_ANCHO).find? (fun j => c.matriz i j == 0) = none := by
      rw [List.find?_eq_none]
      intro j hj
      rw [List.mem_range] at hj
      simpa using h j hj
    rw [this]
    rfl

/-- State of the outer loop of `cubeta_revisar_filas` after the passes on rows
`0 .. n-1`: the rows examined so far are compacted, the rest is untouched. -/
theorem revisar_filas_inv (c : cubeta_t) (n : Nat) (hn : n ≤ CUBETA_ALTO) :
    ∃ c' : cubeta_t,
      (List.range n).foldl revisar_fila (some (c, 0)) =
        some (c', ((filas c).take n).countP fila_llena) ∧
      filas c' =
        List.replicate (((filas c).take n).countP fila_llena) (List.replicate CUBETA_ANCHO 0) ++
          (((filas c).take n).filter fun f => !fila_llena f) ++ (filas c).drop n ∧
      c'.x_pantalla = c.x_pantalla ∧ c'.y_pantalla = c.y_pantalla := by
  induction n with
  | zero => exact ⟨c, by simp⟩
  | succ n ih =>
    obtain ⟨c1, hfold, hfilas, hx, hy⟩ := ih (by omega)
    have hnL : n < (filas c).length := by rw [filas_length]; omega
    have hn1 : n < (filas c1).length := by rw [filas_length]; omega
    have htake : (filas c).take (n + 1) = (filas c).take n ++ [(filas c)[n]] := by
      rw [List.take_succ, List.getElem?_eq_getElem hnL]
      rfl
    have hdrop : (filas c).drop n = (filas c)[n] :: (filas c).drop (n + 1) :=
      List.drop_eq_getElem_cons hnL
    have hlen : (List.replicate (((filas c).take n).countP fila_llena)
          (List.replicate CUBETA_ANCHO (0 : Int)) ++
        (((filas c).take n).filter fun f => !fila_llena f)).length = n := by
      have h1 := List.length_eq_countP_add_countP (p := fila_llena) ((filas c).take n)
      rw [List.length_take, filas_length] at h1
      rw [List.length_append, List.length_replicate, ← List.countP_eq_length_filter]
      have h2 : List.countP (fun a => decide ¬fila_llena a = true) (List.take n (filas c)) =
          List.countP (fun f => !fila_llena f) (List.take n (filas c)) := by
        congr 1
        funext a
        cases fila_llena a <;> rfl
      rw [h2] at h1
      omega
    have hrow : fila c1 n = (filas c)[n] := by
      rw [← filas_getElem c1 n hn1]
      simp only [hfilas, hdrop]
      rw [List.getElem_append_right (by rw [hlen])]
      simp only [hlen, Nat.sub_self, List.getElem_cons_zero]
    rw [foldl_range_succ, hfold]
    by_cases hfull : fila_llena ((filas c)[n]) = true
    · have hpv : primera_vacia c1 n = CUBETA_ANCHO := by
        rw [primera_vacia_iff, hrow]; exact hfull
      obtain ⟨c2, hel, hx2, hy2⟩ : ∃ c2, cubeta_eliminar_fila c1 (int16 n) = some c2 ∧
          c2.x_pantalla = c1.x_pantalla ∧ c2.y_pantalla = c1.y_pantalla :=
        ⟨_, eliminar_fila_eq c1 n (by omega), rfl, rfl⟩
      refine ⟨c2, ?_, ?_, hx2.trans hx, hy2.trans hy⟩
      · simp only [revisar_fila, if_pos hpv, hel]
        rw [htake, List.countP_append]
        simp [hfull]
      · rw [filas_eliminar c1 c2 n (by omega) hel, hfilas, List.take_left' hlen,
          show n + 1 = (List.replicate (((filas c).take n).countP fila_llena)
              (List.replicate CUBETA_ANCHO (0 : Int)) ++
            (((filas c).take n).filter fun f => !fila_llena f)).length + 1 by rw [hlen],
          List.drop_append, hdrop, hlen, htake, List.countP_append, List.filter_append]
        simp [hfull, List.replicate_succ]
    · have hpv : ¬primera_vacia c1 n = CUBETA_ANCHO := by
        rw [primera_vacia_iff, hrow]; exact hfull
      refine ⟨c1, ?_, ?_, hx, hy⟩
      · simp only [revisar_fila, if_neg hpv]
        rw [htake, List.countP_append]
        simp [hfull]
      · rw [hfilas, htake, List.countP_append, List.filter_append, hdrop]
        simp [hfull]

theorem uint8_nat (n : Nat) (h : n < 256) : uint8 n = n := by
  unfold uint8
  omega

/-- What `cubeta_revisar_filas` returns and leaves, in terms of the rows of
the input board. -/
theorem revisar_filas_eq (c : cubeta_t) :
    ∃ c' : cubeta_t,
      cubeta_revisar_filas c = some (c', (filas c).countP fila_llena) ∧
      filas c' = compactar_referencia (filas c) ∧
      c'.x_pantalla = c.x_pantalla ∧ c'.y_pantalla = c.y_pantalla := by
  obtain ⟨c', hfold, hfilas, hx, hy⟩ := revisar_filas_inv c CUBETA_ALTO (le_refl _)
  have htake : (filas c).take CUBETA_ALTO = filas c :=
    List.take_of_length_le (by rw [filas_length])
  have hdrop : (filas c).drop CUBETA_ALTO = [] :=
    List.drop_of_length_le (by rw [filas_length])
  rw [htake] at hfold hfilas
  rw [hdrop, List.append_nil] at hfilas
  have hle : (filas c).countP fila_llena ≤ 17 := by
    have := List.countP_le_length fila_llena (l := filas c)
    rw [filas_length] at this
    exact this
  refine ⟨c', ?_, hfilas, hx, hy⟩
  unfold cubeta_revisar_filas
  rw [hfold]
  simp only [Option.some.injEq, Prod.mk.injEq, true_and]
  exact uint8_nat _ (by omega)

theorem celda_de_filas (c : cubeta_t) (r col : Nat) (hr : r < CUBETA_ALTO)
    (hc : col < CUBETA_ANCHO) (f : List Int) (hf : (filas c)[r]? = some f) :
    f[col]? = some (c.matriz r col) := by
  have h1 : r < (filas c).length := by rw [filas_length]; exact hr
  rw [List.getElem?_eq_getElem h1, filas_getElem] at hf
  injection hf with hf
  subst hf
  simp [fila, hc]

theorem compactar_sin_llenas (fs : List (List Int)) (f : List Int)
    (hf : f ∈ compactar_referencia fs) : fila_llena f = false := by
  unfold compactar_referencia at hf
  rw [List.mem_append] at hf
  rcases hf with hf | hf
  · rw [List.eq_of_mem_replicate hf]
    decide
  · rw [List.mem_filter] at hf
    simpa using hf.2

theorem cuenta_cuatro (r0 : Nat) (h : r0 + 4 ≤ 17) :
    (List.range 17).countP (fun r => decide (r0 ≤ r ∧ r < r0 + 4)) = 4 := by
  have h2 : r0 ≤ 13 := by omega
  interval_cases r0 <;> decide

/-- C3. For every board, `cubeta_revisar_filas` returns exactly the number of
rows of the input board that contain no zero cell, wherever those rows are and
whether or not they are adjacent; four stacked full rows give 4. -/
theorem revisar_filas_cuenta (c : cubeta_t) :
    (∃ c' : cubeta_t, cubeta_revisar_filas c = some (c', (filas c).countP fila_llena)) ∧
    (filas c).countP fila_llena =
      (List.range CUBETA_ALTO).countP
        (fun r => decide (∀ j, j < CUBETA_ANCHO → c.matriz r j ≠ 0)) ∧
    (∀ r0, r0 + 4 ≤ CUBETA_ALTO →
      (∀ r, r < CUBETA_ALTO →
        ((∀ j, j < CUBETA_ANCHO → c.matriz r j ≠ 0) ↔ r0 ≤ r ∧ r < r0 + 4)) →
      ∃ c' : cubeta_t, cubeta_revisar_filas c = some (c', 4)) := by
  obtain ⟨c', h, _⟩ := revisar_filas_eq c
  have hcount : (filas c).countP fila_llena =
      (List.range CUBETA_ALTO).countP
        (fun r => decide (∀ j, j < CUBETA_ANCHO → c.matriz r j ≠ 0)) := by
    unfold filas
    rw [List.countP_map]
    apply List.countP_congr
    intro r _
    simp only [Function.comp, fila_llena_iff, decide_eq_true_eq]
  refine ⟨⟨c', h⟩, hcount, ?_⟩
  intro r0 hr0 hrows
  refine ⟨c', ?_⟩
  rw [h, hcount]
  have : (List.range CUBETA_ALTO).countP
      (fun r => decide (∀ j, j < CUBETA_ANCHO → c.matriz r j ≠ 0)) =
      (List.range 17).countP (fun r => decide (r0 ≤ r ∧ r < r0 + 4)) := by
    apply List.countP_congr
    intro r hr
    rw [List.mem_range] at hr
    simp only [decide_eq_true_eq]
    exact hrows r hr
  rw [this, cuenta_cuatro r0 hr0]

set_option maxRecDepth 100000 in
theorem revisar_filas_cuenta_witness :
    ∃ c' : cubeta_t, cubeta_revisar_filas cubeta_apilada = some (c', 4) :=
  (revisar_filas_cuenta cubeta_apilada).2.2 5 (by decide) (by decide)

/-- C4. For every board with k full rows, the board left by
`cubeta_revisar_filas` is the reference compaction of the input: its top k
rows are all zero and its remaining 17 - k rows are exactly the input's
non-full rows, cell for cell, in their original top-to-bottom order;
`x_pantalla` and `y_pantalla` are unchanged.  In particular a board whose only
occupied row is a full row 16 becomes entirely empty. -/
theorem revisar_filas_compacta (c : cubeta_t) :
    ∃ c' : cubeta_t,
      cubeta_revisar_filas c = some (c', (filas c).countP fila_llena) ∧
      filas c' = compactar_referencia (filas c) ∧
      filas c' =
        List.replicate ((filas c).countP fila_llena) (List.replicate 10 0) ++
          (filas c).filter (fun f => !fila_llena f) ∧
      (∀ r col, r < (filas c).countP fila_llena → col < CUBETA_ANCHO →
        c'.matriz r col = 0) ∧
      c'.x_pantalla = c.x_pantalla ∧ c'.y_pantalla = c.y_pantalla ∧
      ((∀ col, col < CUBETA_ANCHO → c.matriz 16 col ≠ 0) →
        (∀ r col, r < 16 → col < CUBETA_ANCHO → c.matriz r col = 0) →
        ∀ r col, r < CUBETA_ALTO → col < CUBETA_ANCHO → c'.matriz r col = 0) := by
  obtain ⟨c', h, hfilas, hx, hy⟩ := revisar_filas_eq c
  have hk17 : (filas c).countP fila_llena ≤ 17 := by
    have := List.countP_le_length fila_llena (l := filas c)
    rw [filas_length] at this
    exact this
  have htop : ∀ r col, r < (filas c).countP fila_llena → col < CUBETA_ANCHO →
      c'.matriz r col = 0 := by
    intro r col hr hcol
    have hr17 : r < CUBETA_ALTO := by simp only [CUBETA_ALTO]; omega
    have h1 : (filas c')[r]? = some (List.replicate CUBETA_ANCHO 0) := by
      rw [hfilas]
      unfold compactar_referencia
      rw [List.getElem?_append_left (by rw [List.length_replicate]; exact hr)]
      rw [List.getElem?_replicate, if_pos hr]
    have h2 := celda_de_filas c' r col hr17 hcol _ h1
    rw [List.getElem?_replicate, if_pos hcol] at h2
    injection h2 with h2
    exact h2.symm
  refine ⟨c', h, hfilas, hfilas, htop, hx, hy, ?_⟩
  intro hfull hvacio r col hr hcol
  -- every row of the input is either all zero or the full row 16
  have hrow : ∀ r', r' < 16 → fila c r' = List.replicate CUBETA_ANCHO 0 := by
    intro r' hr'
    unfold fila
    apply List.ext_getElem
    · simp
    · intro k h1 h2
      simp at h1
      simp [hvacio r' k hr' h1]
  have h16 : fila_llena (fila c 16) = true := (fila_llena_iff c 16).mpr hfull
  have hin : filas c = List.replicate 16 (List.replicate CUBETA_ANCHO 0) ++ [fila c 16] := by
    apply List.ext_getElem
    · simp [filas_length, CUBETA_ALTO]
    · intro k h1 h2
      rw [filas_getElem]
      rw [filas_length] at h1
      by_cases hk : k < 16
      · rw [List.getElem_append_left (by simpa using hk), List.getElem_replicate]
        exact hrow k hk
      · have hk16 : k = 16 := by simp only [CUBETA_ALTO] at h1; omega
        subst hk16
        rw [List.getElem_append_right (by simp)]
        simp
  have hz : fila_llena (List.replicate CUBETA_ANCHO (0 : Int)) = false := by decide
  have hout : filas c' = List.replicate 17 (List.replicate CUBETA_ANCHO 0) := by
    rw [hfilas, hin]
    unfold compactar_referencia
    rw [List.countP_append, List.filter_append]
    simp [h16, hz, List.countP_replicate, List.filter_replicate]
  have h1 : (filas c')[r]? = some (List.replicate CUBETA_ANCHO 0) := by
    rw [hout, List.getElem?_replicate, if_pos (show r < 17 from hr)]
  have h2 := celda_de_filas c' r col hr hcol _ h1
  rw [List.getElem?_replicate, if_pos hcol] at h2
  injection h2 with h2
  exact h2.symm

set_option maxRecDepth 100000 in
theorem revisar_filas_compacta_witness :
    ∃ c' : cubeta_t,
      cubeta_revisar_filas cubeta_fondo = some (c', 1) ∧
      ∀ r col, r < CUBETA_ALTO → col < CUBETA_ANCHO → c'.matriz r col = 0 := by
  obtain ⟨c', h, _, _, _, _, _, hvacia⟩ := revisar_filas_compacta cubeta_fondo
  have h1 : (filas cubeta_fondo).countP fila_llena = 1 := by decide
  rw [h1] at h
  exact ⟨c', h, hvacia (by decide) (fun r col hr _ => if_neg (by omega))⟩

/-- C5. For every board, after `cubeta_revisar_filas` returns, no row in
[0, 17) is full: every row of the resulting board contains a zero cell. -/
theorem revisar_filas_sin_llenas (c : cubeta_t) :
    ∃ (c' : cubeta_t) (n : Nat),
      cubeta_revisar_filas c = some (c', n) ∧
      ∀ r, r < CUBETA_ALTO → ∃ col, col < CUBETA_ANCHO ∧ c'.matriz r col = 0 := by
  obtain ⟨c', h, hfilas, _, _⟩ := revisar_filas_eq c
  refine ⟨c', _, h, ?_⟩
  intro r hr
  have hmem : fila c' r ∈ filas c' := by
    unfold filas
    exact List.mem_map.mpr ⟨r, List.mem_range.mpr hr, rfl⟩
  rw [hfilas] at hmem
  have hnf := compactar_sin_llenas _ _ hmem
  by_contra hne
  have : fila_llena (fila c' r) = true := by
    rw [fila_llena_iff]
    intro j hj hz
    exact hne ⟨j, hj, hz⟩
  rw [hnf] at this
  exact Bool.noConfusion this

theorem revisar_filas_sin_llenas_witness :
    ∃ (c' : cubeta_t) (n : Nat),
      cubeta_revisar_filas cubeta_apilada = some (c', n) ∧
      ∀ r, r < CUBETA_ALTO → ∃ col, col < CUBETA_ANCHO ∧ c'.matriz r col = 0 :=
  revisar_filas_sin_llenas cubeta_apilada

/-- C2. For every board, every piece with `tamano <= 4` and every position,
`cubeta_hay_interseccion` returns TRUE if and only if some filled cell (i, j)
with i, j < tamano has x+j < 0, or x+j >= 10, or y+i >= 17, or lies inside the
grid on a non-zero board cell.  In particular filled cells above the top row
and between the side walls never cause a collision, and a piece whose leftmost
filled cell lands in board column 0 does not collide with the left wall. -/
theorem hay_interseccion_celdas (c : cubeta_t) (p : piezas_t) (x y : Int)
    (_hs : p.tamano ≤ 4) :
    (cubeta_hay_interseccion c p x y = true ↔
      ∃ i j : Nat, i < p.tamano ∧ j < p.tamano ∧ p.matriz i j ≠ 0 ∧
        (x + j < 0 ∨ x + j ≥ 10 ∨ y + i ≥ 17 ∨
          (0 ≤ y + i ∧ y + i < 17 ∧ 0 ≤ x + j ∧ x + j < 10 ∧
            c.matriz (y + i).toNat (x + j).toNat ≠ 0))) ∧
    ((∀ i j : Nat, i < p.tamano → j < p.tamano → p.matriz i j ≠ 0 →
        y + i < 0 ∧ 0 ≤ x + j ∧ x + j < 10) →
      cubeta_hay_interseccion c p x y = false) ∧
    ((∀ i j : Nat, i < p.tamano → j < p.tamano → p.matriz i j ≠ 0 →
        0 ≤ x + j ∧ x + j < 10 ∧ y + i < 17 ∧
          (0 ≤ y + i → c.matriz (y + i).toNat (x + j).toNat = 0)) →
      cubeta_hay_interseccion c p x y = false) ∧
    cubeta_hay_interseccion cubeta_vacia piezas_palo (-1) 0 = false ∧
    cubeta_hay_interseccion cubeta_vacia piezas_palo (-2) 0 = true := by
  have hiff := hay_interseccion_iff c p x y
  refine ⟨hiff, ?_, ?_, by decide, by decide⟩
  · intro h
    rw [Bool.eq_false_iff]
    intro hc
    obtain ⟨i, j, hi, hj, hf, hcase⟩ := hiff.mp hc
    have := h i j hi hj hf
    omega
  · intro h
    rw [Bool.eq_false_iff]
    intro hc
    obtain ⟨i, j, hi, hj, hf, hcase⟩ := hiff.mp hc
    obtain ⟨h1, h2, h3, h4⟩ := h i j hi hj hf
    rcases hcase with h5 | h5 | h5 | h5
    · omega
    · omega
    · omega
    · exact h5.2.2.2.2 (h4 h5.1)

theorem hay_interseccion_celdas_witness :
    cubeta_hay_interseccion cubeta_cuatro piezas_palo 8 14 = true :=
  (hay_interseccion_celdas cubeta_cuatro piezas_palo 8 14 (by decide)).1.mpr
    ⟨3, 1, by decide, by decide, by decide, Or.inr (Or.inr (Or.inl (by decide)))⟩

/-- C6. For every board, every piece with `tamano <= 4` and every position,
`cubeta_fijar_pieza` leaves the piece's colour (as stored in an `int16_t`
cell) in cell (r, c) when some filled piece cell (i, j), i, j < tamano, has
y+i = r and x+j = c inside the grid; every other cell, and the screen origin,
is unchanged, so the cells that newly hold the colour are exactly the covered
ones and filled cells outside the grid are dropped without any effect. -/
theorem fijar_pieza_celdas (c : cubeta_t) (p : piezas_t) (x y : Int)
    (_hs : p.tamano ≤ 4) :
    (∀ r col : Nat,
      (∃ i j : Nat, i < p.tamano ∧ j < p.tamano ∧ p.matriz i j ≠ 0 ∧
          y + i = r ∧ x + j = col ∧ r < 17 ∧ col < 10) →
        (cubeta_fijar_pieza c p x y).matriz r col = int16 p.color) ∧
    (∀ r col : Nat,
      (¬∃ i j : Nat, i < p.tamano ∧ j < p.tamano ∧ p.matriz i j ≠ 0 ∧
          y + i = r ∧ x + j = col ∧ r < 17 ∧ col < 10) →
        (cubeta_fijar_pieza c p x y).matriz r col = c.matriz r col) ∧
    (∀ r col : Nat, c.matriz r col ≠ int16 p.color →
      ((cubeta_fijar_pieza c p x y).matriz r col = int16 p.color ↔
        ∃ i j : Nat, i < p.tamano ∧ j < p.tamano ∧ p.matriz i j ≠ 0 ∧
          y + i = r ∧ x + j = col ∧ r < 17 ∧ col < 10)) ∧
    (cubeta_fijar_pieza c p x y).x_pantalla = c.x_pantalla ∧
    (cubeta_fijar_pieza c p x y).y_pantalla = c.y_pantalla ∧
    ((∀ i j : Nat, i < p.tamano → j < p.tamano → p.matriz i j ≠ 0 →
        ¬(0 ≤ y + i ∧ y + i < 17 ∧ 0 ≤ x + j ∧ x + j < 10)) →
      cubeta_fijar_pieza c p x y = c) := by
  refine ⟨fun r col => (fijar_pieza_celda c p x y r col).1,
    fun r col => (fijar_pieza_celda c p x y r col).2, ?_, rfl, rfl, ?_⟩
  · intro r col hne
    constructor
    · intro h
      by_contra hno
      rw [(fijar_pieza_celda c p x y r col).2 hno] at h
      exact hne h
    · exact (fijar_pieza_celda c p x y r col).1
  · intro hout
    have hm : (cubeta_fijar_pieza c p x y).matriz = c.matriz := by
      funext r col
      apply (fijar_pieza_celda c p x y r col).2
      rintro ⟨i, j, hi, hj, hf, hr, hc, hr2, hc2⟩
      exact hout i j hi hj hf ⟨by omega, by omega, by omega, by omega⟩
    have hx : (cubeta_fijar_pieza c p x y).x_pantalla = c.x_pantalla := rfl
    have hy : (cubeta_fijar_pieza c p x y).y_pantalla = c.y_pantalla := rfl
    cases hc : cubeta_fijar_pieza c p x y with
    | mk m' x' y' =>
      rw [hc] at hm hx hy
      cases c
      simp only at hm hx hy
      subst hm; subst hx; subst hy
      rfl

theorem fijar_pieza_celdas_witness :
    (cubeta_fijar_pieza cubeta_cuatro piezas_palo 8 13).matriz 16 9 = int16 ROJO :=
  (fijar_pieza_celdas cubeta_cuatro piezas_palo 8 13 (by decide)).1 16 9
    ⟨3, 1, by decide, by decide, by decide, by decide, by decide, by decide, by decide⟩

/-! ## juego -/

theorem inicializar_tamano (k : Nat) (p : piezas_t) (h : piezas_inicializar k = some p) :
    p.tamano = 2 ∨ p.tamano = 3 ∨ p.tamano = 4 := by
  unfold piezas_inicializar at h
  split_ifs at h <;> injection h with h <;> subst h <;> decide

theorem inicializar_resto (rnd : Nat) :
    ∃ p, piezas_inicializar (rnd % PIEZAS_NUM_PIEZAS) = some p := by
  have h : rnd % PIEZAS_NUM_PIEZAS < 7 := Nat.mod_lt _ (by decide)
  generalize rnd % PIEZAS_NUM_PIEZAS = k at h
  interval_cases k <;> exact ⟨_, rfl⟩

/-- A piece of size at most 4 placed where `juego` makes pieces appear lies
above the top row and between the side walls: it collides with no board. -/
theorem aparicion_sin_interseccion (c : cubeta_t) (p : piezas_t) (hs : p.tamano ≤ 4) :
    cubeta_hay_interseccion c p
      (int16 (((CUBETA_ANCHO : Int) + (p.tamano : Int) - 4) / 2))
      (int16 (-(p.tamano : Int))) = false := by
  rw [Bool.eq_false_iff]
  intro hc
  obtain ⟨i, j, hi, hj, _, hcase⟩ := (hay_interseccion_iff _ _ _ _).mp hc
  simp only [int16, CUBETA_ANCHO, Nat.cast_ofNat] at hcase
  omega

/-- The fixing branch always comes back to the top of the loop, in the state
spelled out here. -/
theorem juego_fijar_eq (s : estado_t) (rnd : Nat) :
    ∃ (cubeta' : cubeta_t) (n : Nat) (nueva : piezas_t),
      cubeta_revisar_filas (cubeta_fijar_pieza s.cubeta s.piezas_actual s.x_piezas_actual
        s.y_piezas_actual) = some (cubeta', n) ∧
      n = (filas (cubeta_fijar_pieza s.cubeta s.piezas_actual s.x_piezas_actual
        s.y_piezas_actual)).countP fila_llena ∧
      piezas_inicializar (rnd % PIEZAS_NUM_PIEZAS) = some nueva ∧
      juego_fijar s rnd = resultado_t.continua
        { s with
          cubeta := cubeta'
          filas_completadas :=
            if n > 0 then uint32 (s.filas_completadas + n) else s.filas_completadas
          puntos := if n > 0 then uint32 (s.puntos + n * 10 * s.nivel) else s.puntos
          nivel :=
            if n > 0 ∧ s.nivel < 9 then
              uint8 ((if n > 0 then uint32 (s.filas_completadas + n)
                else s.filas_completadas) / 10 + 1)
            else s.nivel
          tiempo_paso :=
            if n > 0 ∧ s.nivel < 9 then
              uint32 (750 - 50 * (((uint8 ((if n > 0 then uint32 (s.filas_completadas + n)
                else s.filas_completadas) / 10 + 1) : Nat) : Int) - 1))
            else s.tiempo_paso
          piezas_actual := s.piezas_siguiente
          x_piezas_actual :=
            int16 (((CUBETA_ANCHO : Int) + (s.piezas_siguiente.tamano : Int) - 4) / 2)
          y_piezas_actual := int16 (-(s.piezas_siguiente.tamano : Int))
          piezas_siguiente := nueva } := by
  obtain ⟨c', h1, _⟩ := revisar_filas_eq
    (cubeta_fijar_pieza s.cubeta s.piezas_actual s.x_piezas_actual s.y_piezas_actual)
  obtain ⟨nueva, h2⟩ := inicializar_resto rnd
  refine ⟨c', _, nueva, h1, rfl, h2, ?_⟩
  unfold juego_fijar
  rw [h1]
  simp only
  rw [h2]
  simp only [resultado_t.continua.injEq, estado_t.mk.injEq, true_and, and_true]
  split_ifs <;> rfl

/-- The invariant of the game loop behind C1. -/
theorem juego_invariante (s : estado_t) (h : Alcanzable s) :
    cubeta_hay_interseccion s.cubeta s.piezas_actual s.x_piezas_actual
        s.y_piezas_actual = false ∧
      s.piezas_siguiente.tamano ≤ 4 := by
  induction h with
  | inicio cubeta0 ms rnd1 rnd2 s h =>
    unfold juego_inicio at h
    cases h1 : piezas_inicializar (rnd1 % PIEZAS_NUM_PIEZAS) with
    | none => rw [h1] at h; exact Option.noConfusion h
    | some p1 =>
      cases h2 : piezas_inicializar (rnd2 % PIEZAS_NUM_PIEZAS) with
      | none => rw [h1, h2] at h; exact Option.noConfusion h
      | some p2 =>
        rw [h1, h2] at h
        injection h with h
        subst h
        have t1 := inicializar_tamano _ _ h1
        have t2 : p2.tamano ≤ 4 := by
          have := inicializar_tamano _ _ h2
          omega
        exact ⟨aparicion_sin_interseccion _ p1 (by omega), t2⟩
  | tic s _ ih => exact ih
  | iteracion s s' tecla rnd _ hstep ih =>
    obtain ⟨hno, hsig⟩ := ih
    unfold juego_iteracion at hstep
    by_cases htick : s.contador_ms ≥ s.tiempo_paso
    · rw [if_pos htick] at hstep
      by_cases hcol : cubeta_hay_interseccion s.cubeta s.piezas_actual s.x_piezas_actual
          (int16 (s.y_piezas_actual + 1)) = true
      · simp only [hcol, if_true] at hstep
        by_cases hover : cubeta_hay_desbordamiento s.cubeta s.piezas_actual
            s.y_piezas_actual = true
        · simp only [hover, if_true] at hstep
          exact resultado_t.noConfusion hstep
        · simp only [hover] at hstep
          obtain ⟨c', n, nueva, _, _, hnueva, heq⟩ :=
            juego_fijar_eq { s with contador_ms := 0 } rnd
          rw [heq] at hstep
          injection hstep with hstep
          subst hstep
          have t2 : nueva.tamano ≤ 4 := by
            have := inicializar_tamano _ _ hnueva
            omega
          exact ⟨aparicion_sin_interseccion _ _ hsig, t2⟩
      · simp only [hcol] at hstep
        injection hstep with hstep
        subst hstep
        exact ⟨by simpa using hcol, hsig⟩
    · rw [if_neg htick] at hstep
      by_cases hk : tecla ≠ JOYSTICK_NADA
      · rw [if_pos hk] at hstep
        injection hstep with hstep
        subst hstep
        unfold juego_tecla
        simp only
        split_ifs with h1 h2 h3 h4 h5 h6 h7
        · exact ⟨by simpa using h2, hsig⟩
        · exact ⟨hno, hsig⟩
        · exact ⟨by simpa using h4, hsig⟩
        · exact ⟨hno, hsig⟩
        · exact ⟨by simpa using h5.2, hsig⟩
        · exact ⟨by simpa using h6.2, hsig⟩
        · exact ⟨hno, hsig⟩
        · exact ⟨hno, hsig⟩
      · rw [if_neg hk] at hstep
        injection hstep with hstep
        subst hstep
        exact ⟨hno, hsig⟩

theorem inicio_ejemplo : juego_inicio cubeta_vacia 750 0 6 = some estado_inicial := rfl

set_option maxRecDepth 100000 in
theorem iteracion_ejemplo :
    juego_iteracion estado_inicial JOYSTICK_NADA 0 =
      resultado_t.continua { estado_inicial with contador_ms := 0, y_piezas_actual := -3 } := by
  rfl

/-- C1. In every state reachable by the game loop (from the start of `juego`,
through any sequence of millisecond ticks, joystick events and random piece
draws), the active piece does not collide with the board or its walls each
time the loop is at the top of an iteration. -/
theorem juego_sin_interseccion (s : estado_t) (h : Alcanzable s) :
    cubeta_hay_interseccion s.cubeta s.piezas_actual s.x_piezas_actual
      s.y_piezas_actual = false :=
  (juego_invariante s h).1

theorem juego_sin_interseccion_witness :
    cubeta_hay_interseccion (cubeta_inicializar cubeta_vacia) piezas_palo 5 (-3) = false :=
  juego_sin_interseccion { estado_inicial with contador_ms := 0, y_piezas_actual := -3 }
    (Alcanzable.iteracion estado_inicial _ JOYSTICK_NADA 0
      (Alcanzable.inicio cubeta_vacia 750 0 6 estado_inicial inicio_ejemplo)
      iteracion_ejemplo)

set_option maxRecDepth 100000 in
theorem filas_escenario_cuatro :
    filas (cubeta_fijar_pieza cubeta_cuatro piezas_palo 8 13) =
      List.replicate 13 (List.replicate 10 0) ++
        List.replicate 4 [31, 31, 31, 31, 31, 31, 31, 31, 31, -2048] := by
  decide

set_option maxRecDepth 100000 in
/-- Scenario F: fixing the vertical PALO in column 9 of `cubeta_cuatro` clears
four rows and leaves an empty board. -/
theorem revisar_escenario_cuatro :
    ∃ c' : cubeta_t,
      cubeta_revisar_filas (cubeta_fijar_pieza cubeta_cuatro piezas_palo 8 13) = some (c', 4) ∧
      ∀ r col, r < CUBETA_ALTO → col < CUBETA_ANCHO → c'.matriz r col = 0 := by
  obtain ⟨c', h, hfilas, _, _⟩ :=
    revisar_filas_eq (cubeta_fijar_pieza cubeta_cuatro piezas_palo 8 13)
  rw [filas_escenario_cuatro] at h hfilas
  have h4 : List.countP fila_llena (List.replicate 13 (List.replicate 10 (0 : Int)) ++
      List.replicate 4 [31, 31, 31, 31, 31, 31, 31, 31, 31, -2048]) = 4 := by decide
  have hz : compactar_referencia (List.replicate 13 (List.replicate 10 (0 : Int)) ++
      List.replicate 4 [31, 31, 31, 31, 31, 31, 31, 31, 31, -2048]) =
      List.replicate 17 (List.replicate 10 0) := by decide
  rw [h4] at h
  rw [hz] at hfilas
  refine ⟨c', h, ?_⟩
  intro r col hr hcol
  have h1 : (filas c')[r]? = some (List.replicate 10 0) := by
    rw [hfilas, List.getElem?_replicate, if_pos (show r < 17 from hr)]
  have h2 := celda_de_filas c' r col hr hcol _ h1
  rw [List.getElem?_replicate, if_pos (show col < 10 from hcol)] at h2
  injection h2 with h2
  exact h2.symm

theorem uint32_mod (v : Nat) : uint32 v % 4294967296 = v % 4294967296 := by
  unfold uint32
  omega

theorem uint32_nat (v : Nat) (h : v < 4294967296) : uint32 v = v := by
  unfold uint32
  omega

/-- C7. Lock transition: when the gravity tick is due, the active piece
collides at (x, y+1) (y+1 as the `int16_t` argument the code passes) and does
not overflow the top, one loop iteration leaves
board' = the board `cubeta_revisar_filas` leaves from
`cubeta_fijar_pieza board active x y`; with n the returned count,
lines' = lines + n and score' = score + n*10*level in `uint32_t` arithmetic
(level taken before this lock's level update); active' is the previous next
piece at its spawn position and next' is a freshly initialised piece.  On the
board of scenario F (rows 13..16 full except column 9, vertical PALO in column
9) this gives n = 4, score + 40*level and an empty board. -/
theorem juego_transicion_fijar (s : estado_t) (tecla_pulsada rnd : Nat)
    (htick : s.contador_ms ≥ s.tiempo_paso)
    (hcol : cubeta_hay_interseccion s.cubeta s.piezas_actual s.x_piezas_actual
      (int16 (s.y_piezas_actual + 1)) = true)
    (hover : cubeta_hay_desbordamiento s.cubeta s.piezas_actual s.y_piezas_actual = false) :
    ∃ (cubeta' : cubeta_t) (n : Nat) (nueva : piezas_t) (s' : estado_t),
      cubeta_revisar_filas (cubeta_fijar_pieza s.cubeta s.piezas_actual s.x_piezas_actual
        s.y_piezas_actual) = some (cubeta', n) ∧
      piezas_inicializar (rnd % PIEZAS_NUM_PIEZAS) = some nueva ∧
      juego_iteracion s tecla_pulsada rnd = resultado_t.continua s' ∧
      s'.cubeta = cubeta' ∧
      s'.filas_completadas % 4294967296 = (s.filas_completadas + n) % 4294967296 ∧
      (s.filas_completadas + n < 4294967296 →
        s'.filas_completadas = s.filas_completadas + n) ∧
      s'.puntos % 4294967296 = (s.puntos + n * 10 * s.nivel) % 4294967296 ∧
      (s.puntos + n * 10 * s.nivel < 4294967296 →
        s'.puntos = s.puntos + n * 10 * s.nivel) ∧
      s'.piezas_actual = s.piezas_siguiente ∧
      s'.x_piezas_actual =
        int16 (((CUBETA_ANCHO : Int) + (s.piezas_siguiente.tamano : Int) - 4) / 2) ∧
      s'.y_piezas_actual = int16 (-(s.piezas_siguiente.tamano : Int)) ∧
      (s.piezas_siguiente.tamano ≤ 255 →
        s'.x_piezas_actual = ((10 : Int) + (s.piezas_siguiente.tamano : Int) - 4) / 2 ∧
        s'.y_piezas_actual = -(s.piezas_siguiente.tamano : Int)) ∧
      s'.piezas_siguiente = nueva ∧
      (s.cubeta = cubeta_cuatro → s.piezas_actual = piezas_palo →
        s.x_piezas_actual = 8 → s.y_piezas_actual = 13 →
        n = 4 ∧
        (∀ r col, r < CUBETA_ALTO → col < CUBETA_ANCHO → s'.cubeta.matriz r col = 0) ∧
        s'.puntos % 4294967296 = (s.puntos + 40 * s.nivel) % 4294967296) := by
  obtain ⟨c', n, nueva, h1, _, h2, heq⟩ := juego_fijar_eq { s with contador_ms := 0 } rnd
  have hover2 : ¬cubeta_hay_desbordamiento s.cubeta s.piezas_actual s.y_piezas_actual = true := by
    rw [hover]; exact Bool.noConfusion
  have hstep : juego_iteracion s tecla_pulsada rnd =
      juego_fijar { s with contador_ms := 0 } rnd := by
    unfold juego_iteracion
    rw [if_pos htick]
    simp only [hcol, hover, if_true, Bool.false_eq_true, if_false]
  rw [heq] at hstep
  simp only at h1 hstep
  have hfc : (if n > 0 then uint32 (s.filas_completadas + n) else s.filas_completadas) %
      4294967296 = (s.filas_completadas + n) % 4294967296 := by
    by_cases hn : n > 0
    · rw [if_pos hn]
      exact_mod_cast uint32_mod (s.filas_completadas + n)
    · have : n = 0 := by omega
      rw [if_neg hn, this, Nat.add_zero]
  have hpt : (if n > 0 then uint32 (s.puntos + n * 10 * s.nivel) else s.puntos) %
      4294967296 = (s.puntos + n * 10 * s.nivel) % 4294967296 := by
    by_cases hn : n > 0
    · rw [if_pos hn]
      exact_mod_cast uint32_mod (s.puntos + n * 10 * s.nivel)
    · have : n = 0 := by omega
      rw [if_neg hn, this]
      simp
  refine ⟨c', n, nueva, _, h1, h2, hstep, rfl, hfc, ?_, hpt, ?_, rfl, rfl, rfl, ?_, rfl, ?_⟩
  · intro hlt
    by_cases hn : n > 0
    · simp only [if_pos hn]
      have h3 := uint32_nat (s.filas_completadas + n) hlt
      push_cast at h3
      exact h3
    · have h0 : n = 0 := by omega
      subst h0
      simp
  · intro hlt
    by_cases hn : n > 0
    · simp only [if_pos hn]
      have h3 := uint32_nat (s.puntos + n * 10 * s.nivel) hlt
      push_cast at h3
      exact h3
    · have h0 : n = 0 := by omega
      subst h0
      simp
  · intro hle
    simp only [int16, CUBETA_ANCHO, Nat.cast_ofNat]
    omega
  · intro hc hp hx hy
    obtain ⟨c4, h4, hvacia⟩ := revisar_escenario_cuatro
    simp only [hc, hp, hx, hy] at h1
    rw [h4] at h1
    injection h1 with h1
    injection h1 with hc4 hn4
    subst hc4
    subst hn4
    refine ⟨rfl, hvacia, ?_⟩
    rw [hpt]

theorem juego_transicion_fijar_witness :
    ∃ s' : estado_t,
      juego_iteracion estado_cuatro JOYSTICK_NADA 6 = resultado_t.continua s' ∧
      s'.filas_completadas = 31 ∧ s'.puntos = 220 ∧
      (∀ r col, r < CUBETA_ALTO → col < CUBETA_ANCHO → s'.cubeta.matriz r col = 0) ∧
      s'.piezas_actual = piezas_te ∧ s'.x_piezas_actual = 4 ∧ s'.y_piezas_actual = -3 ∧
      s'.piezas_siguiente = piezas_te := by
  obtain ⟨c', n, nueva, s', _, hnueva, hstep, _, _, hfc, _, hpt, hact, _, _, hxy, hsig, hesc⟩ :=
    juego_transicion_fijar estado_cuatro JOYSTICK_NADA 6 (by decide) (by decide) (by decide)
  obtain ⟨hn, hvacia, _⟩ := hesc rfl rfl rfl rfl
  subst hn
  have hte : piezas_inicializar (6 % PIEZAS_NUM_PIEZAS) = some piezas_te := rfl
  rw [hte] at hnueva
  injection hnueva with hnueva
  refine ⟨s', hstep, hfc (by decide), hpt (by decide), hvacia, hact, ?_, ?_, ?_⟩
  · rw [(hxy (by decide)).1]; rfl
  · rw [(hxy (by decide)).2]; rfl
  · rw [hsig, hnueva]

theorem piezas_rotar_grupo_witness :
    ley_ciclica piezas_palo ∧ ley_ciclica piezas_cuadrado ∧ ley_ciclica piezas_ese ∧
    ley_ciclica piezas_zeta ∧ ley_ciclica piezas_ele ∧ ley_ciclica piezas_elereves ∧
    ley_ciclica piezas_te :=
  ⟨piezas_rotar_grupo piezas_palo (by decide), piezas_rotar_grupo piezas_cuadrado (by decide),
    piezas_rotar_grupo piezas_ese (by decide), piezas_rotar_grupo piezas_zeta (by decide),
    piezas_rotar_grupo piezas_ele (by decide), piezas_rotar_grupo piezas_elereves (by decide),
    piezas_rotar_grupo piezas_te (by decide)⟩

theorem esperar_pulsacion_primera (antes : List Nat) (t : Nat) (resto : List Nat)
    (h : ∀ a, a ∈ antes → a = JOYSTICK_NADA ∨ a = JOYSTICK_INACTIVO)
    (ht : t ≠ JOYSTICK_NADA ∧ t ≠ JOYSTICK_INACTIVO) :
    esperar_pulsacion (antes ++ t :: resto) = some t := by
  induction antes with
  | nil =>
    have : ¬(t = JOYSTICK_NADA ∨ t = JOYSTICK_INACTIVO) := fun h' => h'.elim ht.1 ht.2
    simp only [List.nil_append, esperar_pulsacion, if_neg this]
  | cons a antes ih =>
    have ha := h a (List.mem_cons_self a antes)
    simp only [List.cons_append, esperar_pulsacion, if_pos ha]
    exact ih (fun b hb => h b (List.mem_cons_of_mem a hb))

theorem esperar_pulsacion_ninguna (teclas : List Nat)
    (h : ∀ a, a ∈ teclas → a = JOYSTICK_NADA ∨ a = JOYSTICK_INACTIVO) :
    esperar_pulsacion teclas = none := by
  induction teclas with
  | nil => rfl
  | cons a teclas ih =>
    have ha := h a (List.mem_cons_self a teclas)
    simp only [esperar_pulsacion, if_pos ha]
    exact ih (fun b hb => h b (List.mem_cons_of_mem a hb))

/-- C8. One loop iteration ends the game (banner, wait for a press, return)
if and only if the gravity tick is due, the active piece collides at
(x, y+1) (y+1 as the `int16_t` argument the code passes, which is y+1 unless
y = 32767) and `cubeta_hay_desbordamiento` is TRUE, where
`cubeta_hay_desbordamiento` is TRUE iff some filled cell (i, j) of the piece
has y+i < 0.  In that case the piece is not committed: board, lines, score and
level (and the pieces and the position) are left unchanged.  The wait that
follows ends at the first polled value that is a real press. -/
theorem juego_game_over (s : estado_t) (tecla_pulsada rnd : Nat) :
    ((∃ s', juego_iteracion s tecla_pulsada rnd = resultado_t.game_over s') ↔
      (s.contador_ms ≥ s.tiempo_paso ∧
        cubeta_hay_interseccion s.cubeta s.piezas_actual s.x_piezas_actual
          (int16 (s.y_piezas_actual + 1)) = true ∧
        cubeta_hay_desbordamiento s.cubeta s.piezas_actual s.y_piezas_actual = true)) ∧
    (∀ (c : cubeta_t) (p : piezas_t) (y : Int),
      cubeta_hay_desbordamiento c p y = true ↔
        ∃ i j : Nat, i < p.tamano ∧ j < p.tamano ∧ p.matriz i j ≠ 0 ∧ y + i < 0) ∧
    (∀ s', juego_iteracion s tecla_pulsada rnd = resultado_t.game_over s' →
      s' = { s with contador_ms := 0 } ∧
      s'.cubeta = s.cubeta ∧ s'.filas_completadas = s.filas_completadas ∧
      s'.puntos = s.puntos ∧ s'.nivel = s.nivel) ∧
    (-32768 ≤ s.y_piezas_actual ∧ s.y_piezas_actual < 32767 →
      int16 (s.y_piezas_actual + 1) = s.y_piezas_actual + 1) ∧
    (∀ (antes : List Nat) (t : Nat) (resto : List Nat),
      (∀ a, a ∈ antes → a = JOYSTICK_NADA ∨ a = JOYSTICK_INACTIVO) →
      t ≠ JOYSTICK_NADA ∧ t ≠ JOYSTICK_INACTIVO →
      esperar_pulsacion (antes ++ t :: resto) = some t) ∧
    (∀ teclas : List Nat,
      (∀ a, a ∈ teclas → a = JOYSTICK_NADA ∨ a = JOYSTICK_INACTIVO) →
      esperar_pulsacion teclas = none) := by
  have hcases : ∀ s', juego_iteracion s tecla_pulsada rnd = resultado_t.game_over s' →
      (s.contador_ms ≥ s.tiempo_paso ∧
        cubeta_hay_interseccion s.cubeta s.piezas_actual s.x_piezas_actual
          (int16 (s.y_piezas_actual + 1)) = true ∧
        cubeta_hay_desbordamiento s.cubeta s.piezas_actual s.y_piezas_actual = true) ∧
      s' = { s with contador_ms := 0 } := by
    intro s' hstep
    unfold juego_iteracion at hstep
    by_cases htick : s.contador_ms ≥ s.tiempo_paso
    · rw [if_pos htick] at hstep
      by_cases hcol : cubeta_hay_interseccion s.cubeta s.piezas_actual s.x_piezas_actual
          (int16 (s.y_piezas_actual + 1)) = true
      · simp only [hcol, if_true] at hstep
        by_cases hover : cubeta_hay_desbordamiento s.cubeta s.piezas_actual
            s.y_piezas_actual = true
        · simp only [hover, if_true] at hstep
          injection hstep with hstep
          exact ⟨⟨htick, hcol, hover⟩, hstep.symm⟩
        · simp only [hover] at hstep
          obtain ⟨_, _, _, _, _, _, heq⟩ := juego_fijar_eq { s with contador_ms := 0 } rnd
          rw [heq] at hstep
          exact resultado_t.noConfusion hstep
      · simp only [hcol] at hstep
        exact resultado_t.noConfusion hstep
    · rw [if_neg htick] at hstep
      split_ifs at hstep
  refine ⟨⟨fun ⟨s', h⟩ => (hcases s' h).1, ?_⟩, hay_desbordamiento_iff, ?_, ?_,
    esperar_pulsacion_primera, esperar_pulsacion_ninguna⟩
  · rintro ⟨htick, hcol, hover⟩
    refine ⟨{ s with contador_ms := 0 }, ?_⟩
    unfold juego_iteracion
    rw [if_pos htick]
    simp only [hcol, hover, if_true]
  · intro s' h
    have := (hcases s' h).2
    subst this
    exact ⟨rfl, rfl, rfl, rfl, rfl⟩
  · intro h
    unfold int16
    omega

set_option maxRecDepth 100000 in
theorem juego_game_over_witness :
    ∃ s', juego_iteracion estado_desbordado JOYSTICK_IZQUIERDA 0 = resultado_t.game_over s' :=
  (juego_game_over estado_desbordado JOYSTICK_IZQUIERDA 0).1.mpr
    ⟨by decide, by decide, by decide⟩

/-! ## piezas_inicializar: the catalog -/

theorem de_filas_fuera (l : List (List Nat)) (i j : Nat)
    (h : l.length ≤ i ∨ ∀ f, f ∈ l → f.length ≤ j) : de_filas l i j = 0 := by
  unfold de_filas
  by_cases hi : i < l.length
  · rcases h with h | h
    · omega
    · have h1 : l.getD i [] = l[i] := List.getD_eq_getElem _ _ hi
      rw [h1]
      exact List.getD_eq_default _ _ (h _ (List.getElem_mem hi))
  · have h1 : l.getD i [] = [] := List.getD_eq_default _ _ (by omega)
    rw [h1]
    rfl

/-- Cells outside the 4 x 4 array of a catalog piece read as zero. -/
theorem catalogo_fuera (k : Nat) (p : piezas_t) (h : piezas_inicializar k = some p)
    (i j : Nat) (hij : ¬(i < 4 ∧ j < 4)) : p.matriz i j = 0 := by
  have hij2 : 4 ≤ i ∨ 4 ≤ j := by omega
  unfold piezas_inicializar at h
  split_ifs at h <;> injection h with h <;> subst h <;>
    (apply de_filas_fuera
     rcases hij2 with h4 | h4
     · exact Or.inl h4
     · refine Or.inr ?_
       intro f hf
       simp only [List.mem_cons, List.mem_singleton, List.not_mem_nil, or_false] at hf
       rcases hf with rfl | rfl | rfl | rfl <;> exact h4)

theorem catalogo_caja (k : Nat) (p : piezas_t) (h : piezas_inicializar k = some p)
    (i j : Nat) (hij : ¬(i < p.tamano ∧ j < p.tamano)) : p.matriz i j = 0 := by
  by_cases h4 : i < 4 ∧ j < 4
  · obtain ⟨hi, hj⟩ := h4
    unfold piezas_inicializar at h
    split_ifs at h <;> injection h with h <;> subst h <;>
      interval_cases i <;> interval_cases j <;>
      first
        | rfl
        | exact absurd (show _ ∧ _ from ⟨by decide, by decide⟩) hij
  · exact catalogo_fuera k p h i j h4

theorem celdas_llenas_mem (k : Nat) (p : piezas_t) (h : piezas_inicializar k = some p)
    (i j : Nat) : p.matriz i j ≠ 0 ↔ (i, j) ∈ celdas_llenas p := by
  unfold celdas_llenas
  simp only [List.mem_filter, List.mem_flatMap, List.mem_map, List.mem_range, Prod.mk.injEq,
    bne_iff_ne, ne_eq, PIEZAS_TAM_MATRIZ]
  constructor
  · intro hf
    have h4 : i < 4 ∧ j < 4 := by
      by_contra hno
      exact hf (catalogo_fuera k p h i j hno)
    exact ⟨⟨i, h4.1, j, h4.2, rfl, rfl⟩, hf⟩
  · intro hf
    exact hf.2

theorem inicializar_casos (k : Nat) (p : piezas_t) (h : piezas_inicializar k = some p) :
    (k = PIEZAS_PALO ∧ p = piezas_palo) ∨ (k = PIEZAS_CUADRADO ∧ p = piezas_cuadrado) ∨
    (k = PIEZAS_ESE ∧ p = piezas_ese) ∨ (k = PIEZAS_ZETA ∧ p = piezas_zeta) ∨
    (k = PIEZAS_ELE ∧ p = piezas_ele) ∨ (k = PIEZAS_ELEREVES ∧ p = piezas_elereves) ∨
    (k = PIEZAS_TE ∧ p = piezas_te) := by
  unfold piezas_inicializar at h
  split_ifs at h <;> injection h with h <;> subst h <;>
    first
      | exact Or.inl ⟨by assumption, rfl⟩
      | exact Or.inr (Or.inl ⟨by assumption, rfl⟩)
      | exact Or.inr (Or.inr (Or.inl ⟨by assumption, rfl⟩))
      | exact Or.inr (Or.inr (Or.inr (Or.inl ⟨by assumption, rfl⟩)))
      | exact Or.inr (Or.inr (Or.inr (Or.inr (Or.inl ⟨by assumption, rfl⟩))))
      | exact Or.inr (Or.inr (Or.inr (Or.inr (Or.inr (Or.inl ⟨by assumption, rfl⟩)))))
      | exact Or.inr (Or.inr (Or.inr (Or.inr (Or.inr (Or.inr ⟨by assumption, rfl⟩)))))

/-- C11. For each of the seven kinds, `piezas_inicializar` writes a piece
whose `tipo` is that kind and whose size and filled cells (row, column) are
those of the specification table; every piece has exactly 4 filled cells and
every matrix cell outside the top-left size x size box is zero. -/
theorem piezas_inicializar_catalogo :
    (∃ p, piezas_inicializar PIEZAS_PALO = some p ∧ p.tipo = PIEZAS_PALO ∧ p.tamano = 4 ∧
      celdas_llenas p = [(0, 1), (1, 1), (2, 1), (3, 1)]) ∧
    (∃ p, piezas_inicializar PIEZAS_CUADRADO = some p ∧ p.tipo = PIEZAS_CUADRADO ∧
      p.tamano = 2 ∧ celdas_llenas p = [(0, 0), (0, 1), (1, 0), (1, 1)]) ∧
    (∃ p, piezas_inicializar PIEZAS_ESE = some p ∧ p.tipo = PIEZAS_ESE ∧ p.tamano = 3 ∧
      celdas_llenas p = [(0, 1), (0, 2), (1, 0), (1, 1)]) ∧
    (∃ p, piezas_inicializar PIEZAS_ZETA = some p ∧ p.tipo = PIEZAS_ZETA ∧ p.tamano = 3 ∧
      celdas_llenas p = [(0, 0), (0, 1), (1, 1), (1, 2)]) ∧
    (∃ p, piezas_inicializar PIEZAS_ELE = some p ∧ p.tipo = PIEZAS_ELE ∧ p.tamano = 3 ∧
      celdas_llenas p = [(0, 1), (1, 1), (2, 1), (2, 2)]) ∧
    (∃ p, piezas_inicializar PIEZAS_ELEREVES = some p ∧ p.tipo = PIEZAS_ELEREVES ∧
      p.tamano = 3 ∧ celdas_llenas p = [(0, 1), (1, 1), (2, 0), (2, 1)]) ∧
    (∃ p, piezas_inicializar PIEZAS_TE = some p ∧ p.tipo = PIEZAS_TE ∧ p.tamano = 3 ∧
      celdas_llenas p = [(0, 1), (1, 0), (1, 1), (1, 2)]) ∧
    (∀ k p, piezas_inicializar k = some p →
      k < PIEZAS_NUM_PIEZAS ∧ p.tipo = k ∧ (celdas_llenas p).length = 4 ∧
      (∀ i j, p.matriz i j ≠ 0 ↔ (i, j) ∈ celdas_llenas p) ∧
      (∀ i j, ¬(i < p.tamano ∧ j < p.tamano) → p.matriz i j = 0)) := by
  refine ⟨⟨_, rfl, rfl, rfl, by decide⟩, ⟨_, rfl, rfl, rfl, by decide⟩,
    ⟨_, rfl, rfl, rfl, by decide⟩, ⟨_, rfl, rfl, rfl, by decide⟩,
    ⟨_, rfl, rfl, rfl, by decide⟩, ⟨_, rfl, rfl, rfl, by decide⟩,
    ⟨_, rfl, rfl, rfl, by decide⟩, ?_⟩
  intro k p h
  refine ⟨?_, ?_, ?_, celdas_llenas_mem k p h, catalogo_caja k p h⟩ <;>
    rcases inicializar_casos k p h with ⟨rfl, rfl⟩ | ⟨rfl, rfl⟩ | ⟨rfl, rfl⟩ | ⟨rfl, rfl⟩ |
      ⟨rfl, rfl⟩ | ⟨rfl, rfl⟩ | ⟨rfl, rfl⟩ <;> decide

/-! ## menu.c: the event slot -/

/-- C17. One step of the 20 ms sampler `TIMER1_IRQHandler`, for every previous
reading, current reading and slot state: with the slot empty, prev = None and
cur = X != None, the slot becomes pending with X; with the slot empty,
prev != None and cur = None, the slot becomes pending with Idle (0xA5,
distinct from None and from the five directions); with a steady reading
nothing is published; with the slot already pending, its event and flag are
left unchanged; in every case prev becomes cur. -/
theorem TIMER1_IRQHandler_paso (m : pulsador_t) (pulsacion_actual : Nat) :
    (m.hay_nueva_pulsacion = false → m.pulsacion_anterior = JOYSTICK_NADA →
      pulsacion_actual ≠ JOYSTICK_NADA →
      (TIMER1_IRQHandler m pulsacion_actual).hay_nueva_pulsacion = true ∧
      (TIMER1_IRQHandler m pulsacion_actual).nueva_pulsacion = pulsacion_actual) ∧
    (m.hay_nueva_pulsacion = false → m.pulsacion_anterior ≠ JOYSTICK_NADA →
      pulsacion_actual = JOYSTICK_NADA →
      (TIMER1_IRQHandler m pulsacion_actual).hay_nueva_pulsacion = true ∧
      (TIMER1_IRQHandler m pulsacion_actual).nueva_pulsacion = JOYSTICK_INACTIVO) ∧
    (JOYSTICK_INACTIVO = 0xA5 ∧ JOYSTICK_INACTIVO ≠ JOYSTICK_NADA ∧
      JOYSTICK_INACTIVO ≠ JOYSTICK_ARRIBA ∧ JOYSTICK_INACTIVO ≠ JOYSTICK_ABAJO ∧
      JOYSTICK_INACTIVO ≠ JOYSTICK_IZQUIERDA ∧ JOYSTICK_INACTIVO ≠ JOYSTICK_DERECHA ∧
      JOYSTICK_INACTIVO ≠ JOYSTICK_CENTRO) ∧
    (m.pulsacion_anterior = pulsacion_actual →
      (TIMER1_IRQHandler m pulsacion_actual).hay_nueva_pulsacion = m.hay_nueva_pulsacion ∧
      (TIMER1_IRQHandler m pulsacion_actual).nueva_pulsacion = m.nueva_pulsacion) ∧
    (m.hay_nueva_pulsacion = true →
      (TIMER1_IRQHandler m pulsacion_actual).hay_nueva_pulsacion = true ∧
      (TIMER1_IRQHandler m pulsacion_actual).nueva_pulsacion = m.nueva_pulsacion) ∧
    (TIMER1_IRQHandler m pulsacion_actual).pulsacion_anterior = pulsacion_actual := by
  refine ⟨?_, ?_, by decide, ?_, ?_, rfl⟩
  · intro h1 h2 h3
    simp [TIMER1_IRQHandler, h1, h2, h3]
  · intro h1 h2 h3
    simp [TIMER1_IRQHandler, h1, h2, h3]
  · intro h1
    unfold TIMER1_IRQHandler
    simp only
    split_ifs with h2 h3
    · exact absurd (h1 ▸ h2.1) h2.2.1
    · exact absurd (h1 ▸ h3.2.1) h3.1
    · exact ⟨rfl, rfl⟩
  · intro h1
    simp [TIMER1_IRQHandler, h1]

theorem TIMER1_IRQHandler_paso_witness :
    TIMER1_IRQHandler pulsador_inicial JOYSTICK_ABAJO =
        { hay_nueva_pulsacion := true, nueva_pulsacion := JOYSTICK_ABAJO,
          pulsacion_anterior := JOYSTICK_ABAJO } ∧
      (TIMER1_IRQHandler (TIMER1_IRQHandler pulsador_inicial JOYSTICK_ABAJO)
        JOYSTICK_NADA).nueva_pulsacion = JOYSTICK_ABAJO :=
  ⟨rfl, ((TIMER1_IRQHandler_paso (TIMER1_IRQHandler pulsador_inicial JOYSTICK_ABAJO)
    JOYSTICK_NADA).2.2.2.2.1 rfl).2⟩

/-- C18. `leer_pulsacion` returns the stored event and clears the pending flag
when an event is pending, and returns `JOYSTICK_NADA` leaving the slot state
unchanged when none is pending; hence a published event is returned by the
next poll only, and a second poll with no sampler step in between returns
`JOYSTICK_NADA`. -/
theorem leer_pulsacion_contrato (m : pulsador_t) :
    (m.hay_nueva_pulsacion = true →
      leer_pulsacion m = (m.nueva_pulsacion, { m with hay_nueva_pulsacion := false })) ∧
    (m.hay_nueva_pulsacion = false → leer_pulsacion m = (JOYSTICK_NADA, m)) ∧
    leer_pulsacion (leer_pulsacion m).2 = (JOYSTICK_NADA, (leer_pulsacion m).2) ∧
    (∀ pulsacion_actual, m.hay_nueva_pulsacion = false →
      (TIMER1_IRQHandler m pulsacion_actual).hay_nueva_pulsacion = true →
      (leer_pulsacion (TIMER1_IRQHandler m pulsacion_actual)).1 =
          (TIMER1_IRQHandler m pulsacion_actual).nueva_pulsacion ∧
        (leer_pulsacion (leer_pulsacion (TIMER1_IRQHandler m pulsacion_actual)).2).1 =
          JOYSTICK_NADA) := by
  have hsegunda : ∀ m' : pulsador_t,
      leer_pulsacion (leer_pulsacion m').2 = (JOYSTICK_NADA, (leer_pulsacion m').2) := by
    intro m'
    cases hm : m'.hay_nueva_pulsacion <;> simp [leer_pulsacion, hm]
  refine ⟨?_, ?_, hsegunda m, ?_⟩
  · intro h
    simp [leer_pulsacion, h]
  · intro h
    simp [leer_pulsacion, h]
  · intro cur _ h2
    refine ⟨?_, ?_⟩
    · simp [leer_pulsacion, h2]
    · rw [hsegunda]

theorem leer_pulsacion_contrato_witness :
    leer_pulsacion (TIMER1_IRQHandler pulsador_inicial JOYSTICK_ARRIBA) =
      (JOYSTICK_ARRIBA,
        { hay_nueva_pulsacion := false, nueva_pulsacion := JOYSTICK_ARRIBA,
          pulsacion_anterior := JOYSTICK_ARRIBA }) :=
  (leer_pulsacion_contrato (TIMER1_IRQHandler pulsador_inicial JOYSTICK_ARRIBA)).1 rfl

/-! ## juego: the key branch and the gravity step -/

theorem juego_iteracion_sin_tic (s : estado_t) (tecla_pulsada rnd : Nat)
    (h : s.contador_ms < s.tiempo_paso) :
    juego_iteracion s tecla_pulsada rnd =
      resultado_t.continua
        (if tecla_pulsada ≠ JOYSTICK_NADA then juego_tecla s tecla_pulsada else s) := by
  unfold juego_iteracion
  rw [if_neg (by omega)]
  split_ifs <;> rfl

theorem juego_tecla_arriba (s : estado_t) :
    juego_tecla s JOYSTICK_ARRIBA =
      { s with
        tiempo_paso := s.temp_tiempo_paso
        piezas_actual :=
          if cubeta_hay_interseccion s.cubeta (piezas_rotar s.piezas_actual DERECHA)
              s.x_piezas_actual s.y_piezas_actual = true then s.piezas_actual
          else piezas_rotar s.piezas_actual DERECHA } := by
  unfold juego_tecla
  simp only [if_true]
  cases hc : cubeta_hay_interseccion s.cubeta (piezas_rotar s.piezas_actual DERECHA)
      s.x_piezas_actual s.y_piezas_actual <;> simp

theorem juego_tecla_centro (s : estado_t) :
    juego_tecla s JOYSTICK_CENTRO =
      { s with
        tiempo_paso := s.temp_tiempo_paso
        piezas_actual :=
          if cubeta_hay_interseccion s.cubeta (piezas_rotar s.piezas_actual IZQUIERDA)
              s.x_piezas_actual s.y_piezas_actual = true then s.piezas_actual
          else piezas_rotar s.piezas_actual IZQUIERDA } := by
  unfold juego_tecla
  have h1 : ¬JOYSTICK_CENTRO = JOYSTICK_ARRIBA := by decide
  simp only [if_neg h1, if_true]
  cases hc : cubeta_hay_interseccion s.cubeta (piezas_rotar s.piezas_actual IZQUIERDA)
      s.x_piezas_actual s.y_piezas_actual <;> simp

theorem juego_tecla_izquierda (s : estado_t) :
    juego_tecla s JOYSTICK_IZQUIERDA =
      { s with
        tiempo_paso := s.temp_tiempo_paso
        x_piezas_actual :=
          if cubeta_hay_interseccion s.cubeta s.piezas_actual (int16 (s.x_piezas_actual - 1))
              s.y_piezas_actual = true then s.x_piezas_actual
          else int16 (s.x_piezas_actual - 1) } := by
  unfold juego_tecla
  have h1 : ¬JOYSTICK_IZQUIERDA = JOYSTICK_ARRIBA := by decide
  have h2 : ¬JOYSTICK_IZQUIERDA = JOYSTICK_CENTRO := by decide
  have h3 : ¬JOYSTICK_IZQUIERDA = JOYSTICK_DERECHA := by decide
  have h4 : ¬JOYSTICK_IZQUIERDA = JOYSTICK_ABAJO := by decide
  simp only [if_neg h1, if_neg h2, h3, h4, true_and, false_and, if_false]
  cases hc : cubeta_hay_interseccion s.cubeta s.piezas_actual (int16 (s.x_piezas_actual - 1))
      s.y_piezas_actual <;> simp

theorem juego_tecla_derecha (s : estado_t) :
    juego_tecla s JOYSTICK_DERECHA =
      { s with
        tiempo_paso := s.temp_tiempo_paso
        x_piezas_actual :=
          if cubeta_hay_interseccion s.cubeta s.piezas_actual (int16 (s.x_piezas_actual + 1))
              s.y_piezas_actual = true then s.x_piezas_actual
          else int16 (s.x_piezas_actual + 1) } := by
  unfold juego_tecla
  have h1 : ¬JOYSTICK_DERECHA = JOYSTICK_ARRIBA := by decide
  have h2 : ¬JOYSTICK_DERECHA = JOYSTICK_CENTRO := by decide
  have h3 : ¬JOYSTICK_DERECHA = JOYSTICK_IZQUIERDA := by decide
  have h4 : ¬JOYSTICK_DERECHA = JOYSTICK_ABAJO := by decide
  simp only [if_neg h1, if_neg h2, h3, h4, true_and, false_and, if_false]
  cases hc : cubeta_hay_interseccion s.cubeta s.piezas_actual (int16 (s.x_piezas_actual + 1))
      s.y_piezas_actual <;> simp

theorem juego_tecla_abajo (s : estado_t) :
    juego_tecla s JOYSTICK_ABAJO = { s with tiempo_paso := 50 } := by
  unfold juego_tecla
  have h1 : ¬JOYSTICK_ABAJO = JOYSTICK_ARRIBA := by decide
  have h2 : ¬JOYSTICK_ABAJO = JOYSTICK_CENTRO := by decide
  have h3 : ¬JOYSTICK_ABAJO = JOYSTICK_IZQUIERDA := by decide
  have h4 : ¬JOYSTICK_ABAJO = JOYSTICK_DERECHA := by decide
  simp only [if_neg h1, if_neg h2, h3, h4, false_and, if_false, if_true]

/-- A polled value that is none of the five directions (Idle among them) only
restores the saved period. -/
theorem juego_tecla_otra (s : estado_t) (tecla_pulsada : Nat)
    (h1 : tecla_pulsada ≠ JOYSTICK_ARRIBA) (h2 : tecla_pulsada ≠ JOYSTICK_CENTRO)
    (h3 : tecla_pulsada ≠ JOYSTICK_IZQUIERDA) (h4 : tecla_pulsada ≠ JOYSTICK_DERECHA)
    (h5 : tecla_pulsada ≠ JOYSTICK_ABAJO) :
    juego_tecla s tecla_pulsada = { s with tiempo_paso := s.temp_tiempo_paso } := by
  unfold juego_tecla
  simp only [if_neg h1, if_neg h2, h3, h4, if_neg h5, false_and, if_false]

/-- What the key branch never touches. -/
theorem juego_tecla_marco (s : estado_t) (tecla_pulsada : Nat) :
    (juego_tecla s tecla_pulsada).cubeta = s.cubeta ∧
    (juego_tecla s tecla_pulsada).y_piezas_actual = s.y_piezas_actual ∧
    (juego_tecla s tecla_pulsada).piezas_siguiente = s.piezas_siguiente ∧
    (juego_tecla s tecla_pulsada).puntos = s.puntos ∧
    (juego_tecla s tecla_pulsada).filas_completadas = s.filas_completadas ∧
    (juego_tecla s tecla_pulsada).nivel = s.nivel ∧
    (juego_tecla s tecla_pulsada).contador_ms = s.contador_ms := by
  by_cases h1 : tecla_pulsada = JOYSTICK_ARRIBA
  · subst h1; rw [juego_tecla_arriba]; exact ⟨rfl, rfl, rfl, rfl, rfl, rfl, rfl⟩
  by_cases h2 : tecla_pulsada = JOYSTICK_CENTRO
  · subst h2; rw [juego_tecla_centro]; exact ⟨rfl, rfl, rfl, rfl, rfl, rfl, rfl⟩
  by_cases h3 : tecla_pulsada = JOYSTICK_IZQUIERDA
  · subst h3; rw [juego_tecla_izquierda]; exact ⟨rfl, rfl, rfl, rfl, rfl, rfl, rfl⟩
  by_cases h4 : tecla_pulsada = JOYSTICK_DERECHA
  · subst h4; rw [juego_tecla_derecha]; exact ⟨rfl, rfl, rfl, rfl, rfl, rfl, rfl⟩
  by_cases h5 : tecla_pulsada = JOYSTICK_ABAJO
  · subst h5; rw [juego_tecla_abajo]; exact ⟨rfl, rfl, rfl, rfl, rfl, rfl, rfl⟩
  rw [juego_tecla_otra s tecla_pulsada h1 h2 h3 h4 h5]
  exact ⟨rfl, rfl, rfl, rfl, rfl, rfl, rfl⟩

theorem juego_iteracion_gravedad (s : estado_t) (tecla_pulsada rnd : Nat)
    (htick : s.contador_ms ≥ s.tiempo_paso)
    (hno : cubeta_hay_interseccion s.cubeta s.piezas_actual s.x_piezas_actual
      (int16 (s.y_piezas_actual + 1)) = false) :
    juego_iteracion s tecla_pulsada rnd =
      resultado_t.continua
        { s with contador_ms := 0, y_piezas_actual := int16 (s.y_piezas_actual + 1) } := by
  unfold juego_iteracion
  rw [if_pos htick]
  simp only [hno, Bool.false_eq_true, if_false]

theorem tics_marco (n : Nat) (s : estado_t) :
    ∃ ms, Nat.iterate TIMER0_IRQHandler n s = { s with contador_ms := ms } := by
  induction n generalizing s with
  | zero => exact ⟨s.contador_ms, rfl⟩
  | succ n ih =>
    obtain ⟨ms, h⟩ := ih (TIMER0_IRQHandler s)
    exact ⟨ms, by rw [Function.iterate_succ, Function.comp, h]; rfl⟩

/-- C19. For every game state in which the gravity tick is not due: an Up
(resp. Center) press replaces the active piece by its right (resp. left)
rotation if and only if the rotated copy does not collide at (x, y); a Left
(resp. Right) press changes x to x-1 (resp. x+1, both as `int16_t`) if and
only if the active piece does not collide at that position; whenever the probe
collides, the active piece, x and y are unchanged; and in every case the
board, y, the next piece, score, lines and level are unchanged. -/
theorem juego_teclas_movimiento (s : estado_t) (rnd : Nat)
    (h : s.contador_ms < s.tiempo_paso) :
    juego_iteracion s JOYSTICK_ARRIBA rnd =
      resultado_t.continua
        { s with
          tiempo_paso := s.temp_tiempo_paso
          piezas_actual :=
            if cubeta_hay_interseccion s.cubeta (piezas_rotar s.piezas_actual DERECHA)
                s.x_piezas_actual s.y_piezas_actual = true then s.piezas_actual
            else piezas_rotar s.piezas_actual DERECHA } ∧
    juego_iteracion s JOYSTICK_CENTRO rnd =
      resultado_t.continua
        { s with
          tiempo_paso := s.temp_tiempo_paso
          piezas_actual :=
            if cubeta_hay_interseccion s.cubeta (piezas_rotar s.piezas_actual IZQUIERDA)
                s.x_piezas_actual s.y_piezas_actual = true then s.piezas_actual
            else piezas_rotar s.piezas_actual IZQUIERDA } ∧
    juego_iteracion s JOYSTICK_IZQUIERDA rnd =
      resultado_t.continua
        { s with
          tiempo_paso := s.temp_tiempo_paso
          x_piezas_actual :=
            if cubeta_hay_interseccion s.cubeta s.piezas_actual
                (int16 (s.x_piezas_actual - 1)) s.y_piezas_actual = true then s.x_piezas_actual
            else int16 (s.x_piezas_actual - 1) } ∧
    juego_iteracion s JOYSTICK_DERECHA rnd =
      resultado_t.continua
        { s with
          tiempo_paso := s.temp_tiempo_paso
          x_piezas_actual :=
            if cubeta_hay_interseccion s.cubeta s.piezas_actual
                (int16 (s.x_piezas_actual + 1)) s.y_piezas_actual = true then s.x_piezas_actual
            else int16 (s.x_piezas_actual + 1) } ∧
    (∀ sentido tecla s', (sentido = DERECHA ∧ tecla = JOYSTICK_ARRIBA) ∨
        (sentido = IZQUIERDA ∧ tecla = JOYSTICK_CENTRO) →
      juego_iteracion s tecla rnd = resultado_t.continua s' →
      (cubeta_hay_interseccion s.cubeta (piezas_rotar s.piezas_actual sentido)
          s.x_piezas_actual s.y_piezas_actual = false →
        s'.piezas_actual = piezas_rotar s.piezas_actual sentido) ∧
      (cubeta_hay_interseccion s.cubeta (piezas_rotar s.piezas_actual sentido)
          s.x_piezas_actual s.y_piezas_actual = true →
        s'.piezas_actual = s.piezas_actual) ∧
      (piezas_rotar s.piezas_actual sentido ≠ s.piezas_actual →
        (s'.piezas_actual = piezas_rotar s.piezas_actual sentido ↔
          cubeta_hay_interseccion s.cubeta (piezas_rotar s.piezas_actual sentido)
            s.x_piezas_actual s.y_piezas_actual = false)) ∧
      s'.x_piezas_actual = s.x_piezas_actual) ∧
    (∀ (d : Int) tecla s', (d = -1 ∧ tecla = JOYSTICK_IZQUIERDA) ∨
        (d = 1 ∧ tecla = JOYSTICK_DERECHA) →
      juego_iteracion s tecla rnd = resultado_t.continua s' →
      (s'.x_piezas_actual = int16 (s.x_piezas_actual + d) ↔
        cubeta_hay_interseccion s.cubeta s.piezas_actual (int16 (s.x_piezas_actual + d))
          s.y_piezas_actual = false) ∧
      (cubeta_hay_interseccion s.cubeta s.piezas_actual (int16 (s.x_piezas_actual + d))
          s.y_piezas_actual = true →
        s'.x_piezas_actual = s.x_piezas_actual) ∧
      s'.piezas_actual = s.piezas_actual ∧
      (-32768 ≤ s.x_piezas_actual + d ∧ s.x_piezas_actual + d ≤ 32767 →
        int16 (s.x_piezas_actual + d) = s.x_piezas_actual + d)) ∧
    (∀ tecla s', juego_iteracion s tecla rnd = resultado_t.continua s' →
      s'.cubeta = s.cubeta ∧ s'.y_piezas_actual = s.y_piezas_actual ∧
      s'.piezas_siguiente = s.piezas_siguiente ∧ s'.puntos = s.puntos ∧
      s'.filas_completadas = s.filas_completadas ∧ s'.nivel = s.nivel) := by
  have hA : ∀ tecla, tecla ≠ JOYSTICK_NADA →
      juego_iteracion s tecla rnd = resultado_t.continua (juego_tecla s tecla) := by
    intro tecla ht
    rw [juego_iteracion_sin_tic s tecla rnd h, if_pos ht]
  have h1 := hA JOYSTICK_ARRIBA (by decide)
  have h2 := hA JOYSTICK_CENTRO (by decide)
  have h3 := hA JOYSTICK_IZQUIERDA (by decide)
  have h4 := hA JOYSTICK_DERECHA (by decide)
  rw [juego_tecla_arriba] at h1
  rw [juego_tecla_centro] at h2
  rw [juego_tecla_izquierda] at h3
  rw [juego_tecla_derecha] at h4
  refine ⟨h1, h2, h3, h4, ?_, ?_, ?_⟩
  · intro sentido tecla s' hcase hstep
    have hrot : ∀ (hs : juego_iteracion s tecla rnd = resultado_t.continua
        { s with
          tiempo_paso := s.temp_tiempo_paso
          piezas_actual :=
            if cubeta_hay_interseccion s.cubeta (piezas_rotar s.piezas_actual sentido)
                s.x_piezas_actual s.y_piezas_actual = true then s.piezas_actual
            else piezas_rotar s.piezas_actual sentido }),
        (cubeta_hay_interseccion s.cubeta (piezas_rotar s.piezas_actual sentido)
            s.x_piezas_actual s.y_piezas_actual = false →
          s'.piezas_actual = piezas_rotar s.piezas_actual sentido) ∧
        (cubeta_hay_interseccion s.cubeta (piezas_rotar s.piezas_actual sentido)
            s.x_piezas_actual s.y_piezas_actual = true →
          s'.piezas_actual = s.piezas_actual) ∧
        (piezas_rotar s.piezas_actual sentido ≠ s.piezas_actual →
          (s'.piezas_actual = piezas_rotar s.piezas_actual sentido ↔
            cubeta_hay_interseccion s.cubeta (piezas_rotar s.piezas_actual sentido)
              s.x_piezas_actual s.y_piezas_actual = false)) ∧
        s'.x_piezas_actual = s.x_piezas_actual := by
      intro hs
      rw [hs] at hstep
      injection hstep with hstep
      subst hstep
      cases hc : cubeta_hay_interseccion s.cubeta (piezas_rotar s.piezas_actual sentido)
          s.x_piezas_actual s.y_piezas_actual
      · simp
      · simp only [if_true, Bool.true_eq_false, false_implies, true_implies, iff_false,
          true_and, and_true]
        intro hne heq
        exact hne heq.symm
    rcases hcase with ⟨rfl, rfl⟩ | ⟨rfl, rfl⟩
    · exact hrot h1
    · exact hrot h2
  · intro d tecla s' hcase hstep
    have hmov : ∀ (hs : juego_iteracion s tecla rnd = resultado_t.continua
        { s with
          tiempo_paso := s.temp_tiempo_paso
          x_piezas_actual :=
            if cubeta_hay_interseccion s.cubeta s.piezas_actual
                (int16 (s.x_piezas_actual + d)) s.y_piezas_actual = true then
              s.x_piezas_actual
            else int16 (s.x_piezas_actual + d) }) (hd : d = -1 ∨ d = 1),
        (s'.x_piezas_actual = int16 (s.x_piezas_actual + d) ↔
          cubeta_hay_interseccion s.cubeta s.piezas_actual (int16 (s.x_piezas_actual + d))
            s.y_piezas_actual = false) ∧
        (cubeta_hay_interseccion s.cubeta s.piezas_actual (int16 (s.x_piezas_actual + d))
            s.y_piezas_actual = true →
          s'.x_piezas_actual = s.x_piezas_actual) ∧
        s'.piezas_actual = s.piezas_actual ∧
        (-32768 ≤ s.x_piezas_actual + d ∧ s.x_piezas_actual + d ≤ 32767 →
          int16 (s.x_piezas_actual + d) = s.x_piezas_actual + d) := by
      intro hs hd
      rw [hs] at hstep
      injection hstep with hstep
      subst hstep
      have hne : s.x_piezas_actual ≠ int16 (s.x_piezas_actual + d) := by
        unfold int16
        omega
      have hfit : -32768 ≤ s.x_piezas_actual + d ∧ s.x_piezas_actual + d ≤ 32767 →
          int16 (s.x_piezas_actual + d) = s.x_piezas_actual + d := by
        intro hr
        unfold int16
        omega
      refine ⟨?_, ?_, rfl, hfit⟩
      · cases hc : cubeta_hay_interseccion s.cubeta s.piezas_actual
            (int16 (s.x_piezas_actual + d)) s.y_piezas_actual
        · simp
        · simp only [if_true, Bool.true_eq_false, iff_false]
          exact hne
      · intro hc
        simp only [hc, if_true]
    rcases hcase with ⟨rfl, rfl⟩ | ⟨rfl, rfl⟩
    · exact hmov h3 (Or.inl rfl)
    · exact hmov h4 (Or.inr rfl)
  · intro tecla s' hstep
    rw [juego_iteracion_sin_tic s tecla rnd h] at hstep
    injection hstep with hstep
    subst hstep
    by_cases ht : tecla ≠ JOYSTICK_NADA
    · rw [if_pos ht]
      obtain ⟨a, b, c, d, e, f, _⟩ := juego_tecla_marco s tecla
      exact ⟨a, b, c, d, e, f⟩
    · rw [if_neg ht]
      exact ⟨rfl, rfl, rfl, rfl, rfl, rfl⟩

set_option maxRecDepth 100000 in
theorem juego_teclas_movimiento_witness :
    juego_iteracion estado_arranque JOYSTICK_IZQUIERDA 0 =
        resultado_t.continua { estado_arranque with x_piezas_actual := 4 } ∧
      juego_iteracion estado_pared JOYSTICK_IZQUIERDA 0 = resultado_t.continua estado_pared := by
  have h1 := (juego_teclas_movimiento estado_arranque 0 (by decide)).2.2.1
  have h2 := (juego_teclas_movimiento estado_pared 0 (by decide)).2.2.1
  have c1 : cubeta_hay_interseccion estado_arranque.cubeta estado_arranque.piezas_actual
      (int16 (estado_arranque.x_piezas_actual - 1)) estado_arranque.y_piezas_actual = false := by
    decide
  have c2 : cubeta_hay_interseccion estado_pared.cubeta estado_pared.piezas_actual
      (int16 (estado_pared.x_piezas_actual - 1)) estado_pared.y_piezas_actual = true := by
    decide
  rw [c1] at h1
  rw [c2] at h2
  exact ⟨h1, h2⟩

theorem pasos_gravedad_marco (n : Nat) (s s' : estado_t) (h : PasosGravedad n s s')
    (hy : -32768 ≤ s.y_piezas_actual) (hn : s.y_piezas_actual + n ≤ 32767) :
    s' = { s with contador_ms := s'.contador_ms, y_piezas_actual := s.y_piezas_actual + n } := by
  induction h with
  | cero s => simp
  | paso n s s1 s2 tics tecla rnd _ htick hno hstep ih =>
    have ih1 := ih hy (by push_cast at hn; omega)
    obtain ⟨ms, hms⟩ := tics_marco tics s1
    rw [hms] at htick hstep
    rw [juego_iteracion_gravedad _ tecla rnd htick hno] at hstep
    injection hstep with hstep
    subst hstep
    have hy1 : s1.y_piezas_actual = s.y_piezas_actual + n := by rw [ih1]
    have hfit : int16 (s1.y_piezas_actual + 1) = s.y_piezas_actual + (n + 1 : Nat) := by
      rw [hy1]
      unfold int16
      push_cast at hn ⊢
      omega
    simp only [hfit]
    rw [ih1]

/-- C20. For every game state in which the gravity tick is due and the active
piece does not collide at (x, y+1) (y+1 as the `int16_t` the code computes),
one loop iteration sets y to y+1 and `contador_ms` to 0 and leaves the board,
the active piece, x, the next piece, score, lines, level and gravity period
unchanged, whatever event was polled; hence N consecutive such gravity steps
advance y by exactly N. -/
theorem juego_paso_gravedad (s : estado_t) (tecla_pulsada rnd : Nat)
    (htick : s.contador_ms ≥ s.tiempo_paso)
    (hno : cubeta_hay_interseccion s.cubeta s.piezas_actual s.x_piezas_actual
      (int16 (s.y_piezas_actual + 1)) = false) :
    juego_iteracion s tecla_pulsada rnd =
      resultado_t.continua
        { s with contador_ms := 0, y_piezas_actual := int16 (s.y_piezas_actual + 1) } ∧
    (-32768 ≤ s.y_piezas_actual ∧ s.y_piezas_actual < 32767 →
      int16 (s.y_piezas_actual + 1) = s.y_piezas_actual + 1) ∧
    (∀ s', juego_iteracion s tecla_pulsada rnd = resultado_t.continua s' →
      s'.y_piezas_actual = int16 (s.y_piezas_actual + 1) ∧ s'.contador_ms = 0 ∧
      s'.cubeta = s.cubeta ∧ s'.piezas_actual = s.piezas_actual ∧
      s'.x_piezas_actual = s.x_piezas_actual ∧ s'.piezas_siguiente = s.piezas_siguiente ∧
      s'.puntos = s.puntos ∧ s'.filas_completadas = s.filas_completadas ∧
      s'.nivel = s.nivel ∧ s'.tiempo_paso = s.tiempo_paso ∧
      s'.temp_tiempo_paso = s.temp_tiempo_paso) ∧
    (∀ (N : Nat) (s' : estado_t), PasosGravedad N s s' →
      -32768 ≤ s.y_piezas_actual → s.y_piezas_actual + N ≤ 32767 →
      s'.y_piezas_actual = s.y_piezas_actual + N ∧
      s'.cubeta = s.cubeta ∧ s'.piezas_actual = s.piezas_actual ∧
      s'.x_piezas_actual = s.x_piezas_actual ∧ s'.piezas_siguiente = s.piezas_siguiente ∧
      s'.puntos = s.puntos ∧ s'.filas_completadas = s.filas_completadas ∧
      s'.nivel = s.nivel ∧ s'.tiempo_paso = s.tiempo_paso) := by
  have hstep := juego_iteracion_gravedad s tecla_pulsada rnd htick hno
  refine ⟨hstep, ?_, ?_, ?_⟩
  · intro hr
    unfold int16
    omega
  · intro s' hs
    rw [hstep] at hs
    injection hs with hs
    subst hs
    exact ⟨rfl, rfl, rfl, rfl, rfl, rfl, rfl, rfl, rfl, rfl, rfl⟩
  · intro N s' hN hy hn
    have := pasos_gravedad_marco N s s' hN hy hn
    rw [this]
    exact ⟨rfl, rfl, rfl, rfl, rfl, rfl, rfl, rfl, rfl⟩

set_option maxRecDepth 100000 in
theorem juego_paso_gravedad_witness :
    ∃ s' : estado_t, PasosGravedad 2 estado_inicial s' ∧ s'.y_piezas_actual = -2 := by
  have h1 : PasosGravedad 1 estado_inicial
      { estado_inicial with contador_ms := 0, y_piezas_actual := -3 } :=
    PasosGravedad.paso 0 _ _ _ 0 JOYSTICK_NADA 0 (PasosGravedad.cero _) (by decide) (by decide)
      iteracion_ejemplo
  have h2 : PasosGravedad 2 estado_inicial
      { estado_inicial with contador_ms := 0, y_piezas_actual := -2 } :=
    PasosGravedad.paso 1 _ _ _ 750 JOYSTICK_DERECHA 3 h1 (by decide) (by decide) (by rfl)
  refine ⟨_, h2, ?_⟩
  have := ((juego_paso_gravedad estado_inicial JOYSTICK_NADA 0 (by decide) (by decide)).2.2.2
    2 _ h2 (by decide) (by decide)).1
  rw [this]
  rfl

/-! ## Rows filled by one piece -/

theorem cuenta_intervalo (a k n : Nat) :
    (List.range n).countP (fun r => decide (a ≤ r ∧ r < a + k)) ≤ min k (n - a) := by
  induction n with
  | zero => simp
  | succ n ih =>
    rw [List.range_succ, List.countP_append]
    by_cases h : a ≤ n ∧ n < a + k
    · have h1 : List.countP (fun r => decide (a ≤ r ∧ r < a + k)) [n] = 1 := by
        simp [List.countP_cons, h]
      rw [h1]
      have := Nat.le_min.mp ih
      apply Nat.le_min.mpr
      omega
    · have h1 : List.countP (fun r => decide (a ≤ r ∧ r < a + k)) [n] = 0 := by
        simp [List.countP_cons, h]
      rw [h1]
      have := Nat.le_min.mp ih
      apply Nat.le_min.mpr
      omega

/-- Fixing a piece of size at most 4 on a board without full rows completes
at most 4 rows: a row that becomes full holds a cell of the piece. -/
theorem fijar_llenas_le_cuatro (c : cubeta_t) (p : piezas_t) (x y : Int)
    (hc : ∀ r, r < CUBETA_ALTO → ∃ col, col < CUBETA_ANCHO ∧ c.matriz r col = 0)
    (hp : p.tamano ≤ 4) :
    (filas (cubeta_fijar_pieza c p x y)).countP fila_llena ≤ 4 := by
  unfold filas
  rw [List.countP_map]
  have hmono : List.countP (fila_llena ∘ fila (cubeta_fijar_pieza c p x y))
      (List.range CUBETA_ALTO) ≤
      List.countP (fun r => decide (y.toNat ≤ r ∧ r < y.toNat + 4)) (List.range CUBETA_ALTO) := by
    apply List.countP_mono_left
    intro r hr hfull
    rw [List.mem_range] at hr
    simp only [Function.comp] at hfull
    rw [fila_llena_iff] at hfull
    obtain ⟨col, hcol, hz⟩ := hc r hr
    have hne := hfull col hcol
    have hcub : ∃ i j : Nat, i < p.tamano ∧ j < p.tamano ∧ p.matriz i j ≠ 0 ∧
        y + i = r ∧ x + j = col ∧ r < 17 ∧ col < 10 := by
      by_contra hno
      rw [(fijar_pieza_celda c p x y r col).2 hno] at hne
      exact hne hz
    obtain ⟨i, j, hi, _, _, hyr, _⟩ := hcub
    simp only [decide_eq_true_eq]
    omega
  have := cuenta_intervalo y.toNat 4 CUBETA_ALTO
  have h4 := (Nat.le_min.mp this).1
  omega

theorem revisar_filas_fila_con_cero (c c' : cubeta_t) (n : Nat)
    (h : cubeta_revisar_filas c = some (c', n)) :
    n = (filas c).countP fila_llena ∧
    ∀ r, r < CUBETA_ALTO → ∃ col, col < CUBETA_ANCHO ∧ c'.matriz r col = 0 := by
  obtain ⟨c2, h2, hfilas, _, _⟩ := revisar_filas_eq c
  rw [h2] at h
  injection h with h
  injection h with h1 h3
  subst h1
  refine ⟨h3.symm, ?_⟩
  intro r hr
  have hmem : fila c2 r ∈ filas c2 := by
    unfold filas
    exact List.mem_map.mpr ⟨r, List.mem_range.mpr hr, rfl⟩
  rw [hfilas] at hmem
  have hnf := compactar_sin_llenas _ _ hmem
  by_contra hne
  have : fila_llena (fila c2 r) = true := by
    rw [fila_llena_iff]
    intro j hj hz
    exact hne ⟨j, hj, hz⟩
  rw [hnf] at this
  exact Bool.noConfusion this

theorem inicializar_cubeta_vacia (c0 : cubeta_t) (r col : Nat) (hr : r < CUBETA_ALTO)
    (hcol : col < CUBETA_ANCHO) : (cubeta_inicializar c0).matriz r col = 0 := by
  unfold cubeta_inicializar
  simp only
  rw [foldl_copia (fun _ _ => (0 : Int))]
  simp [hr, hcol]

theorem juego_tecla_marco2 (s : estado_t) (tecla_pulsada : Nat) :
    (juego_tecla s tecla_pulsada).temp_tiempo_paso = s.temp_tiempo_paso ∧
    (juego_tecla s tecla_pulsada).piezas_actual.tamano = s.piezas_actual.tamano := by
  by_cases h1 : tecla_pulsada = JOYSTICK_ARRIBA
  · subst h1; rw [juego_tecla_arriba]; refine ⟨rfl, ?_⟩; simp only; split_ifs <;> rfl
  by_cases h2 : tecla_pulsada = JOYSTICK_CENTRO
  · subst h2; rw [juego_tecla_centro]; refine ⟨rfl, ?_⟩; simp only; split_ifs <;> rfl
  by_cases h3 : tecla_pulsada = JOYSTICK_IZQUIERDA
  · subst h3; rw [juego_tecla_izquierda]; exact ⟨rfl, rfl⟩
  by_cases h4 : tecla_pulsada = JOYSTICK_DERECHA
  · subst h4; rw [juego_tecla_derecha]; exact ⟨rfl, rfl⟩
  by_cases h5 : tecla_pulsada = JOYSTICK_ABAJO
  · subst h5; rw [juego_tecla_abajo]; exact ⟨rfl, rfl⟩
  rw [juego_tecla_otra s tecla_pulsada h1 h2 h3 h4 h5]
  exact ⟨rfl, rfl⟩

/-- Level arithmetic of a lock that clears `n <= 4` rows. -/
theorem nivel_tras_fijar (filas n nivel : Nat) (hn : n ≤ 4) (h1 : 1 ≤ nivel)
    (h9 : nivel ≤ 9) (hrel : nivel < 9 → nivel = filas / 10 + 1) :
    (1 ≤ (if n > 0 ∧ nivel < 9 then
          uint8 (((if n > 0 then uint32 (filas + n) else filas : Nat) : Int) / 10 + 1)
        else nivel)) ∧
    (if n > 0 ∧ nivel < 9 then
          uint8 (((if n > 0 then uint32 (filas + n) else filas : Nat) : Int) / 10 + 1)
        else nivel) ≤ 9 ∧
    ((if n > 0 ∧ nivel < 9 then
          uint8 (((if n > 0 then uint32 (filas + n) else filas : Nat) : Int) / 10 + 1)
        else nivel) < 9 →
      (if n > 0 ∧ nivel < 9 then
          uint8 (((if n > 0 then uint32 (filas + n) else filas : Nat) : Int) / 10 + 1)
        else nivel) = (if n > 0 then uint32 (filas + n) else filas) / 10 + 1) ∧
    (n > 0 → nivel < 9 →
      (if n > 0 then uint32 (filas + n) else filas) = filas + n ∧
      (if n > 0 ∧ nivel < 9 then
          uint8 (((if n > 0 then uint32 (filas + n) else filas : Nat) : Int) / 10 + 1)
        else nivel) = (filas + n) / 10 + 1) := by
  by_cases hn0 : n > 0
  · by_cases hl : nivel < 9
    · have hf := hrel hl
      have hu : uint32 ((filas : Int) + (n : Int)) = filas + n := by
        unfold uint32
        omega
      simp only [hn0, hl, and_self, if_true]
      unfold uint8
      omega
    · have hc : ¬(n > 0 ∧ nivel < 9) := fun h => hl h.2
      rw [if_neg hc]
      exact ⟨h1, h9, fun h => absurd h hl, fun _ h => absurd h hl⟩
  · have hc : ¬(n > 0 ∧ nivel < 9) := fun h => hn0 h.1
    rw [if_neg hc, if_neg hn0]
    exact ⟨h1, h9, hrel, fun h => absurd h hn0⟩

/-- The invariant of the game loop behind C12 and C13: the board has no full
row, the pieces have size at most 4, the level lies in 1..9 and is the one
computed from the line count while it is below 9, and the saved period is 750. -/
theorem juego_invariante_nivel (s : estado_t) (h : Alcanzable s) :
    (∀ r, r < CUBETA_ALTO → ∃ col, col < CUBETA_ANCHO ∧ s.cubeta.matriz r col = 0) ∧
    s.piezas_actual.tamano ≤ 4 ∧ s.piezas_siguiente.tamano ≤ 4 ∧
    1 ≤ s.nivel ∧ s.nivel ≤ 9 ∧
    (s.nivel < 9 → s.nivel = s.filas_completadas / 10 + 1) ∧
    s.temp_tiempo_paso = 750 := by
  induction h with
  | inicio cubeta0 ms rnd1 rnd2 s h =>
    unfold juego_inicio at h
    cases h1 : piezas_inicializar (rnd1 % PIEZAS_NUM_PIEZAS) with
    | none => rw [h1] at h; exact Option.noConfusion h
    | some p1 =>
      cases h2 : piezas_inicializar (rnd2 % PIEZAS_NUM_PIEZAS) with
      | none => rw [h1, h2] at h; exact Option.noConfusion h
      | some p2 =>
        rw [h1, h2] at h
        injection h with h
        subst h
        have t1 : p1.tamano ≤ 4 := by
          have := inicializar_tamano _ _ h1
          omega
        have t2 : p2.tamano ≤ 4 := by
          have := inicializar_tamano _ _ h2
          omega
        refine ⟨?_, t1, t2, Nat.le_refl 1, (by decide : (1 : Nat) ≤ 9),
          fun _ => (by decide : (1 : Nat) = 0 / 10 + 1),
          (by decide : uint32 (750 - 50 * (((1 : Nat) : Int) - 1)) = 750)⟩
        intro r hr
        exact ⟨0, by decide, inicializar_cubeta_vacia cubeta0 r 0 hr (by decide)⟩
  | tic s _ ih => exact ih
  | iteracion s s' tecla rnd _ hstep ih =>
    obtain ⟨hcub, hact, hsig, hn1, hn9, hrel, htemp⟩ := ih
    unfold juego_iteracion at hstep
    by_cases htick : s.contador_ms ≥ s.tiempo_paso
    · rw [if_pos htick] at hstep
      by_cases hcol : cubeta_hay_interseccion s.cubeta s.piezas_actual s.x_piezas_actual
          (int16 (s.y_piezas_actual + 1)) = true
      · simp only [hcol, if_true] at hstep
        by_cases hover : cubeta_hay_desbordamiento s.cubeta s.piezas_actual
            s.y_piezas_actual = true
        · simp only [hover, if_true] at hstep
          exact resultado_t.noConfusion hstep
        · simp only [hover] at hstep
          obtain ⟨c', n, nueva, hrev, hn, hnueva, heq⟩ :=
            juego_fijar_eq { s with contador_ms := 0 } rnd
          rw [heq] at hstep
          injection hstep with hstep
          subst hstep
          simp only at hrev hn
          have t2 : nueva.tamano ≤ 4 := by
            have := inicializar_tamano _ _ hnueva
            omega
          have hn4 : n ≤ 4 := by
            rw [hn]
            exact fijar_llenas_le_cuatro _ _ _ _ hcub hact
          obtain ⟨a1, a2, a3, _⟩ :=
            nivel_tras_fijar s.filas_completadas n s.nivel hn4 hn1 hn9 hrel
          exact ⟨(revisar_filas_fila_con_cero _ _ _ hrev).2, hsig, t2, a1, a2, a3, htemp⟩
      · simp only [hcol] at hstep
        injection hstep with hstep
        subst hstep
        exact ⟨hcub, hact, hsig, hn1, hn9, hrel, htemp⟩
    · rw [if_neg htick] at hstep
      by_cases hk : tecla ≠ JOYSTICK_NADA
      · rw [if_pos hk] at hstep
        injection hstep with hstep
        subst hstep
        obtain ⟨b1, _, b3, _, b5, b6, _⟩ := juego_tecla_marco s tecla
        obtain ⟨d1, d2⟩ := juego_tecla_marco2 s tecla
        rw [b1, b3, b5, b6, d1, d2]
        exact ⟨hcub, hact, hsig, hn1, hn9, hrel, htemp⟩
      · rw [if_neg hk] at hstep
        injection hstep with hstep
        subst hstep
        exact ⟨hcub, hact, hsig, hn1, hn9, hrel, htemp⟩

/-- One loop pass from a state whose level is in 1..9 and which fixes at most
4 rows: what happens to the line count and the score. -/
theorem juego_iteracion_marcador (s s' : estado_t) (tecla_pulsada rnd : Nat)
    (hcub : ∀ r, r < CUBETA_ALTO → ∃ col, col < CUBETA_ANCHO ∧ s.cubeta.matriz r col = 0)
    (hact : s.piezas_actual.tamano ≤ 4)
    (hstep : juego_iteracion s tecla_pulsada rnd = resultado_t.continua s') :
    ∃ n : Nat, n ≤ 4 ∧
      s'.filas_completadas = (if n > 0 then uint32 (s.filas_completadas + n)
        else s.filas_completadas) ∧
      s'.puntos = (if n > 0 then uint32 (s.puntos + n * 10 * s.nivel) else s.puntos) := by
  unfold juego_iteracion at hstep
  by_cases htick : s.contador_ms ≥ s.tiempo_paso
  · rw [if_pos htick] at hstep
    by_cases hcol : cubeta_hay_interseccion s.cubeta s.piezas_actual s.x_piezas_actual
        (int16 (s.y_piezas_actual + 1)) = true
    · simp only [hcol, if_true] at hstep
      by_cases hover : cubeta_hay_desbordamiento s.cubeta s.piezas_actual
          s.y_piezas_actual = true
      · simp only [hover, if_true] at hstep
        exact resultado_t.noConfusion hstep
      · simp only [hover] at hstep
        obtain ⟨c', n, nueva, hrev, hn, hnueva, heq⟩ :=
          juego_fijar_eq { s with contador_ms := 0 } rnd
        rw [heq] at hstep
        injection hstep with hstep
        subst hstep
        simp only at hn
        have hn4 : n ≤ 4 := by
          rw [hn]
          exact fijar_llenas_le_cuatro _ _ _ _ hcub hact
        exact ⟨n, hn4, rfl, rfl⟩
    · simp only [hcol] at hstep
      injection hstep with hstep
      subst hstep
      exact ⟨0, by decide, rfl, rfl⟩
  · rw [if_neg htick] at hstep
    by_cases hk : tecla_pulsada ≠ JOYSTICK_NADA
    · rw [if_pos hk] at hstep
      injection hstep with hstep
      subst hstep
      obtain ⟨_, _, _, b4, b5, _, _⟩ := juego_tecla_marco s tecla_pulsada
      exact ⟨0, by decide, b5, b4⟩
    · rw [if_neg hk] at hstep
      injection hstep with hstep
      subst hstep
      exact ⟨0, by decide, rfl, rfl⟩

/-- C13. Level starts at 1 and in every reachable state of the game loop
1 <= level <= 9; from one loop iteration to the next, score and lines never
decrease as long as the 32-bit counters do not wrap around (a pass adds at
most 4 lines and at most 360 points). -/
theorem juego_nivel_y_marcador (s : estado_t) (h : Alcanzable s) :
    1 ≤ s.nivel ∧ s.nivel ≤ 9 ∧
    (∀ cubeta0 ms rnd1 rnd2 s0, juego_inicio cubeta0 ms rnd1 rnd2 = some s0 →
      s0.nivel = 1 ∧ s0.filas_completadas = 0 ∧ s0.puntos = 0) ∧
    (∀ tecla_pulsada rnd s', juego_iteracion s tecla_pulsada rnd = resultado_t.continua s' →
      (s.filas_completadas + 4 < 4294967296 → s.filas_completadas ≤ s'.filas_completadas) ∧
      (s.puntos + 360 < 4294967296 → s.puntos ≤ s'.puntos) ∧
      ∃ n : Nat, n ≤ 4 ∧
        s'.filas_completadas % 4294967296 = (s.filas_completadas + n) % 4294967296 ∧
        s'.puntos % 4294967296 = (s.puntos + n * 10 * s.nivel) % 4294967296) ∧
    (TIMER0_IRQHandler s).nivel = s.nivel ∧
    (TIMER0_IRQHandler s).filas_completadas = s.filas_completadas ∧
    (TIMER0_IRQHandler s).puntos = s.puntos := by
  obtain ⟨hcub, hact, _, hn1, hn9, _, _⟩ := juego_invariante_nivel s h
  refine ⟨hn1, hn9, ?_, ?_, rfl, rfl, rfl⟩
  · intro cubeta0 ms rnd1 rnd2 s0 h0
    unfold juego_inicio at h0
    cases h1 : piezas_inicializar (rnd1 % PIEZAS_NUM_PIEZAS) with
    | none => rw [h1] at h0; exact Option.noConfusion h0
    | some p1 =>
      cases h2 : piezas_inicializar (rnd2 % PIEZAS_NUM_PIEZAS) with
      | none => rw [h1, h2] at h0; exact Option.noConfusion h0
      | some p2 =>
        rw [h1, h2] at h0
        injection h0 with h0
        subst h0
        exact ⟨rfl, rfl, rfl⟩
  · intro tecla rnd s' hstep
    obtain ⟨n, hn4, hf, hp⟩ := juego_iteracion_marcador s s' tecla rnd hcub hact hstep
    have hprod : n * 10 * s.nivel ≤ 360 := by
      calc n * 10 * s.nivel ≤ 4 * 10 * 9 := by
            apply Nat.mul_le_mul (Nat.mul_le_mul hn4 (le_refl 10)) hn9
        _ = 360 := by decide
    have hfm : s'.filas_completadas % 4294967296 =
        (s.filas_completadas + n) % 4294967296 := by
      rw [hf]
      by_cases hn0 : n > 0
      · rw [if_pos hn0]
        exact_mod_cast uint32_mod (s.filas_completadas + n)
      · have : n = 0 := by omega
        rw [if_neg hn0, this, Nat.add_zero]
    have hpm : s'.puntos % 4294967296 = (s.puntos + n * 10 * s.nivel) % 4294967296 := by
      rw [hp]
      by_cases hn0 : n > 0
      · rw [if_pos hn0]
        exact_mod_cast uint32_mod (s.puntos + n * 10 * s.nivel)
      · have : n = 0 := by omega
        rw [if_neg hn0, this]
        simp
    refine ⟨?_, ?_, n, hn4, hfm, hpm⟩
    · intro hlt
      have h1 : (s.filas_completadas + n) % 4294967296 = s.filas_completadas + n :=
        Nat.mod_eq_of_lt (by omega)
      by_cases hn0 : n > 0
      · have h2 := uint32_nat (s.filas_completadas + n) (by omega)
        push_cast at h2
        rw [hf, if_pos hn0, h2]
        omega
      · rw [hf, if_neg hn0]
    · intro hlt
      by_cases hn0 : n > 0
      · have h2 := uint32_nat (s.puntos + n * 10 * s.nivel) (by omega)
        push_cast at h2
        rw [hp, if_pos hn0, h2]
        omega
      · rw [hp, if_neg hn0]

theorem juego_nivel_y_marcador_witness :
    1 ≤ estado_inicial.nivel ∧ estado_inicial.nivel ≤ 9 ∧
      estado_inicial.puntos ≤
        ({ estado_inicial with contador_ms := 0, y_piezas_actual := -3 } : estado_t).puntos :=
  ⟨(juego_nivel_y_marcador estado_inicial
      (Alcanzable.inicio cubeta_vacia 750 0 6 estado_inicial inicio_ejemplo)).1,
    (juego_nivel_y_marcador estado_inicial
      (Alcanzable.inicio cubeta_vacia 750 0 6 estado_inicial inicio_ejemplo)).2.1,
    ((juego_nivel_y_marcador estado_inicial
      (Alcanzable.inicio cubeta_vacia 750 0 6 estado_inicial inicio_ejemplo)).2.2.2.1
        JOYSTICK_NADA 0 _ iteracion_ejemplo).2.1 (by decide)⟩

theorem uint32_periodo (nv : Nat) (h : nv ≤ 16) :
    ((uint32 (750 - 50 * ((nv : Int) - 1)) : Nat) : Int) = 750 - 50 * ((nv : Int) - 1) := by
  unfold uint32
  omega

/-- C12. At a lock that clears n > 0 rows while level < 9, the new level is
(lines + n) / 10 + 1 (integer division on the updated line count) and the new
gravity period is 750 - 50*(new level - 1); at a lock with n = 0, or with
level 9, level and gravity period are left unchanged.  The first single-line
clear at level 1 leaves level 1 and period 750, and the clear that brings the
line count to 10 gives level 2 and period 700.  (For states outside the game's
runs the same holds in the code's `uint32_t` / `uint8_t` arithmetic.) -/
theorem juego_nivel_tras_fijar (s : estado_t) (tecla_pulsada rnd : Nat)
    (htick : s.contador_ms ≥ s.tiempo_paso)
    (hcol : cubeta_hay_interseccion s.cubeta s.piezas_actual s.x_piezas_actual
      (int16 (s.y_piezas_actual + 1)) = true)
    (hover : cubeta_hay_desbordamiento s.cubeta s.piezas_actual s.y_piezas_actual = false) :
    ∃ (c' : cubeta_t) (n : Nat) (s' : estado_t),
      cubeta_revisar_filas (cubeta_fijar_pieza s.cubeta s.piezas_actual s.x_piezas_actual
        s.y_piezas_actual) = some (c', n) ∧
      juego_iteracion s tecla_pulsada rnd = resultado_t.continua s' ∧
      (n > 0 → s.nivel < 9 →
        s'.filas_completadas = uint32 (s.filas_completadas + n) ∧
        s'.nivel = uint8 ((s'.filas_completadas : Int) / 10 + 1) ∧
        s'.tiempo_paso = uint32 (750 - 50 * ((s'.nivel : Int) - 1)) ∧
        (s.filas_completadas + n < 2550 → s'.nivel = (s.filas_completadas + n) / 10 + 1) ∧
        (s'.nivel ≤ 16 → (s'.tiempo_paso : Int) = 750 - 50 * ((s'.nivel : Int) - 1))) ∧
      (n = 0 ∨ s.nivel ≥ 9 → s'.nivel = s.nivel ∧ s'.tiempo_paso = s.tiempo_paso) ∧
      (Alcanzable s → n ≤ 4 ∧ (n > 0 → s.nivel < 9 →
        s'.filas_completadas = s.filas_completadas + n ∧
        s'.nivel = (s.filas_completadas + n) / 10 + 1 ∧
        (s'.tiempo_paso : Int) = 750 - 50 * ((s'.nivel : Int) - 1))) ∧
      (n = 1 → s.nivel = 1 → s.filas_completadas = 0 →
        s'.nivel = 1 ∧ s'.tiempo_paso = 750) ∧
      (n > 0 → s.nivel < 9 → s.filas_completadas + n = 10 →
        s'.nivel = 2 ∧ s'.tiempo_paso = 700) := by
  obtain ⟨c', n, nueva, h1, hn, _, heq⟩ := juego_fijar_eq { s with contador_ms := 0 } rnd
  have hstep : juego_iteracion s tecla_pulsada rnd =
      juego_fijar { s with contador_ms := 0 } rnd := by
    unfold juego_iteracion
    rw [if_pos htick]
    simp only [hcol, hover, if_true, Bool.false_eq_true, if_false]
  rw [heq] at hstep
  simp only at h1 hn hstep
  have hpos : ∀ (hn0 : n > 0) (hl : s.nivel < 9),
      (if n > 0 then uint32 (s.filas_completadas + n) else s.filas_completadas) =
        uint32 (s.filas_completadas + n) ∧
      (if n > 0 ∧ s.nivel < 9 then
          uint8 (((if n > 0 then uint32 (s.filas_completadas + n)
            else s.filas_completadas : Nat) : Int) / 10 + 1)
        else s.nivel) =
        uint8 ((uint32 (s.filas_completadas + n) : Int) / 10 + 1) := by
    intro hn0 hl
    rw [if_pos hn0, if_pos ⟨hn0, hl⟩]
    exact ⟨rfl, rfl⟩
  refine ⟨c', n, _, h1, hstep, ?_, ?_, ?_, ?_, ?_⟩
  · intro hn0 hl
    simp only [if_pos hn0, if_pos (And.intro hn0 hl)]
    refine ⟨trivial, trivial, trivial, ?_, ?_⟩
    · intro hlt
      unfold uint8 uint32
      omega
    · intro hle
      exact uint32_periodo _ hle
  · intro hcase
    have hc : ¬(n > 0 ∧ s.nivel < 9) := by omega
    simp only [if_neg hc]
    exact ⟨trivial, trivial⟩
  · intro hreach
    obtain ⟨hcub, hact, _, hn1, hn9, hrel, _⟩ := juego_invariante_nivel s hreach
    have hn4 : n ≤ 4 := by
      rw [hn]
      exact fijar_llenas_le_cuatro _ _ _ _ hcub hact
    refine ⟨hn4, ?_⟩
    intro hn0 hl
    have hf := hrel hl
    simp only [if_pos hn0, if_pos (And.intro hn0 hl)]
    have hu : uint32 ((s.filas_completadas : Int) + (n : Int)) = s.filas_completadas + n := by
      unfold uint32
      omega
    have h8 : uint8 (((uint32 ((s.filas_completadas : Int) + (n : Int)) : Nat) : Int) / 10 + 1) =
        (s.filas_completadas + n) / 10 + 1 := by
      rw [hu]
      unfold uint8
      omega
    refine ⟨hu, h8, ?_⟩
    rw [h8]
    apply uint32_periodo
    omega
  · intro hn1 hl hf
    have hc : (1 : Nat) > 0 ∧ (1 : Nat) < 9 := by decide
    simp only [hn1, hl, hf, if_pos hc]
    decide
  · intro hn0 hl hf
    simp only [if_pos hn0, if_pos (And.intro hn0 hl)]
    have hf2 : (s.filas_completadas : Int) + (n : Int) = 10 := by exact_mod_cast hf
    rw [hf2]
    decide

theorem juego_nivel_tras_fijar_witness :
    ∃ s' : estado_t,
      juego_iteracion estado_diez JOYSTICK_NADA 6 = resultado_t.continua s' ∧
      s'.nivel = 2 ∧ s'.tiempo_paso = 700 := by
  obtain ⟨c', n, s', hrev, hstep, _, _, _, _, hdiez⟩ :=
    juego_nivel_tras_fijar estado_diez JOYSTICK_NADA 6 (by decide) (by decide) (by decide)
  obtain ⟨c4, h4, _⟩ := revisar_escenario_cuatro
  have hrev2 : cubeta_revisar_filas (cubeta_fijar_pieza cubeta_cuatro piezas_palo 8 13) =
      some (c', n) := hrev
  rw [h4] at hrev2
  injection hrev2 with hrev2
  injection hrev2 with _ hn
  subst hn
  exact ⟨s', hstep, hdiez (by decide) (by decide) (by decide)⟩

theorem pasos_gravedad_periodo (n : Nat) (s s' : estado_t) (h : PasosGravedad n s s') :
    s'.tiempo_paso = s.tiempo_paso ∧ s'.temp_tiempo_paso = s.temp_tiempo_paso := by
  induction h with
  | cero s => exact ⟨rfl, rfl⟩
  | paso n s s1 s2 tics tecla rnd _ htick hno hstep ih =>
    obtain ⟨ms, hms⟩ := tics_marco tics s1
    rw [hms] at htick hstep
    rw [juego_iteracion_gravedad _ tecla rnd htick hno] at hstep
    injection hstep with hstep
    subst hstep
    exact ih

theorem juego_inicio_periodo (cubeta0 : cubeta_t) (ms rnd1 rnd2 : Nat) (s0 : estado_t)
    (h0 : juego_inicio cubeta0 ms rnd1 rnd2 = some s0) :
    s0.nivel = 1 ∧ s0.tiempo_paso = 750 ∧ s0.temp_tiempo_paso = 750 := by
  unfold juego_inicio at h0
  cases h1 : piezas_inicializar (rnd1 % PIEZAS_NUM_PIEZAS) with
  | none => rw [h1] at h0; exact Option.noConfusion h0
  | some p1 =>
    cases h2 : piezas_inicializar (rnd2 % PIEZAS_NUM_PIEZAS) with
    | none => rw [h1, h2] at h0; exact Option.noConfusion h0
    | some p2 =>
      rw [h1, h2] at h0
      injection h0 with h0
      subst h0
      exact ⟨rfl, (by decide : uint32 (750 - 50 * (((1 : Nat) : Int) - 1)) = 750),
        (by decide : uint32 (750 - 50 * (((1 : Nat) : Int) - 1)) = 750)⟩

/-- C15. Soft drop and cancel: for every state in which the gravity tick is
not due, processing a Down press leaves the gravity period at 50 and the saved
period holding the value a later press restores (750 at game start and in
every state reachable from it, which is the level-1 period);
whatever gravity steps follow, a later press other than Down (for example
Left) processed while the tick is not due sets the gravity period back to the
saved period and still attempts that press's own action. -/
theorem juego_caida_rapida (s : estado_t) (rnd : Nat) (h : s.contador_ms < s.tiempo_paso) :
    juego_iteracion s JOYSTICK_ABAJO rnd = resultado_t.continua { s with tiempo_paso := 50 } ∧
    (∀ s1, juego_iteracion s JOYSTICK_ABAJO rnd = resultado_t.continua s1 →
      s1.tiempo_paso = 50 ∧ s1.temp_tiempo_paso = s.temp_tiempo_paso) ∧
    (∀ cubeta0 ms rnd1 rnd2, juego_inicio cubeta0 ms rnd1 rnd2 = some s →
      s.nivel = 1 ∧ s.tiempo_paso = 750 ∧
      ∀ s1, juego_iteracion s JOYSTICK_ABAJO rnd = resultado_t.continua s1 →
        s1.tiempo_paso = 50 ∧ s1.temp_tiempo_paso = 750) ∧
    (Alcanzable s → ∀ s1, juego_iteracion s JOYSTICK_ABAJO rnd = resultado_t.continua s1 →
      s1.tiempo_paso = 50 ∧ s1.temp_tiempo_paso = 750 ∧
      (s.nivel = 1 → s1.temp_tiempo_paso = 750 - 50 * (s.nivel - 1))) ∧
    (∀ (s1 s2 : estado_t) (N tecla rnd2 : Nat),
      juego_iteracion s JOYSTICK_ABAJO rnd = resultado_t.continua s1 →
      PasosGravedad N s1 s2 → s2.contador_ms < s2.tiempo_paso →
      tecla ≠ JOYSTICK_NADA → tecla ≠ JOYSTICK_ABAJO →
      s2.tiempo_paso = 50 ∧ s2.temp_tiempo_paso = s.temp_tiempo_paso ∧
      juego_iteracion s2 tecla rnd2 = resultado_t.continua (juego_tecla s2 tecla) ∧
      (juego_tecla s2 tecla).tiempo_paso = s.temp_tiempo_paso ∧
      (juego_tecla s2 tecla).temp_tiempo_paso = s.temp_tiempo_paso ∧
      (tecla = JOYSTICK_IZQUIERDA →
        (juego_tecla s2 tecla).x_piezas_actual =
          if cubeta_hay_interseccion s2.cubeta s2.piezas_actual (int16 (s2.x_piezas_actual - 1))
              s2.y_piezas_actual = true then s2.x_piezas_actual
          else int16 (s2.x_piezas_actual - 1)) ∧
      (tecla = JOYSTICK_DERECHA →
        (juego_tecla s2 tecla).x_piezas_actual =
          if cubeta_hay_interseccion s2.cubeta s2.piezas_actual (int16 (s2.x_piezas_actual + 1))
              s2.y_piezas_actual = true then s2.x_piezas_actual
          else int16 (s2.x_piezas_actual + 1)) ∧
      (tecla = JOYSTICK_ARRIBA →
        (juego_tecla s2 tecla).piezas_actual =
          if cubeta_hay_interseccion s2.cubeta (piezas_rotar s2.piezas_actual DERECHA)
              s2.x_piezas_actual s2.y_piezas_actual = true then s2.piezas_actual
          else piezas_rotar s2.piezas_actual DERECHA) ∧
      (tecla = JOYSTICK_CENTRO →
        (juego_tecla s2 tecla).piezas_actual =
          if cubeta_hay_interseccion s2.cubeta (piezas_rotar s2.piezas_actual IZQUIERDA)
              s2.x_piezas_actual s2.y_piezas_actual = true then s2.piezas_actual
          else piezas_rotar s2.piezas_actual IZQUIERDA)) := by
  have hab : juego_iteracion s JOYSTICK_ABAJO rnd =
      resultado_t.continua { s with tiempo_paso := 50 } := by
    rw [juego_iteracion_sin_tic s JOYSTICK_ABAJO rnd h, if_pos (by decide), juego_tecla_abajo]
  have hs1 : ∀ s1, juego_iteracion s JOYSTICK_ABAJO rnd = resultado_t.continua s1 →
      s1.tiempo_paso = 50 ∧ s1.temp_tiempo_paso = s.temp_tiempo_paso := by
    intro s1 h1
    rw [hab] at h1
    injection h1 with h1
    subst h1
    exact ⟨rfl, rfl⟩
  refine ⟨hab, hs1, ?_, ?_, ?_⟩
  · intro cubeta0 ms rnd1 rnd2 h0
    obtain ⟨a, b, c⟩ := juego_inicio_periodo cubeta0 ms rnd1 rnd2 s h0
    refine ⟨a, b, ?_⟩
    intro s1 h1
    obtain ⟨d, e⟩ := hs1 s1 h1
    exact ⟨d, e.trans c⟩
  · intro hs s1 h1
    obtain ⟨d, e⟩ := hs1 s1 h1
    have htemp := (juego_invariante_nivel s hs).2.2.2.2.2.2
    refine ⟨d, e.trans htemp, ?_⟩
    intro hn
    rw [e, htemp, hn]
  · intro s1 s2 N tecla rnd2 h1 hN h2 ht1 ht2
    obtain ⟨d, e⟩ := hs1 s1 h1
    obtain ⟨f, g⟩ := pasos_gravedad_periodo N s1 s2 hN
    have htemp : s2.temp_tiempo_paso = s.temp_tiempo_paso := g.trans e
    have hrest : (juego_tecla s2 tecla).tiempo_paso = s2.temp_tiempo_paso := by
      by_cases k1 : tecla = JOYSTICK_ARRIBA
      · subst k1; rw [juego_tecla_arriba]
      by_cases k2 : tecla = JOYSTICK_CENTRO
      · subst k2; rw [juego_tecla_centro]
      by_cases k3 : tecla = JOYSTICK_IZQUIERDA
      · subst k3; rw [juego_tecla_izquierda]
      by_cases k4 : tecla = JOYSTICK_DERECHA
      · subst k4; rw [juego_tecla_derecha]
      rw [juego_tecla_otra s2 tecla k1 k2 k3 k4 ht2]
    refine ⟨f.trans d, htemp, ?_, hrest.trans htemp,
      (juego_tecla_marco2 s2 tecla).1.trans htemp, ?_, ?_, ?_, ?_⟩
    · rw [juego_iteracion_sin_tic s2 tecla rnd2 h2, if_pos ht1]
    · intro k; subst k; rw [juego_tecla_izquierda]
    · intro k; subst k; rw [juego_tecla_derecha]
    · intro k; subst k; rw [juego_tecla_arriba]
    · intro k; subst k; rw [juego_tecla_centro]

set_option maxRecDepth 100000 in
theorem juego_caida_rapida_witness :
    juego_iteracion estado_arranque JOYSTICK_ABAJO 0 =
        resultado_t.continua estado_caida_rapida ∧
      juego_iteracion estado_caida_rapida JOYSTICK_IZQUIERDA 0 =
        resultado_t.continua (juego_tecla estado_caida_rapida JOYSTICK_IZQUIERDA) ∧
      (juego_tecla estado_caida_rapida JOYSTICK_IZQUIERDA).tiempo_paso = 750 ∧
      (juego_tecla estado_caida_rapida JOYSTICK_IZQUIERDA).x_piezas_actual = 4 := by
  have h := juego_caida_rapida estado_arranque 0 (by decide)
  obtain ⟨_, _, h3, h4, _, h6, _⟩ := h.2.2.2.2 estado_caida_rapida estado_caida_rapida 0
    JOYSTICK_IZQUIERDA 0 h.1 (PasosGravedad.cero _) (by decide) (by decide) (by decide)
  refine ⟨h.1, h3, h4, ?_⟩
  rw [h6 rfl]
  decide

theorem arranque_ejemplo : juego_inicio cubeta_vacia 0 0 6 = some estado_arranque := rfl

set_option maxRecDepth 100000 in
theorem caida_rapida_alcanzable : Alcanzable estado_caida_rapida :=
  Alcanzable.iteracion estado_arranque estado_caida_rapida JOYSTICK_ABAJO 0
    (Alcanzable.inicio cubeta_vacia 0 0 6 estado_arranque arranque_ejemplo)
    (by rw [juego_iteracion_sin_tic estado_arranque JOYSTICK_ABAJO 0 (by decide),
          if_pos (by decide), juego_tecla_abajo]; rfl)

theorem juego_iteracion_inactivo (s : estado_t) (rnd : Nat)
    (h : s.contador_ms < s.tiempo_paso) :
    juego_iteracion s JOYSTICK_INACTIVO rnd =
      resultado_t.continua { s with tiempo_paso := s.temp_tiempo_paso } := by
  rw [juego_iteracion_sin_tic s JOYSTICK_INACTIVO rnd h, if_pos (by decide),
    juego_tecla_otra s JOYSTICK_INACTIVO (by decide) (by decide) (by decide) (by decide)
      (by decide)]

theorem juego_iteracion_nada (s : estado_t) (rnd : Nat) (h : s.contador_ms < s.tiempo_paso) :
    juego_iteracion s JOYSTICK_NADA rnd = resultado_t.continua s := by
  rw [juego_iteracion_sin_tic s JOYSTICK_NADA rnd h, if_neg (by decide)]

/-- C16, counterexample.  After a Down press at game start (a reachable state,
soft drop in effect, tick not due), the pass that polls the Idle event
published by releasing the joystick sets the gravity period from 50 back to
750, while a pass that polls nothing leaves it at 50. -/
theorem juego_inactivo_contraejemplo :
    Alcanzable estado_caida_rapida ∧
    estado_caida_rapida.contador_ms < estado_caida_rapida.tiempo_paso ∧
    estado_caida_rapida.tiempo_paso = 50 ∧
    juego_iteracion estado_caida_rapida JOYSTICK_INACTIVO 0 =
      resultado_t.continua { estado_caida_rapida with tiempo_paso := 750 } ∧
    juego_iteracion estado_caida_rapida JOYSTICK_NADA 0 =
      resultado_t.continua estado_caida_rapida ∧
    juego_iteracion estado_caida_rapida JOYSTICK_INACTIVO 0 ≠
      juego_iteracion estado_caida_rapida JOYSTICK_NADA 0 ∧
    (leer_pulsacion
      (TIMER1_IRQHandler
        (leer_pulsacion (TIMER1_IRQHandler pulsador_inicial JOYSTICK_ABAJO)).2
        JOYSTICK_NADA)).1 = JOYSTICK_INACTIVO := by
  have h1 := juego_iteracion_inactivo estado_caida_rapida 0 (by decide)
  have h2 := juego_iteracion_nada estado_caida_rapida 0 (by decide)
  refine ⟨caida_rapida_alcanzable, by decide, rfl, h1, h2, ?_, by decide⟩
  rw [h1, h2]
  intro heq
  injection heq with heq
  have h3 := congrArg estado_t.tiempo_paso heq
  exact absurd h3 (by decide)

/-- C16, amended.  For every game state in which the gravity tick is not due,
a loop pass whose polled event is Idle (`JOYSTICK_INACTIVO`) moves nothing: it
leaves the board, the pieces, the position, score, lines, level, the saved
period and `contador_ms` unchanged and sets the gravity period to the saved
period; it therefore equals a pass that polls nothing exactly when the gravity
period already equals the saved period (no soft drop in effect). -/
theorem juego_inactivo (s : estado_t) (rnd : Nat) (h : s.contador_ms < s.tiempo_paso) :
    juego_iteracion s JOYSTICK_INACTIVO rnd =
      resultado_t.continua { s with tiempo_paso := s.temp_tiempo_paso } ∧
    juego_iteracion s JOYSTICK_NADA rnd = resultado_t.continua s ∧
    (juego_iteracion s JOYSTICK_INACTIVO rnd = juego_iteracion s JOYSTICK_NADA rnd ↔
      s.tiempo_paso = s.temp_tiempo_paso) := by
  have h1 := juego_iteracion_inactivo s rnd h
  have h2 := juego_iteracion_nada s rnd h
  refine ⟨h1, h2, ?_⟩
  rw [h1, h2]
  constructor
  · intro heq
    injection heq with heq
    exact (congrArg estado_t.tiempo_paso heq).symm
  · intro heq
    cases s with
    | mk a b c d e f g p t tt ms =>
      simp only at heq
      subst heq
      rfl

theorem juego_inactivo_witness :
    juego_iteracion estado_arranque JOYSTICK_INACTIVO 0 =
      juego_iteracion estado_arranque JOYSTICK_NADA 0 :=
  (juego_inactivo estado_arranque 0 (by decide)).2.2.mpr rfl

/-- In every reachable state in which the tick is not due, a press of Up,
Center, Left or Right (and the Idle event) leaves the gravity period at 750,
whatever the level is. -/
theorem juego_tecla_periodo_fijo (s : estado_t) (hs : Alcanzable s) (tecla_pulsada rnd : Nat)
    (h : s.contador_ms < s.tiempo_paso) (h0 : tecla_pulsada ≠ JOYSTICK_NADA)
    (h5 : tecla_pulsada ≠ JOYSTICK_ABAJO) :
    ∃ s', juego_iteracion s tecla_pulsada rnd = resultado_t.continua s' ∧
      s'.nivel = s.nivel ∧ s'.tiempo_paso = 750 := by
  have htemp := (juego_invariante_nivel s hs).2.2.2.2.2.2
  refine ⟨juego_tecla s tecla_pulsada, ?_, (juego_tecla_marco s tecla_pulsada).2.2.2.2.2.1, ?_⟩
  · rw [juego_iteracion_sin_tic s tecla_pulsada rnd h, if_pos h0]
  · rw [← htemp]
    by_cases k1 : tecla_pulsada = JOYSTICK_ARRIBA
    · subst k1; rw [juego_tecla_arriba]
    by_cases k2 : tecla_pulsada = JOYSTICK_CENTRO
    · subst k2; rw [juego_tecla_centro]
    by_cases k3 : tecla_pulsada = JOYSTICK_IZQUIERDA
    · subst k3; rw [juego_tecla_izquierda]
    by_cases k4 : tecla_pulsada = JOYSTICK_DERECHA
    · subst k4; rw [juego_tecla_derecha]
    rw [juego_tecla_otra s tecla_pulsada k1 k2 k3 k4 h5]

/-- Level, periods and tick counter after the fixing branch. -/
theorem juego_iteracion_fijar_campos (s : estado_t) (tecla_pulsada rnd : Nat)
    (htick : s.contador_ms ≥ s.tiempo_paso)
    (hcol : cubeta_hay_interseccion s.cubeta s.piezas_actual s.x_piezas_actual
      (int16 (s.y_piezas_actual + 1)) = true)
    (hover : cubeta_hay_desbordamiento s.cubeta s.piezas_actual s.y_piezas_actual = false) :
    ∃ (c' : cubeta_t) (n : Nat) (s' : estado_t),
      cubeta_revisar_filas (cubeta_fijar_pieza s.cubeta s.piezas_actual s.x_piezas_actual
        s.y_piezas_actual) = some (c', n) ∧
      juego_iteracion s tecla_pulsada rnd = resultado_t.continua s' ∧
      s'.nivel =
        (if n > 0 ∧ s.nivel < 9 then
          uint8 (((if n > 0 then uint32 (s.filas_completadas + n)
            else s.filas_completadas : Nat) : Int) / 10 + 1)
        else s.nivel) ∧
      s'.tiempo_paso =
        (if n > 0 ∧ s.nivel < 9 then
          uint32 (750 - 50 * (((uint8 (((if n > 0 then uint32 (s.filas_completadas + n)
            else s.filas_completadas : Nat) : Int) / 10 + 1) : Nat) : Int) - 1))
        else s.tiempo_paso) ∧
      s'.temp_tiempo_paso = s.temp_tiempo_paso ∧ s'.contador_ms = 0 := by
  obtain ⟨c', n, nueva, h1, _, _, heq⟩ := juego_fijar_eq { s with contador_ms := 0 } rnd
  have hstep : juego_iteracion s tecla_pulsada rnd =
      juego_fijar { s with contador_ms := 0 } rnd := by
    unfold juego_iteracion
    rw [if_pos htick]
    simp only [hcol, hover, if_true, Bool.false_eq_true, if_false]
  rw [heq] at hstep
  exact ⟨c', n, _, h1, hstep, rfl, rfl, rfl, rfl⟩

set_option maxRecDepth 100000 in
/-- C14, evaluation of the code at the failing input.  The lock of
`estado_diez` brings the line count to 10: level 2 and gravity period
700 = 750 - 50*(2 - 1), with the saved period still 750.  The Left press
polled in the next pass (tick not due) sets the gravity period to 750: the
equation gravity period = 750 - 50*(level - 1) no longer holds.  The same
happens from `estado_nivel_dos`. -/
theorem juego_periodo_perdido :
    (∃ s1 s2 : estado_t,
      juego_iteracion estado_diez JOYSTICK_NADA 6 = resultado_t.continua s1 ∧
      s1.nivel = 2 ∧ s1.tiempo_paso = 700 ∧ s1.temp_tiempo_paso = 750 ∧ s1.contador_ms = 0 ∧
      juego_iteracion s1 JOYSTICK_IZQUIERDA 0 = resultado_t.continua s2 ∧
      s2.nivel = 2 ∧ s2.tiempo_paso = 750 ∧ s2.tiempo_paso ≠ 750 - 50 * (s2.nivel - 1)) ∧
    (∃ s2 : estado_t,
      estado_nivel_dos.tiempo_paso = 750 - 50 * (estado_nivel_dos.nivel - 1) ∧
      estado_nivel_dos.contador_ms < estado_nivel_dos.tiempo_paso ∧
      juego_iteracion estado_nivel_dos JOYSTICK_IZQUIERDA 0 = resultado_t.continua s2 ∧
      s2.nivel = 2 ∧ s2.tiempo_paso = 750 ∧ s2.tiempo_paso ≠ 750 - 50 * (s2.nivel - 1)) := by
  have hizq : ∀ s1 : estado_t, s1.contador_ms < s1.tiempo_paso →
      juego_iteracion s1 JOYSTICK_IZQUIERDA 0 =
          resultado_t.continua (juego_tecla s1 JOYSTICK_IZQUIERDA) ∧
        (juego_tecla s1 JOYSTICK_IZQUIERDA).nivel = s1.nivel ∧
        (juego_tecla s1 JOYSTICK_IZQUIERDA).tiempo_paso = s1.temp_tiempo_paso := by
    intro s1 h1
    refine ⟨?_, (juego_tecla_marco s1 JOYSTICK_IZQUIERDA).2.2.2.2.2.1, ?_⟩
    · rw [juego_iteracion_sin_tic s1 JOYSTICK_IZQUIERDA 0 h1, if_pos (by decide)]
    · rw [juego_tecla_izquierda]
  constructor
  · obtain ⟨c', n, s1, hrev, hstep, hniv, htp, htemp, hms⟩ :=
      juego_iteracion_fijar_campos estado_diez JOYSTICK_NADA 6 (by decide) (by decide)
        (by decide)
    obtain ⟨c4, h4, _⟩ := revisar_escenario_cuatro
    have hrev2 : cubeta_revisar_filas (cubeta_fijar_pieza cubeta_cuatro piezas_palo 8 13) =
        some (c', n) := hrev
    rw [h4] at hrev2
    injection hrev2 with hrev2
    injection hrev2 with _ hn
    subst hn
    have hniv2 : s1.nivel = 2 := hniv.trans (by decide)
    have htp2 : s1.tiempo_paso = 700 := htp.trans (by decide)
    have htemp2 : s1.temp_tiempo_paso = 750 := htemp.trans (by decide)
    obtain ⟨k1, k2, k3⟩ := hizq s1 (by rw [hms, htp2]; decide)
    refine ⟨s1, _, hstep, hniv2, htp2, htemp2, hms, k1, k2.trans hniv2, k3.trans htemp2, ?_⟩
    rw [k3, htemp2, k2, hniv2]
    decide
  · obtain ⟨k1, k2, k3⟩ := hizq estado_nivel_dos (by decide)
    refine ⟨_, by decide, by decide, k1, k2, k3, ?_⟩
    rw [k3, k2]
    decide

/-- The four ways a loop pass comes back to the top of the loop: a gravity
step, a lock, the key branch, or nothing to do. -/
theorem juego_iteracion_casos (s s' : estado_t) (tecla_pulsada rnd : Nat)
    (hstep : juego_iteracion s tecla_pulsada rnd = resultado_t.continua s') :
    (s.contador_ms ≥ s.tiempo_paso ∧
      cubeta_hay_interseccion s.cubeta s.piezas_actual s.x_piezas_actual
        (int16 (s.y_piezas_actual + 1)) = false ∧
      s' = { s with contador_ms := 0, y_piezas_actual := int16 (s.y_piezas_actual + 1) }) ∨
    (s.contador_ms ≥ s.tiempo_paso ∧
      cubeta_hay_interseccion s.cubeta s.piezas_actual s.x_piezas_actual
        (int16 (s.y_piezas_actual + 1)) = true ∧
      cubeta_hay_desbordamiento s.cubeta s.piezas_actual s.y_piezas_actual = false ∧
      ∃ (cubeta' : cubeta_t) (n : Nat) (nueva : piezas_t),
        cubeta_revisar_filas (cubeta_fijar_pieza s.cubeta s.piezas_actual s.x_piezas_actual
          s.y_piezas_actual) = some (cubeta', n) ∧
        n = (filas (cubeta_fijar_pieza s.cubeta s.piezas_actual s.x_piezas_actual
          s.y_piezas_actual)).countP fila_llena ∧
        piezas_inicializar (rnd % PIEZAS_NUM_PIEZAS) = some nueva ∧
        s' =
          { s with
            contador_ms := 0
            cubeta := cubeta'
            filas_completadas :=
              if n > 0 then uint32 (s.filas_completadas + n) else s.filas_completadas
            puntos := if n > 0 then uint32 (s.puntos + n * 10 * s.nivel) else s.puntos
            nivel :=
              if n > 0 ∧ s.nivel < 9 then
                uint8 ((if n > 0 then uint32 (s.filas_completadas + n)
                  else s.filas_completadas) / 10 + 1)
              else s.nivel
            tiempo_paso :=
              if n > 0 ∧ s.nivel < 9 then
                uint32 (750 - 50 * (((uint8 ((if n > 0 then uint32 (s.filas_completadas + n)
                  else s.filas_completadas) / 10 + 1) : Nat) : Int) - 1))
              else s.tiempo_paso
            piezas_actual := s.piezas_siguiente
            x_piezas_actual :=
              int16 (((CUBETA_ANCHO : Int) + (s.piezas_siguiente.tamano : Int) - 4) / 2)
            y_piezas_actual := int16 (-(s.piezas_siguiente.tamano : Int))
            piezas_siguiente := nueva }) ∨
    (s.contador_ms < s.tiempo_paso ∧ tecla_pulsada ≠ JOYSTICK_NADA ∧
      s' = juego_tecla s tecla_pulsada) ∨
    (s.contador_ms < s.tiempo_paso ∧ tecla_pulsada = JOYSTICK_NADA ∧ s' = s) := by
  unfold juego_iteracion at hstep
  by_cases htick : s.contador_ms ≥ s.tiempo_paso
  · rw [if_pos htick] at hstep
    by_cases hcol : cubeta_hay_interseccion s.cubeta s.piezas_actual s.x_piezas_actual
        (int16 (s.y_piezas_actual + 1)) = true
    · simp only [hcol, if_true] at hstep
      by_cases hover : cubeta_hay_desbordamiento s.cubeta s.piezas_actual
          s.y_piezas_actual = true
      · simp only [hover, if_true] at hstep
        exact resultado_t.noConfusion hstep
      · simp only [hover] at hstep
        obtain ⟨c', n, nueva, hrev, hn, hnueva, heq⟩ :=
          juego_fijar_eq { s with contador_ms := 0 } rnd
        rw [heq] at hstep
        injection hstep with hstep
        right; left
        exact ⟨htick, hcol, by simpa using hover, c', n, nueva, hrev, hn, hnueva, hstep.symm⟩
    · simp only [hcol] at hstep
      injection hstep with hstep
      left
      exact ⟨htick, by simpa using hcol, hstep.symm⟩
  · rw [if_neg htick] at hstep
    by_cases hk : tecla_pulsada ≠ JOYSTICK_NADA
    · rw [if_pos hk] at hstep
      injection hstep with hstep
      right; right; left
      exact ⟨by omega, hk, hstep.symm⟩
    · rw [if_neg hk] at hstep
      injection hstep with hstep
      right; right; right
      exact ⟨by omega, by simpa using hk, hstep.symm⟩

theorem aparicion_int16 (t : Nat) (ht : t ≤ 4) :
    int16 (((CUBETA_ANCHO : Int) + (t : Int) - 4) / 2) = (10 + (t : Int) - 4) / 2 ∧
    int16 (-(t : Int)) = -(t : Int) := by
  have h : t = 0 ∨ t = 1 ∨ t = 2 ∨ t = 3 ∨ t = 4 := by omega
  rcases h with h | h | h | h | h <;> subst h <;> decide

/-- The filled cells of a catalog piece at its first position: above row 0
and between the walls. -/
theorem aparicion_celdas (k : Nat) (p : piezas_t) (h : piezas_inicializar k = some p)
    (i j : Nat) (hij : p.matriz i j ≠ 0) :
    -(p.tamano : Int) + i < 0 ∧ 0 ≤ (10 + (p.tamano : Int) - 4) / 2 + j ∧
      (10 + (p.tamano : Int) - 4) / 2 + j < 10 := by
  have hcaja : i < p.tamano ∧ j < p.tamano := by
    by_contra hc
    exact hij (catalogo_caja k p h i j hc)
  have ht := inicializar_tamano k p h
  omega

theorem aparicion_desborda (k : Nat) (p : piezas_t) (h : piezas_inicializar k = some p)
    (c : cubeta_t) : cubeta_hay_desbordamiento c p (-(p.tamano : Int)) = true := by
  rw [hay_desbordamiento_iff]
  have hcel : ∃ i j : Nat, i < p.tamano ∧ j < p.tamano ∧ p.matriz i j ≠ 0 := by
    rcases inicializar_casos k p h with h1 | h1 | h1 | h1 | h1 | h1 | h1 <;>
      rw [h1.2] <;> exact ⟨0, 1, by decide⟩
  obtain ⟨i, j, hi, hj, hm⟩ := hcel
  exact ⟨i, j, hi, hj, hm, by omega⟩

/-- C24, counterexample.  The state `juego` builds before its loop when the
first draw is a PALO has the piece at x = 5, y = -4: x is not 3. -/
theorem juego_aparicion_palo_contraejemplo :
    juego_inicio cubeta_vacia 0 0 6 = some estado_arranque ∧
    estado_arranque.piezas_actual = piezas_palo ∧
    estado_arranque.piezas_actual.tipo = PIEZAS_PALO ∧
    estado_arranque.x_piezas_actual = 5 ∧ estado_arranque.y_piezas_actual = -4 ∧
    estado_arranque.x_piezas_actual ≠ 3 :=
  ⟨rfl, rfl, rfl, rfl, rfl, by decide⟩

/-- C24, amended.  A newly spawned I piece (`PIEZAS_PALO`) enters the board at
x = 5, y = -4: at game start when the first draw is a PALO, and after every
lock whose next piece is the PALO (such a pass does come back to the loop when
the piece does not overflow). -/
theorem juego_aparicion_palo :
    (∀ cubeta0 ms rnd1 rnd2 s, juego_inicio cubeta0 ms rnd1 rnd2 = some s →
      rnd1 % PIEZAS_NUM_PIEZAS = PIEZAS_PALO →
      s.piezas_actual = piezas_palo ∧ s.x_piezas_actual = 5 ∧ s.y_piezas_actual = -4) ∧
    (∀ s tecla_pulsada rnd s', s.contador_ms ≥ s.tiempo_paso →
      cubeta_hay_interseccion s.cubeta s.piezas_actual s.x_piezas_actual
        (int16 (s.y_piezas_actual + 1)) = true →
      s.piezas_siguiente = piezas_palo →
      juego_iteracion s tecla_pulsada rnd = resultado_t.continua s' →
      s'.piezas_actual = piezas_palo ∧ s'.x_piezas_actual = 5 ∧ s'.y_piezas_actual = -4) ∧
    (∀ s tecla_pulsada rnd, s.contador_ms ≥ s.tiempo_paso →
      cubeta_hay_interseccion s.cubeta s.piezas_actual s.x_piezas_actual
        (int16 (s.y_piezas_actual + 1)) = true →
      cubeta_hay_desbordamiento s.cubeta s.piezas_actual s.y_piezas_actual = false →
      ∃ s', juego_iteracion s tecla_pulsada rnd = resultado_t.continua s') := by
  refine ⟨?_, ?_, ?_⟩
  · intro cubeta0 ms rnd1 rnd2 s h0 hk
    unfold juego_inicio at h0
    rw [hk] at h0
    have h1 : piezas_inicializar PIEZAS_PALO = some piezas_palo := rfl
    cases h2 : piezas_inicializar (rnd2 % PIEZAS_NUM_PIEZAS) with
    | none => rw [h1, h2] at h0; exact Option.noConfusion h0
    | some p2 =>
      rw [h1, h2] at h0
      injection h0 with h0
      subst h0
      exact ⟨rfl,
        (by decide : int16 (((CUBETA_ANCHO : Int) + (piezas_palo.tamano : Int) - 4) / 2) = 5),
        (by decide : int16 (-(piezas_palo.tamano : Int)) = -4)⟩
  · intro s tecla_pulsada rnd s' htick hcol hsig hstep
    rcases juego_iteracion_casos s s' tecla_pulsada rnd hstep with
      ⟨_, hno, _⟩ | ⟨_, _, _, c', n, nueva, _, _, _, heq⟩ | ⟨hlt, _, _⟩ | ⟨hlt, _, _⟩
    · rw [hcol] at hno
      exact Bool.noConfusion hno
    · subst heq
      refine ⟨hsig, ?_, ?_⟩
      · show int16 (((CUBETA_ANCHO : Int) + (s.piezas_siguiente.tamano : Int) - 4) / 2) = 5
        rw [hsig]
        decide
      · show int16 (-(s.piezas_siguiente.tamano : Int)) = -4
        rw [hsig]
        decide
    · omega
    · omega
  · intro s tecla_pulsada rnd htick hcol hover
    obtain ⟨c', n, s', _, hstep, _⟩ :=
      juego_iteracion_fijar_campos s tecla_pulsada rnd htick hcol hover
    exact ⟨s', hstep⟩

theorem juego_aparicion_palo_witness :
    estado_arranque.piezas_actual = piezas_palo ∧ estado_arranque.x_piezas_actual = 5 ∧
      estado_arranque.y_piezas_actual = -4 :=
  juego_aparicion_palo.1 cubeta_vacia 0 0 6 estado_arranque rfl rfl

/-- C26, counterexample.  From the start of a game, two Down presses in a row
(tick not due) leave the saved period at 750, not 50, and the Left press that
follows sets the gravity period to 750, not 50. -/
theorem juego_doble_abajo_contraejemplo :
    juego_iteracion estado_arranque JOYSTICK_ABAJO 0 =
      resultado_t.continua estado_caida_rapida ∧
    juego_iteracion estado_caida_rapida JOYSTICK_ABAJO 0 =
      resultado_t.continua estado_caida_rapida ∧
    estado_caida_rapida.tiempo_paso = 50 ∧
    estado_caida_rapida.temp_tiempo_paso = 750 ∧
    estado_caida_rapida.temp_tiempo_paso ≠ 50 ∧
    juego_iteracion estado_caida_rapida JOYSTICK_IZQUIERDA 0 =
      resultado_t.continua (juego_tecla estado_caida_rapida JOYSTICK_IZQUIERDA) ∧
    (juego_tecla estado_caida_rapida JOYSTICK_IZQUIERDA).tiempo_paso = 750 ∧
    (juego_tecla estado_caida_rapida JOYSTICK_IZQUIERDA).tiempo_paso ≠ 50 := by
  have h1 : juego_iteracion estado_arranque JOYSTICK_ABAJO 0 =
      resultado_t.continua estado_caida_rapida := by
    rw [juego_iteracion_sin_tic estado_arranque JOYSTICK_ABAJO 0 (by decide),
      if_pos (by decide), juego_tecla_abajo]
    rfl
  have h2 : juego_iteracion estado_caida_rapida JOYSTICK_ABAJO 0 =
      resultado_t.continua estado_caida_rapida := by
    rw [juego_iteracion_sin_tic estado_caida_rapida JOYSTICK_ABAJO 0 (by decide),
      if_pos (by decide), juego_tecla_abajo]
    rfl
  have h3 : juego_iteracion estado_caida_rapida JOYSTICK_IZQUIERDA 0 =
      resultado_t.continua (juego_tecla estado_caida_rapida JOYSTICK_IZQUIERDA) := by
    rw [juego_iteracion_sin_tic estado_caida_rapida JOYSTICK_IZQUIERDA 0 (by decide),
      if_pos (by decide)]
  have h4 : (juego_tecla estado_caida_rapida JOYSTICK_IZQUIERDA).tiempo_paso = 750 := by
    rw [juego_tecla_izquierda]
    rfl
  refine ⟨h1, h2, rfl, rfl, by decide, h3, h4, ?_⟩
  rw [h4]
  decide

/-- The key branch for an event other than None and Down: the gravity period
becomes the saved period, which is left as it was. -/
theorem juego_tecla_restaura (s : estado_t) (tecla_pulsada : Nat)
    (h5 : tecla_pulsada ≠ JOYSTICK_ABAJO) :
    (juego_tecla s tecla_pulsada).tiempo_paso = s.temp_tiempo_paso ∧
    (juego_tecla s tecla_pulsada).temp_tiempo_paso = s.temp_tiempo_paso := by
  refine ⟨?_, (juego_tecla_marco2 s tecla_pulsada).1⟩
  by_cases k1 : tecla_pulsada = JOYSTICK_ARRIBA
  · subst k1; rw [juego_tecla_arriba]
  by_cases k2 : tecla_pulsada = JOYSTICK_CENTRO
  · subst k2; rw [juego_tecla_centro]
  by_cases k3 : tecla_pulsada = JOYSTICK_IZQUIERDA
  · subst k3; rw [juego_tecla_izquierda]
  by_cases k4 : tecla_pulsada = JOYSTICK_DERECHA
  · subst k4; rw [juego_tecla_derecha]
  rw [juego_tecla_otra s tecla_pulsada k1 k2 k3 k4 h5]

/-- C26, amended.  Pressing Down twice in a row (no other press in between,
gravity tick not due, any number of millisecond ticks between the passes) does
not save 50: after the second Down the gravity period is 50 and the saved
period is what it was before the first Down, and the next press other than
Down restores that saved period. -/
theorem juego_doble_abajo (s : estado_t) (rnd : Nat) (h : s.contador_ms < s.tiempo_paso) :
    juego_iteracion s JOYSTICK_ABAJO rnd = resultado_t.continua { s with tiempo_paso := 50 } ∧
    ∀ (tics rnd2 : Nat),
      (Nat.iterate TIMER0_IRQHandler tics { s with tiempo_paso := 50 }).contador_ms < 50 →
      ∃ s2, juego_iteracion (Nat.iterate TIMER0_IRQHandler tics { s with tiempo_paso := 50 })
          JOYSTICK_ABAJO rnd2 = resultado_t.continua s2 ∧
        s2.tiempo_paso = 50 ∧ s2.temp_tiempo_paso = s.temp_tiempo_paso ∧
        ∀ (tics3 tecla_pulsada rnd3 : Nat), tecla_pulsada ≠ JOYSTICK_NADA →
          tecla_pulsada ≠ JOYSTICK_ABAJO →
          (Nat.iterate TIMER0_IRQHandler tics3 s2).contador_ms < 50 →
          ∃ s3, juego_iteracion (Nat.iterate TIMER0_IRQHandler tics3 s2) tecla_pulsada rnd3 =
              resultado_t.continua s3 ∧
            s3.tiempo_paso = s.temp_tiempo_paso ∧ s3.temp_tiempo_paso = s.temp_tiempo_paso := by
  have hab : ∀ (t : estado_t) (r : Nat), t.contador_ms < t.tiempo_paso →
      juego_iteracion t JOYSTICK_ABAJO r = resultado_t.continua { t with tiempo_paso := 50 } := by
    intro t r ht
    rw [juego_iteracion_sin_tic t JOYSTICK_ABAJO r ht, if_pos (by decide), juego_tecla_abajo]
  have hdown : ∀ (t : estado_t) (tics r : Nat),
      (Nat.iterate TIMER0_IRQHandler tics t).contador_ms < t.tiempo_paso →
      ∃ s2, juego_iteracion (Nat.iterate TIMER0_IRQHandler tics t) JOYSTICK_ABAJO r =
          resultado_t.continua s2 ∧
        s2.tiempo_paso = 50 ∧ s2.temp_tiempo_paso = t.temp_tiempo_paso := by
    intro t tics r ht
    obtain ⟨ms, hms⟩ := tics_marco tics t
    rw [hms] at ht ⊢
    exact ⟨_, hab { t with contador_ms := ms } r ht, rfl, rfl⟩
  have hkey : ∀ (t : estado_t) (tics tecla r : Nat), tecla ≠ JOYSTICK_NADA →
      tecla ≠ JOYSTICK_ABAJO →
      (Nat.iterate TIMER0_IRQHandler tics t).contador_ms < t.tiempo_paso →
      ∃ s3, juego_iteracion (Nat.iterate TIMER0_IRQHandler tics t) tecla r =
          resultado_t.continua s3 ∧
        s3.tiempo_paso = t.temp_tiempo_paso ∧ s3.temp_tiempo_paso = t.temp_tiempo_paso := by
    intro t tics tecla r k0 k5 ht
    obtain ⟨ms, hms⟩ := tics_marco tics t
    rw [hms] at ht ⊢
    refine ⟨juego_tecla { t with contador_ms := ms } tecla, ?_,
      (juego_tecla_restaura { t with contador_ms := ms } tecla k5).1,
      (juego_tecla_restaura { t with contador_ms := ms } tecla k5).2⟩
    rw [juego_iteracion_sin_tic { t with contador_ms := ms } tecla r ht, if_pos k0]
  refine ⟨hab s rnd h, ?_⟩
  intro tics rnd2 h2
  obtain ⟨s2, e2, a, b⟩ := hdown { s with tiempo_paso := 50 } tics rnd2 h2
  refine ⟨s2, e2, a, b, ?_⟩
  intro tics3 tecla_pulsada rnd3 k0 k5 h3
  have h3' : (Nat.iterate TIMER0_IRQHandler tics3 s2).contador_ms < s2.tiempo_paso := by
    rw [a]
    exact h3
  obtain ⟨s3, e3, c, d⟩ := hkey s2 tics3 tecla_pulsada rnd3 k0 k5 h3'
  exact ⟨s3, e3, c.trans b, d.trans b⟩

set_option maxRecDepth 100000 in
theorem juego_doble_abajo_witness :
    ∃ s2, juego_iteracion estado_caida_rapida JOYSTICK_ABAJO 0 = resultado_t.continua s2 ∧
      s2.tiempo_paso = 50 ∧ s2.temp_tiempo_paso = 750 := by
  obtain ⟨s2, h1, h2, h3, _⟩ :=
    (juego_doble_abajo estado_arranque 0 (by decide)).2 0 0 (by decide)
  exact ⟨s2, h1, h2, h3⟩

/-- C30. The saved period (`temp_tiempo_paso`) equals 750 in every reachable
state of the game loop and no transition changes it.  Consequently, at every
level, an event handled by the input branch sets the gravity period to 750 (to
50 for Down), which differs from the level's 750 - 50*(level - 1) from level 2
on; the passes with the tick due keep that period unless they clear a line, and
a line clear below level 9 sets the level's period again. -/
theorem juego_periodo_guardado (s : estado_t) (h : Alcanzable s) :
    s.temp_tiempo_paso = 750 ∧
    (TIMER0_IRQHandler s).temp_tiempo_paso = s.temp_tiempo_paso ∧
    (∀ tecla_pulsada rnd s', juego_iteracion s tecla_pulsada rnd = resultado_t.continua s' →
      s'.temp_tiempo_paso = s.temp_tiempo_paso) ∧
    (∀ tecla_pulsada rnd, s.contador_ms < s.tiempo_paso → tecla_pulsada ≠ JOYSTICK_NADA →
      ∃ s', juego_iteracion s tecla_pulsada rnd = resultado_t.continua s' ∧
        s'.nivel = s.nivel ∧
        s'.tiempo_paso = (if tecla_pulsada = JOYSTICK_ABAJO then 50 else 750) ∧
        (2 ≤ s.nivel → (s'.tiempo_paso : Int) ≠ 750 - 50 * ((s'.nivel : Int) - 1))) ∧
    (∀ tecla_pulsada rnd s', s.contador_ms ≥ s.tiempo_paso →
      juego_iteracion s tecla_pulsada rnd = resultado_t.continua s' →
      (s'.tiempo_paso = s.tiempo_paso ∧ s'.nivel = s.nivel) ∨
      (s'.filas_completadas ≠ s.filas_completadas ∧ s.nivel < 9 ∧
        (s'.tiempo_paso : Int) = 750 - 50 * ((s'.nivel : Int) - 1))) := by
  obtain ⟨hcub, hact, _, hn1, hn9, hrel, htemp⟩ := juego_invariante_nivel s h
  refine ⟨htemp, rfl, ?_, ?_, ?_⟩
  · intro tecla_pulsada rnd s' hstep
    rcases juego_iteracion_casos s s' tecla_pulsada rnd hstep with
      ⟨_, _, heq⟩ | ⟨_, _, _, c', n, nueva, _, _, _, heq⟩ | ⟨_, _, heq⟩ | ⟨_, _, heq⟩
    · rw [heq]
    · rw [heq]
    · rw [heq]
      exact (juego_tecla_marco2 s tecla_pulsada).1
    · rw [heq]
  · intro tecla_pulsada rnd hlt hk
    have hniv : (juego_tecla s tecla_pulsada).nivel = s.nivel :=
      (juego_tecla_marco s tecla_pulsada).2.2.2.2.2.1
    have hper : (juego_tecla s tecla_pulsada).tiempo_paso =
        (if tecla_pulsada = JOYSTICK_ABAJO then 50 else 750) := by
      by_cases k5 : tecla_pulsada = JOYSTICK_ABAJO
      · rw [if_pos k5, k5, juego_tecla_abajo]
      · rw [if_neg k5, (juego_tecla_restaura s tecla_pulsada k5).1, htemp]
    refine ⟨juego_tecla s tecla_pulsada, ?_, hniv, hper, ?_⟩
    · rw [juego_iteracion_sin_tic s tecla_pulsada rnd hlt, if_pos hk]
    · intro h2
      rw [hper, hniv]
      have h9 : (s.nivel : Int) ≤ 9 := by exact_mod_cast hn9
      have h2' : (2 : Int) ≤ (s.nivel : Int) := by exact_mod_cast h2
      split_ifs
      · simp only [Nat.cast_ofNat]
        omega
      · simp only [Nat.cast_ofNat]
        omega
  · intro tecla_pulsada rnd s' htick hstep
    rcases juego_iteracion_casos s s' tecla_pulsada rnd hstep with
      ⟨_, _, heq⟩ | ⟨_, _, _, c', n, nueva, _, hn, _, heq⟩ | ⟨hlt, _, _⟩ | ⟨hlt, _, _⟩
    · left
      rw [heq]
      exact ⟨rfl, rfl⟩
    · have hn4 : n ≤ 4 := by
        rw [hn]
        exact fijar_llenas_le_cuatro _ _ _ _ hcub hact
      obtain ⟨_, a2, _, a4⟩ :=
        nivel_tras_fijar s.filas_completadas n s.nivel hn4 hn1 hn9 hrel
      by_cases hc : n > 0 ∧ s.nivel < 9
      · right
        obtain ⟨b1, _⟩ := a4 hc.1 hc.2
        rw [if_pos hc] at a2
        rw [heq]
        refine ⟨?_, hc.2, ?_⟩
        · show (if n > 0 then uint32 (s.filas_completadas + n) else s.filas_completadas) ≠
            s.filas_completadas
          rw [b1]
          omega
        · simp only [if_pos hc]
          exact uint32_periodo _ (by omega)
      · left
        rw [heq]
        simp only [if_neg hc]
        exact ⟨trivial, trivial⟩
    · omega
    · omega

set_option maxRecDepth 100000 in
theorem juego_periodo_guardado_witness :
    estado_caida_rapida.temp_tiempo_paso = 750 ∧
      ∃ s', juego_iteracion estado_caida_rapida JOYSTICK_DERECHA 0 = resultado_t.continua s' ∧
        s'.nivel = estado_caida_rapida.nivel ∧ s'.tiempo_paso = 750 := by
  have h := juego_periodo_guardado estado_caida_rapida caida_rapida_alcanzable
  obtain ⟨s', h1, h2, h3, _⟩ := h.2.2.2.1 JOYSTICK_DERECHA 0 (by decide) (by decide)
  exact ⟨h.1, s', h1, h2, h3⟩

theorem filas_ocupadas_le (p : piezas_t) (x y : Int) (hp : p.tamano ≤ 4) :
    filas_ocupadas p x y ≤ 4 := by
  unfold filas_ocupadas
  have hmono : List.countP (fun r : Nat =>
        (List.range p.tamano).any fun (i : Nat) =>
          (List.range p.tamano).any fun (j : Nat) =>
            p.matriz i j != 0 && decide (y + i = (r : Int)) && decide (0 ≤ x + j) &&
              decide (x + j < CUBETA_ANCHO)) (List.range CUBETA_ALTO) ≤
      List.countP (fun r => decide (y.toNat ≤ r ∧ r < y.toNat + 4)) (List.range CUBETA_ALTO) := by
    apply List.countP_mono_left
    intro r _ hocc
    simp only [List.any_eq_true, List.mem_range, Bool.and_eq_true, decide_eq_true_eq] at hocc
    obtain ⟨i, hi, j, _, ⟨⟨_, hyr⟩, _⟩, _⟩ := hocc
    simp only [decide_eq_true_eq]
    omega
  have := cuenta_intervalo y.toNat 4 CUBETA_ALTO
  have h4 := (Nat.le_min.mp this).1
  omega

/-- A row that becomes full when a piece is fixed on a board without full
rows holds a cell of the piece. -/
theorem fijar_llenas_le_ocupadas (c : cubeta_t) (p : piezas_t) (x y : Int)
    (hc : ∀ r, r < CUBETA_ALTO → ∃ col, col < CUBETA_ANCHO ∧ c.matriz r col = 0) :
    (filas (cubeta_fijar_pieza c p x y)).countP fila_llena ≤ filas_ocupadas p x y := by
  unfold filas filas_ocupadas
  rw [List.countP_map]
  apply List.countP_mono_left
  intro r hr hfull
  rw [List.mem_range] at hr
  simp only [Function.comp] at hfull
  rw [fila_llena_iff] at hfull
  obtain ⟨col, hcol, hz⟩ := hc r hr
  have hne := hfull col hcol
  have hcub : ∃ i j : Nat, i < p.tamano ∧ j < p.tamano ∧ p.matriz i j ≠ 0 ∧
      y + i = r ∧ x + j = col ∧ r < 17 ∧ col < 10 := by
    by_contra hno
    rw [(fijar_pieza_celda c p x y r col).2 hno] at hne
    exact hne hz
  obtain ⟨i, j, hi, hj, hm, hyr, hxc, _, hc10⟩ := hcub
  simp only [List.any_eq_true, List.mem_range, Bool.and_eq_true, decide_eq_true_eq, bne_iff_ne]
  exact ⟨i, hi, j, hj, ⟨⟨hm, hyr⟩, by omega⟩, by unfold CUBETA_ANCHO; omega⟩

/-- C28. For every board with no full row, every piece with tamano <= 4 and
every position (x, y), `cubeta_revisar_filas` applied to the result of
`cubeta_fijar_pieza` returns at most the number of board rows the filled cells
of the piece occupy, which is at most 4; the board of a reachable state has no
full row, so every lock in every run adds at most 4 lines and at most
40*level points. -/
theorem fijar_revisar_cuatro (c : cubeta_t) (p : piezas_t) (x y : Int)
    (hc : ∀ r, r < CUBETA_ALTO → ∃ col, col < CUBETA_ANCHO ∧ c.matriz r col = 0)
    (hp : p.tamano ≤ 4) :
    (∃ (c' : cubeta_t) (n : Nat),
      cubeta_revisar_filas (cubeta_fijar_pieza c p x y) = some (c', n) ∧
      n ≤ filas_ocupadas p x y ∧ filas_ocupadas p x y ≤ 4 ∧ n ≤ 4) ∧
    (∀ s, Alcanzable s →
      (∀ r, r < CUBETA_ALTO → ∃ col, col < CUBETA_ANCHO ∧ s.cubeta.matriz r col = 0) ∧
      s.piezas_actual.tamano ≤ 4 ∧
      ∀ tecla_pulsada rnd, s.contador_ms ≥ s.tiempo_paso →
        cubeta_hay_interseccion s.cubeta s.piezas_actual s.x_piezas_actual
          (int16 (s.y_piezas_actual + 1)) = true →
        cubeta_hay_desbordamiento s.cubeta s.piezas_actual s.y_piezas_actual = false →
        ∃ (c' : cubeta_t) (n : Nat) (s' : estado_t),
          cubeta_revisar_filas (cubeta_fijar_pieza s.cubeta s.piezas_actual s.x_piezas_actual
            s.y_piezas_actual) = some (c', n) ∧
          juego_iteracion s tecla_pulsada rnd = resultado_t.continua s' ∧
          n ≤ 4 ∧
          s'.filas_completadas =
            (if n > 0 then uint32 (s.filas_completadas + n) else s.filas_completadas) ∧
          s'.puntos = (if n > 0 then uint32 (s.puntos + n * 10 * s.nivel) else s.puntos) ∧
          n * 10 * s.nivel ≤ 40 * s.nivel) := by
  constructor
  · obtain ⟨c', h1, _⟩ := revisar_filas_eq (cubeta_fijar_pieza c p x y)
    have h2 := fijar_llenas_le_ocupadas c p x y hc
    have h3 := filas_ocupadas_le p x y hp
    exact ⟨c', _, h1, h2, h3, Nat.le_trans h2 h3⟩
  · intro s hs
    obtain ⟨hcub, hact, _⟩ := juego_invariante_nivel s hs
    refine ⟨hcub, hact, ?_⟩
    intro tecla_pulsada rnd htick hcol hover
    obtain ⟨c0, n0, s', _, hstep, _⟩ :=
      juego_iteracion_fijar_campos s tecla_pulsada rnd htick hcol hover
    rcases juego_iteracion_casos s s' tecla_pulsada rnd hstep with
      ⟨_, hno, _⟩ | ⟨_, _, _, c', n, nueva, hrev, hn, _, heq⟩ | ⟨hlt, _, _⟩ | ⟨hlt, _, _⟩
    · rw [hcol] at hno
      exact Bool.noConfusion hno
    · have hn4 : n ≤ 4 := by
        rw [hn]
        exact fijar_llenas_le_cuatro _ _ _ _ hcub hact
      refine ⟨c', n, s', hrev, hstep, hn4, ?_, ?_, ?_⟩
      · rw [heq]
      · rw [heq]
      · exact Nat.mul_le_mul_right _ (by omega)
    · omega
    · omega

theorem fijar_revisar_cuatro_witness :
    ∃ (c' : cubeta_t) (n : Nat),
      cubeta_revisar_filas (cubeta_fijar_pieza cubeta_cuatro piezas_palo 8 13) = some (c', n) ∧
      n ≤ filas_ocupadas piezas_palo 8 13 ∧ filas_ocupadas piezas_palo 8 13 ≤ 4 ∧ n ≤ 4 :=
  (fijar_revisar_cuatro cubeta_cuatro piezas_palo 8 13
    (fun r _ => ⟨9, by decide, by simp [cubeta_cuatro]⟩) (by decide)).1

theorem recorrido_alcanzable (total : Nat) (s : estado_t) (h : Recorrido total s) :
    Alcanzable s := by
  induction h with
  | inicio cubeta0 ms rnd1 rnd2 s h0 => exact Alcanzable.inicio cubeta0 ms rnd1 rnd2 s h0
  | tic total s _ ih => exact Alcanzable.tic s ih
  | iteracion total s s' tecla rnd _ hstep ih => exact Alcanzable.iteracion s s' tecla rnd ih hstep

theorem alcanzable_recorrido (s : estado_t) (h : Alcanzable s) : ∃ total, Recorrido total s := by
  induction h with
  | inicio cubeta0 ms rnd1 rnd2 s h0 => exact ⟨0, Recorrido.inicio cubeta0 ms rnd1 rnd2 s h0⟩
  | tic s _ ih =>
    obtain ⟨total, ht⟩ := ih
    exact ⟨total, Recorrido.tic total s ht⟩
  | iteracion s s' tecla rnd _ hstep ih =>
    obtain ⟨total, ht⟩ := ih
    exact ⟨_, Recorrido.iteracion total s s' tecla rnd ht hstep⟩

theorem uint32_suma (a b : Nat) : uint32 ((a : Int) + (b : Int)) = (a + b) % 4294967296 := by
  unfold uint32
  omega

/-- What a pass changes in the line counter and the level, in terms of the
number of rows it removes. -/
theorem juego_iteracion_lineas (s s' : estado_t) (tecla_pulsada rnd : Nat)
    (hstep : juego_iteracion s tecla_pulsada rnd = resultado_t.continua s') :
    s'.filas_completadas =
      (if filas_eliminadas_pasada s > 0 then
        uint32 (s.filas_completadas + filas_eliminadas_pasada s)
      else s.filas_completadas) ∧
    s'.nivel =
      (if filas_eliminadas_pasada s > 0 ∧ s.nivel < 9 then
        uint8 (((if filas_eliminadas_pasada s > 0 then
          uint32 (s.filas_completadas + filas_eliminadas_pasada s)
          else s.filas_completadas : Nat) : Int) / 10 + 1)
      else s.nivel) ∧
    (filas_eliminadas_pasada s > 0 → s.contador_ms ≥ s.tiempo_paso ∧
      filas_eliminadas_pasada s =
        (filas (cubeta_fijar_pieza s.cubeta s.piezas_actual s.x_piezas_actual
          s.y_piezas_actual)).countP fila_llena) := by
  rcases juego_iteracion_casos s s' tecla_pulsada rnd hstep with
    ⟨_, hno, heq⟩ | ⟨htick, hcol, hover, c', n, nueva, hrev, hn, _, heq⟩ | ⟨hlt, _, heq⟩ |
      ⟨hlt, _, heq⟩
  · have h0 : filas_eliminadas_pasada s = 0 := by
      unfold filas_eliminadas_pasada
      rw [if_neg]
      rw [hno]
      simp
    rw [h0, heq]
    simp
  · have h0 : filas_eliminadas_pasada s = n := by
      unfold filas_eliminadas_pasada
      rw [if_pos ⟨htick, hcol, hover⟩, hrev]
    rw [h0, heq]
    exact ⟨rfl, rfl, fun _ => ⟨htick, hn⟩⟩
  · have h0 : filas_eliminadas_pasada s = 0 := by
      unfold filas_eliminadas_pasada
      rw [if_neg]
      intro hc
      omega
    rw [h0, heq]
    refine ⟨?_, ?_, ?_⟩
    · simpa using (juego_tecla_marco s tecla_pulsada).2.2.2.2.1
    · simpa using (juego_tecla_marco s tecla_pulsada).2.2.2.2.2.1
    · intro hc
      omega
  · have h0 : filas_eliminadas_pasada s = 0 := by
      unfold filas_eliminadas_pasada
      rw [if_neg]
      intro hc
      omega
    rw [h0, heq]
    simp

/-- Along every run the line counter is the number of removed rows modulo
2^32 and the level is min(9, removed rows / 10 + 1). -/
theorem recorrido_nivel (total : Nat) (s : estado_t) (h : Recorrido total s) :
    s.filas_completadas = total % 4294967296 ∧ s.nivel = min 9 (total / 10 + 1) := by
  induction h with
  | inicio cubeta0 ms rnd1 rnd2 s h0 =>
    unfold juego_inicio at h0
    cases h1 : piezas_inicializar (rnd1 % PIEZAS_NUM_PIEZAS) with
    | none => rw [h1] at h0; exact Option.noConfusion h0
    | some p1 =>
      cases h2 : piezas_inicializar (rnd2 % PIEZAS_NUM_PIEZAS) with
      | none => rw [h1, h2] at h0; exact Option.noConfusion h0
      | some p2 =>
        rw [h1, h2] at h0
        injection h0 with h0
        subst h0
        exact ⟨rfl, rfl⟩
  | tic total s _ ih => exact ih
  | iteracion total s s' tecla rnd hrec hstep ih =>
    obtain ⟨ihf, ihn⟩ := ih
    obtain ⟨hcub, hact, _, hn1, hn9, hrel, _⟩ :=
      juego_invariante_nivel s (recorrido_alcanzable total s hrec)
    obtain ⟨e1, e2, e3⟩ := juego_iteracion_lineas s s' tecla rnd hstep
    generalize filas_eliminadas_pasada s = n at e1 e2 e3 ⊢
    by_cases hpos : n > 0
    · have hn4 : n ≤ 4 := by
        rw [(e3 hpos).2]
        exact fijar_llenas_le_cuatro _ _ _ _ hcub hact
      rw [if_pos hpos, uint32_suma] at e1
      constructor
      · rw [e1, ihf]
        omega
      · by_cases h9 : s.nivel < 9
        · obtain ⟨_, _, _, a4⟩ :=
            nivel_tras_fijar s.filas_completadas n s.nivel hn4 hn1 hn9 hrel
          obtain ⟨_, b2⟩ := a4 hpos h9
          rw [e2, b2]
          have hmin : min 9 (total / 10 + 1) = s.nivel := ihn.symm
          have htot : total / 10 + 1 < 9 := by
            rcases Nat.le_total 9 (total / 10 + 1) with hle | hle
            · rw [Nat.min_eq_left hle] at hmin
              omega
            · rw [Nat.min_eq_right hle] at hmin
              omega
          have hf : s.filas_completadas = total := by
            rw [ihf]
            omega
          rw [hf]
          have hle : (total + n) / 10 + 1 ≤ 9 := by omega
          rw [Nat.min_eq_right hle]
        · rw [if_neg (fun hc => h9 hc.2)] at e2
          have hniv : s.nivel = 9 := by omega
          rw [e2, hniv]
          rw [hniv] at ihn
          have htot : 9 ≤ total / 10 + 1 := by
            rcases Nat.le_total 9 (total / 10 + 1) with hle | hle
            · exact hle
            · rw [Nat.min_eq_right hle] at ihn
              omega
          have hle : 9 ≤ (total + n) / 10 + 1 := by omega
          rw [Nat.min_eq_left hle]
    · have hz : n = 0 := by omega
      subst hz
      rw [if_neg hpos] at e1
      rw [if_neg (fun hc => hpos hc.1)] at e2
      rw [e1, e2]
      exact ⟨ihf, ihn⟩

/-- C29. In every reachable state of the game loop the level is a function of
the line count: level = min(9, lines / 10 + 1), where lines is the number of
rows removed since the game started and `filas_completadas` is that number
modulo 2^32 (so the equation holds for `filas_completadas` itself as long as
the counter has not wrapped around), even though a pass changes the level only
when it is a lock that clears at least one row while level < 9. -/
theorem juego_nivel_funcion (s : estado_t) (h : Alcanzable s) :
    (∃ total, Recorrido total s) ∧
    (∀ total, Recorrido total s →
      s.filas_completadas = total % 4294967296 ∧ s.nivel = min 9 (total / 10 + 1) ∧
      (total < 4294967296 → s.nivel = min 9 (s.filas_completadas / 10 + 1))) ∧
    (s.nivel < 9 → s.nivel = min 9 (s.filas_completadas / 10 + 1)) ∧
    (∀ tecla_pulsada rnd s', juego_iteracion s tecla_pulsada rnd = resultado_t.continua s' →
      s'.nivel ≠ s.nivel →
      s.contador_ms ≥ s.tiempo_paso ∧ filas_eliminadas_pasada s > 0 ∧ s.nivel < 9) := by
  obtain ⟨_, _, _, hn1, hn9, hrel, _⟩ := juego_invariante_nivel s h
  refine ⟨alcanzable_recorrido s h, ?_, ?_, ?_⟩
  · intro total hrec
    obtain ⟨a, b⟩ := recorrido_nivel total s hrec
    refine ⟨a, b, ?_⟩
    intro hlt
    rw [a, Nat.mod_eq_of_lt hlt]
    exact b
  · intro h9
    have := hrel h9
    rw [Nat.min_eq_right (by omega)]
    exact this
  · intro tecla_pulsada rnd s' hstep hne
    obtain ⟨_, e2, e3⟩ := juego_iteracion_lineas s s' tecla_pulsada rnd hstep
    by_cases hc : filas_eliminadas_pasada s > 0 ∧ s.nivel < 9
    · exact ⟨(e3 hc.1).1, hc.1, hc.2⟩
    · rw [if_neg hc] at e2
      exact absurd e2 hne

theorem juego_nivel_funcion_witness :
    estado_arranque.nivel = min 9 (estado_arranque.filas_completadas / 10 + 1) :=
  (juego_nivel_funcion estado_arranque
    (Alcanzable.inicio cubeta_vacia 0 0 6 estado_arranque arranque_ejemplo)).2.2.1 (by decide)

theorem juego_tecla_color (s : estado_t) (tecla_pulsada : Nat) :
    (juego_tecla s tecla_pulsada).piezas_actual.color = s.piezas_actual.color := by
  by_cases h1 : tecla_pulsada = JOYSTICK_ARRIBA
  · subst h1; rw [juego_tecla_arriba]; simp only; split_ifs <;> rfl
  by_cases h2 : tecla_pulsada = JOYSTICK_CENTRO
  · subst h2; rw [juego_tecla_centro]; simp only; split_ifs <;> rfl
  by_cases h3 : tecla_pulsada = JOYSTICK_IZQUIERDA
  · subst h3; rw [juego_tecla_izquierda]
  by_cases h4 : tecla_pulsada = JOYSTICK_DERECHA
  · subst h4; rw [juego_tecla_derecha]
  by_cases h5 : tecla_pulsada = JOYSTICK_ABAJO
  · subst h5; rw [juego_tecla_abajo]
  rw [juego_tecla_otra s tecla_pulsada h1 h2 h3 h4 h5]

theorem fila_celda (c : cubeta_t) (r col : Nat) (hcol : col < CUBETA_ANCHO) :
    (fila c r)[col]? = some (c.matriz r col) := by
  unfold fila
  rw [List.getElem?_map, List.getElem?_range hcol]
  rfl

/-- Line clearing only moves or zeroes cell values: a cell of the board that
`cubeta_revisar_filas` leaves is 0 or the value of a cell of the same column
of the board it was given. -/
theorem revisar_filas_celda (c c' : cubeta_t) (n : Nat)
    (h : cubeta_revisar_filas c = some (c', n)) (r col : Nat) (hr : r < CUBETA_ALTO)
    (hcol : col < CUBETA_ANCHO) :
    c'.matriz r col = 0 ∨ ∃ r0, r0 < CUBETA_ALTO ∧ c'.matriz r col = c.matriz r0 col := by
  obtain ⟨c2, h2, hfilas, _, _⟩ := revisar_filas_eq c
  rw [h2] at h
  injection h with h
  injection h with h1 _
  subst h1
  have hmem : fila c2 r ∈ filas c2 := by
    unfold filas
    exact List.mem_map.mpr ⟨r, List.mem_range.mpr hr, rfl⟩
  rw [hfilas] at hmem
  unfold compactar_referencia at hmem
  have hcel := fila_celda c2 r col hcol
  rcases List.mem_append.mp hmem with hz | hf
  · left
    rw [(List.mem_replicate.mp hz).2, List.getElem?_replicate] at hcel
    rw [if_pos hcol] at hcel
    injection hcel with hcel
    exact hcel.symm
  · right
    have hf2 := (List.mem_filter.mp hf).1
    unfold filas at hf2
    obtain ⟨r0, hr0, heq⟩ := List.mem_map.mp hf2
    refine ⟨r0, List.mem_range.mp hr0, ?_⟩
    rw [← heq, fila_celda c r0 col hcol] at hcel
    injection hcel with hcel
    exact hcel.symm

/-- Fixing a piece leaves each cell as it was or writes the piece's colour. -/
theorem fijar_pieza_valor (c : cubeta_t) (p : piezas_t) (x y : Int) (r col : Nat) :
    (cubeta_fijar_pieza c p x y).matriz r col = c.matriz r col ∨
    (cubeta_fijar_pieza c p x y).matriz r col = int16 p.color := by
  by_cases hw : ∃ i j : Nat, i < p.tamano ∧ j < p.tamano ∧ p.matriz i j ≠ 0 ∧
      y + i = r ∧ x + j = col ∧ r < 17 ∧ col < 10
  · exact Or.inr ((fijar_pieza_celda c p x y r col).1 hw)
  · exact Or.inl ((fijar_pieza_celda c p x y r col).2 hw)

/-- The invariant behind C23: the board holds zeros and catalog colours, and
the two pieces carry catalog colours. -/
theorem juego_invariante_color (s : estado_t) (h : Alcanzable s) :
    (∀ r col, r < CUBETA_ALTO → col < CUBETA_ANCHO →
      s.cubeta.matriz r col = 0 ∨ color_de_pieza (s.cubeta.matriz r col)) ∧
    color_de_pieza (int16 s.piezas_actual.color) ∧
    color_de_pieza (int16 s.piezas_siguiente.color) := by
  induction h with
  | inicio cubeta0 ms rnd1 rnd2 s h =>
    unfold juego_inicio at h
    cases h1 : piezas_inicializar (rnd1 % PIEZAS_NUM_PIEZAS) with
    | none => rw [h1] at h; exact Option.noConfusion h
    | some p1 =>
      cases h2 : piezas_inicializar (rnd2 % PIEZAS_NUM_PIEZAS) with
      | none => rw [h1, h2] at h; exact Option.noConfusion h
      | some p2 =>
        rw [h1, h2] at h
        injection h with h
        subst h
        refine ⟨?_, ⟨_, p1, h1, rfl⟩, ⟨_, p2, h2, rfl⟩⟩
        intro r col hr hcol
        exact Or.inl (inicializar_cubeta_vacia cubeta0 r col hr hcol)
  | tic s _ ih => exact ih
  | iteracion s s' tecla rnd _ hstep ih =>
    obtain ⟨hcub, hact, hsig⟩ := ih
    rcases juego_iteracion_casos s s' tecla rnd hstep with
      ⟨_, _, heq⟩ | ⟨_, _, _, c', n, nueva, hrev, _, hnueva, heq⟩ | ⟨_, _, heq⟩ | ⟨_, _, heq⟩
    · rw [heq]
      exact ⟨hcub, hact, hsig⟩
    · rw [heq]
      refine ⟨?_, hsig, ⟨_, nueva, hnueva, rfl⟩⟩
      intro r col hr hcol
      show c'.matriz r col = 0 ∨ color_de_pieza (c'.matriz r col)
      rcases revisar_filas_celda _ c' n hrev r col hr hcol with hz | ⟨r0, hr0, hv⟩
      · exact Or.inl hz
      · rw [hv]
        rcases fijar_pieza_valor s.cubeta s.piezas_actual s.x_piezas_actual
            s.y_piezas_actual r0 col with hold | hnew
        · rw [hold]
          exact hcub r0 col hr0 hcol
        · rw [hnew]
          exact Or.inr hact
    · rw [heq, (juego_tecla_marco s tecla).1, (juego_tecla_marco s tecla).2.2.1,
        juego_tecla_color]
      exact ⟨hcub, hact, hsig⟩
    · rw [heq]
      exact ⟨hcub, hact, hsig⟩

/-- C23. In every reachable state of the game loop, every board cell is either
zero or the colour tag (as stored in a 16-bit cell) of one of the seven catalog
pieces, which an earlier `cubeta_fijar_pieza` call wrote: the board is all
zeros at game start, fixing a piece writes the colour of the active piece,
which is a catalog colour, and line clearing only moves or zeroes existing
cell values. -/
theorem juego_celdas_color (s : estado_t) (h : Alcanzable s) :
    (∀ r col, r < CUBETA_ALTO → col < CUBETA_ANCHO →
      s.cubeta.matriz r col = 0 ∨
      ∃ k p, piezas_inicializar k = some p ∧ s.cubeta.matriz r col = int16 p.color) ∧
    (∃ k p, piezas_inicializar k = some p ∧
      int16 s.piezas_actual.color = int16 p.color) ∧
    (∀ cubeta0 ms rnd1 rnd2 s0, juego_inicio cubeta0 ms rnd1 rnd2 = some s0 →
      ∀ r col, r < CUBETA_ALTO → col < CUBETA_ANCHO → s0.cubeta.matriz r col = 0) ∧
    (∀ r col, r < CUBETA_ALTO → col < CUBETA_ANCHO →
      (cubeta_fijar_pieza s.cubeta s.piezas_actual s.x_piezas_actual
          s.y_piezas_actual).matriz r col = s.cubeta.matriz r col ∨
      (cubeta_fijar_pieza s.cubeta s.piezas_actual s.x_piezas_actual
          s.y_piezas_actual).matriz r col = int16 s.piezas_actual.color) ∧
    (∀ (c c' : cubeta_t) (n : Nat), cubeta_revisar_filas c = some (c', n) →
      ∀ r col, r < CUBETA_ALTO → col < CUBETA_ANCHO →
        c'.matriz r col = 0 ∨ ∃ r0, r0 < CUBETA_ALTO ∧ c'.matriz r col = c.matriz r0 col) := by
  obtain ⟨hcub, hact, _⟩ := juego_invariante_color s h
  refine ⟨hcub, ?_, ?_, ?_, ?_⟩
  · exact hact
  · intro cubeta0 ms rnd1 rnd2 s0 h0 r col hr hcol
    unfold juego_inicio at h0
    cases h1 : piezas_inicializar (rnd1 % PIEZAS_NUM_PIEZAS) with
    | none => rw [h1] at h0; exact Option.noConfusion h0
    | some p1 =>
      cases h2 : piezas_inicializar (rnd2 % PIEZAS_NUM_PIEZAS) with
      | none => rw [h1, h2] at h0; exact Option.noConfusion h0
      | some p2 =>
        rw [h1, h2] at h0
        injection h0 with h0
        subst h0
        exact inicializar_cubeta_vacia cubeta0 r col hr hcol
  · intro r col _ _
    exact fijar_pieza_valor _ _ _ _ r col
  · intro c c' n hrev r col hr hcol
    exact revisar_filas_celda c c' n hrev r col hr hcol

theorem juego_celdas_color_witness :
    estado_arranque.cubeta.matriz 16 9 = 0 ∨
      ∃ k p, piezas_inicializar k = some p ∧
        estado_arranque.cubeta.matriz 16 9 = int16 p.color :=
  (juego_celdas_color estado_arranque
    (Alcanzable.inicio cubeta_vacia 0 0 6 estado_arranque arranque_ejemplo)).1 16 9
      (by decide) (by decide)

/-- Fixing a piece whose colour is not 0 as a board cell, at a position where
none of its filled in-grid cells lies on an occupied cell, adds one non-zero
cell per filled in-grid cell. -/
theorem fijar_pieza_cuenta_celdas (c : cubeta_t) (p : piezas_t) (x y : Int)
    (hcolor : int16 p.color ≠ 0)
    (hlibre : ∀ i j : Nat, i < p.tamano → j < p.tamano → p.matriz i j ≠ 0 →
      0 ≤ y + (i : Int) → y + (i : Int) < CUBETA_ALTO → 0 ≤ x + (j : Int) →
      x + (j : Int) < CUBETA_ANCHO → c.matriz (y + i).toNat (x + j).toNat = 0) :
    celdas_ocupadas (cubeta_fijar_pieza c p x y) =
      celdas_ocupadas c + celdas_dentro p x y := by
  have hA17 : CUBETA_ALTO = 17 := rfl
  have hA10 : CUBETA_ANCHO = 10 := rfl
  unfold celdas_ocupadas celdas_dentro
  have hA : (Finset.range CUBETA_ALTO ×ˢ Finset.range CUBETA_ANCHO).filter
        (fun rc => (cubeta_fijar_pieza c p x y).matriz rc.1 rc.2 ≠ 0) =
      (Finset.range CUBETA_ALTO ×ˢ Finset.range CUBETA_ANCHO).filter
          (fun rc => c.matriz rc.1 rc.2 ≠ 0) ∪
        ((Finset.range p.tamano ×ˢ Finset.range p.tamano).filter fun ij =>
          p.matriz ij.1 ij.2 ≠ 0 ∧ 0 ≤ y + (ij.1 : Int) ∧ y + (ij.1 : Int) < CUBETA_ALTO ∧
            0 ≤ x + (ij.2 : Int) ∧ x + (ij.2 : Int) < CUBETA_ANCHO).image
          (fun ij => ((y + (ij.1 : Int)).toNat, (x + (ij.2 : Int)).toNat)) := by
    ext ⟨r, col⟩
    simp only [Finset.mem_filter, Finset.mem_union, Finset.mem_image, Finset.mem_product,
      Finset.mem_range, Prod.mk.injEq, Prod.exists]
    constructor
    · rintro ⟨⟨hr, hcol⟩, hne⟩
      by_cases hw : ∃ i j : Nat, i < p.tamano ∧ j < p.tamano ∧ p.matriz i j ≠ 0 ∧
          y + i = r ∧ x + j = col ∧ r < 17 ∧ col < 10
      · right
        obtain ⟨i, j, hi, hj, hm, hyr, hxc, _, _⟩ := hw
        exact ⟨i, j, ⟨⟨hi, hj⟩, hm, by omega, by omega, by omega, by omega⟩,
          by omega, by omega⟩
      · left
        rw [(fijar_pieza_celda c p x y r col).2 hw] at hne
        exact ⟨⟨hr, hcol⟩, hne⟩
    · rintro (⟨⟨hr, hcol⟩, hne⟩ | ⟨i, j, ⟨⟨hi, hj⟩, hm, h1, h2, h3, h4⟩, hfr, hfc⟩)
      · refine ⟨⟨hr, hcol⟩, ?_⟩
        by_cases hw : ∃ i j : Nat, i < p.tamano ∧ j < p.tamano ∧ p.matriz i j ≠ 0 ∧
            y + i = r ∧ x + j = col ∧ r < 17 ∧ col < 10
        · rw [(fijar_pieza_celda c p x y r col).1 hw]
          exact hcolor
        · rw [(fijar_pieza_celda c p x y r col).2 hw]
          exact hne
      · have hw : ∃ i j : Nat, i < p.tamano ∧ j < p.tamano ∧ p.matriz i j ≠ 0 ∧
            y + i = r ∧ x + j = col ∧ r < 17 ∧ col < 10 :=
          ⟨i, j, hi, hj, hm, by omega, by omega, by omega, by omega⟩
        refine ⟨⟨by omega, by omega⟩, ?_⟩
        rw [(fijar_pieza_celda c p x y r col).1 hw]
        exact hcolor
  have hdisj : Disjoint
      ((Finset.range CUBETA_ALTO ×ˢ Finset.range CUBETA_ANCHO).filter
        (fun rc => c.matriz rc.1 rc.2 ≠ 0))
      (((Finset.range p.tamano ×ˢ Finset.range p.tamano).filter fun ij =>
          p.matriz ij.1 ij.2 ≠ 0 ∧ 0 ≤ y + (ij.1 : Int) ∧ y + (ij.1 : Int) < CUBETA_ALTO ∧
            0 ≤ x + (ij.2 : Int) ∧ x + (ij.2 : Int) < CUBETA_ANCHO).image
          (fun ij => ((y + (ij.1 : Int)).toNat, (x + (ij.2 : Int)).toNat))) := by
    rw [Finset.disjoint_left]
    rintro ⟨r, col⟩ hB hW
    simp only [Finset.mem_filter, Finset.mem_image, Finset.mem_product, Finset.mem_range,
      Prod.mk.injEq, Prod.exists] at hB hW
    obtain ⟨i, j, ⟨⟨hi, hj⟩, hm, h1, h2, h3, h4⟩, hfr, hfc⟩ := hW
    have hz := hlibre i j hi hj hm h1 h2 h3 h4
    rw [hfr, hfc] at hz
    exact hB.2 hz
  have hinj : Set.InjOn (fun ij : Nat × Nat => ((y + (ij.1 : Int)).toNat, (x + (ij.2 : Int)).toNat))
      (((Finset.range p.tamano ×ˢ Finset.range p.tamano).filter fun ij =>
          p.matriz ij.1 ij.2 ≠ 0 ∧ 0 ≤ y + (ij.1 : Int) ∧ y + (ij.1 : Int) < CUBETA_ALTO ∧
            0 ≤ x + (ij.2 : Int) ∧ x + (ij.2 : Int) < CUBETA_ANCHO) : Finset (Nat × Nat)) := by
    rintro ⟨i, j⟩ h1 ⟨i', j'⟩ h2 heq
    simp only [Finset.coe_filter, Finset.mem_product, Finset.mem_range, Set.mem_setOf_eq] at h1 h2
    simp only [Prod.mk.injEq] at heq ⊢
    omega
  rw [hA, Finset.card_union_of_disjoint hdisj, Finset.card_image_of_injOn hinj]

theorem piezas_rotar_marco (p : piezas_t) (sentido : Nat) :
    (piezas_rotar p sentido).color = p.color ∧ (piezas_rotar p sentido).tamano = p.tamano ∧
    (piezas_rotar p sentido).tipo = p.tipo :=
  ⟨rfl, rfl, rfl⟩

theorem giros_marco (giros : List Nat) (p : piezas_t) :
    (giros.foldl piezas_rotar p).color = p.color ∧
    (giros.foldl piezas_rotar p).tamano = p.tamano := by
  induction giros generalizing p with
  | nil => exact ⟨rfl, rfl⟩
  | cons g resto ih =>
    rw [List.foldl_cons]
    obtain ⟨a, b⟩ := ih (piezas_rotar p g)
    exact ⟨a.trans (piezas_rotar_marco p g).1, b.trans (piezas_rotar_marco p g).2.1⟩

theorem catalogo_color (k : Nat) (p : piezas_t) (h : piezas_inicializar k = some p) :
    int16 p.color ≠ 0 := by
  rcases inicializar_casos k p h with h1 | h1 | h1 | h1 | h1 | h1 | h1 <;>
    rw [h1.2] <;> decide

theorem piezas_rotar_caja (p : piezas_t) (sentido : Nat)
    (h : ∀ i j, ¬(i < p.tamano ∧ j < p.tamano) → p.matriz i j = 0) (i j : Nat)
    (hij : ¬(i < (piezas_rotar p sentido).tamano ∧ j < (piezas_rotar p sentido).tamano)) :
    (piezas_rotar p sentido).matriz i j = 0 := by
  have hij2 : ¬(i < p.tamano ∧ j < p.tamano) := hij
  by_cases hs : sentido = DERECHA
  · subst hs
    rw [piezas_rotar_derecha]
    simp only [if_neg hij2]
    exact h i j hij2
  · rw [piezas_rotar_izquierda p sentido hs]
    simp only [if_neg hij2]
    exact h i j hij2

theorem giros_caja (giros : List Nat) (p : piezas_t)
    (h : ∀ i j, ¬(i < p.tamano ∧ j < p.tamano) → p.matriz i j = 0) (i j : Nat)
    (hij : ¬(i < (giros.foldl piezas_rotar p).tamano ∧ j < (giros.foldl piezas_rotar p).tamano)) :
    (giros.foldl piezas_rotar p).matriz i j = 0 := by
  induction giros generalizing p with
  | nil => exact h i j hij
  | cons g resto ih =>
    rw [List.foldl_cons] at hij ⊢
    exact ih (piezas_rotar p g) (piezas_rotar_caja p g h) hij

/-- C22. For every board, every catalog piece in any rotation (any sequence
`giros` of right and left rotations of the piece `piezas_inicializar` gives)
and every position (x, y) at which no in-grid filled cell of the piece lies on
an occupied board cell, `cubeta_fijar_pieza` increases the number of non-zero
board cells by exactly the number of filled piece cells whose absolute
position is inside the 17 x 10 grid (the piece has no filled cell outside its
`tamano` x `tamano` box, which `celdas_dentro` runs over). -/
theorem fijar_pieza_cuenta (c : cubeta_t) (k : Nat) (p0 : piezas_t) (giros : List Nat)
    (x y : Int) (hk : piezas_inicializar k = some p0)
    (hlibre : ∀ i j : Nat, i < (giros.foldl piezas_rotar p0).tamano →
      j < (giros.foldl piezas_rotar p0).tamano →
      (giros.foldl piezas_rotar p0).matriz i j ≠ 0 →
      0 ≤ y + (i : Int) → y + (i : Int) < CUBETA_ALTO → 0 ≤ x + (j : Int) →
      x + (j : Int) < CUBETA_ANCHO → c.matriz (y + i).toNat (x + j).toNat = 0) :
    celdas_ocupadas (cubeta_fijar_pieza c (giros.foldl piezas_rotar p0) x y) =
      celdas_ocupadas c + celdas_dentro (giros.foldl piezas_rotar p0) x y ∧
    (∀ i j, ¬(i < (giros.foldl piezas_rotar p0).tamano ∧
        j < (giros.foldl piezas_rotar p0).tamano) →
      (giros.foldl piezas_rotar p0).matriz i j = 0) ∧
    (giros.foldl piezas_rotar p0).tamano ≤ 4 := by
  have hcolor : int16 (giros.foldl piezas_rotar p0).color ≠ 0 := by
    rw [(giros_marco giros p0).1]
    exact catalogo_color k p0 hk
  have htam : (giros.foldl piezas_rotar p0).tamano ≤ 4 := by
    rw [(giros_marco giros p0).2]
    have := inicializar_tamano k p0 hk
    omega
  exact ⟨fijar_pieza_cuenta_celdas c _ x y hcolor hlibre,
    giros_caja giros p0 (catalogo_caja k p0 hk), htam⟩

set_option maxRecDepth 100000 in
theorem fijar_pieza_cuenta_witness :
    celdas_ocupadas (cubeta_fijar_pieza cubeta_cuatro piezas_palo 8 13) =
        celdas_ocupadas cubeta_cuatro + celdas_dentro piezas_palo 8 13 ∧
      celdas_dentro piezas_palo 8 13 = 4 ∧ celdas_dentro piezas_palo 8 15 = 2 := by
  refine ⟨(fijar_pieza_cuenta cubeta_cuatro PIEZAS_PALO piezas_palo [] 8 13 rfl ?_).1,
    by decide, by decide⟩
  intro i j hi hj hm _ _ _ _
  have hi4 : i < 4 := hi
  have hj4 : j < 4 := hj
  have hj1 : j = 1 := by
    by_contra hne
    apply hm
    show piezas_palo.matriz i j = 0
    interval_cases i <;> interval_cases j <;> first | rfl | exact absurd rfl hne
  subst hj1
  show (if 13 ≤ (13 + (i : Int)).toNat ∧ (13 + (i : Int)).toNat < 17 ∧
      (8 + ((1 : Nat) : Int)).toNat < 9 then (31 : Int) else 0) = 0
  rw [if_neg]
  intro hc
  omega

theorem mem_pares (n i j : Nat) : (i, j) ∈ pares n ↔ i < n ∧ j < n := by
  unfold pares
  simp only [List.mem_flatMap, List.mem_map, List.mem_range, Prod.mk.injEq]
  constructor
  · rintro ⟨a, ha, b, hb, h1, h2⟩
    omega
  · rintro ⟨hi, hj⟩
    exact ⟨i, hi, j, hj, rfl, rfl⟩

theorem mem_recorrer_pares (paso : Nat → Nat → List acceso_t × Bool) (l : List (Nat × Nat))
    (a : acceso_t) (h : a ∈ recorrer_pares paso l) :
    ∃ ij, ij ∈ l ∧ a ∈ (paso ij.1 ij.2).1 := by
  induction l with
  | nil => exact absurd h (List.not_mem_nil a)
  | cons ij resto ih =>
    unfold recorrer_pares at h
    rcases List.mem_append.mp h with h1 | h2
    · exact ⟨ij, List.mem_cons_self _ _, h1⟩
    · by_cases hret : (paso ij.1 ij.2).2 = true
      · rw [if_pos hret] at h2
        exact absurd h2 (List.not_mem_nil a)
      · rw [if_neg hret] at h2
        obtain ⟨ij2, hmem, ha⟩ := ih h2
        exact ⟨ij2, List.mem_cons_of_mem _ hmem, ha⟩

/-- The trace of `cubeta_hay_interseccion` follows the same loop body as the
value: the function returns `TRUE` exactly when some pass returns. -/
theorem cubeta_hay_interseccion_paso_valor (c : cubeta_t) (p : piezas_t) (x y : Int) :
    cubeta_hay_interseccion c p x y =
      (List.range p.tamano).any fun i =>
        (List.range p.tamano).any fun j => (cubeta_hay_interseccion_paso c p x y i j).2 :=
  rfl

theorem cubeta_hay_desbordamiento_paso_valor (c : cubeta_t) (p : piezas_t) (y : Int) :
    cubeta_hay_desbordamiento c p y =
      (List.range p.tamano).any fun i =>
        (List.range p.tamano).any fun j => (cubeta_hay_desbordamiento_paso p y i j).2 :=
  rfl

theorem fijar_pieza_accesos_validos (p : piezas_t) (x y : Int) (hp : p.tamano ≤ 4)
    (a : acceso_t) (h : a ∈ cubeta_fijar_pieza_accesos p x y) : acceso_valido a = true := by
  obtain ⟨⟨i, j⟩, hij, ha⟩ := mem_recorrer_pares _ _ a h
  rw [mem_pares] at hij
  unfold cubeta_fijar_pieza_paso at ha
  have h17 : CUBETA_ALTO = 17 := rfl
  have h10 : CUBETA_ANCHO = 10 := rfl
  have h4 : PIEZAS_TAM_MATRIZ = 4 := rfl
  split_ifs at ha with hg hm
  · simp only [List.cons_append, List.nil_append, List.mem_cons, List.mem_singleton,
      List.not_mem_nil, or_false] at ha
    rcases ha with ha | ha <;> subst ha <;> simp only [acceso_valido, decide_eq_true_eq] <;>
      omega
  · simp only [List.append_nil, List.mem_singleton] at ha
    subst ha
    simp only [acceso_valido, decide_eq_true_eq]
    omega
  · exact absurd ha (List.not_mem_nil a)

theorem hay_interseccion_accesos_validos (c : cubeta_t) (p : piezas_t) (x y : Int)
    (hp : p.tamano ≤ 4) (a : acceso_t) (h : a ∈ cubeta_hay_interseccion_accesos c p x y) :
    acceso_valido a = true := by
  obtain ⟨⟨i, j⟩, hij, ha⟩ := mem_recorrer_pares _ _ a h
  rw [mem_pares] at hij
  unfold cubeta_hay_interseccion_paso at ha
  have h17 : CUBETA_ALTO = 17 := rfl
  have h10 : CUBETA_ANCHO = 10 := rfl
  have h4 : PIEZAS_TAM_MATRIZ = 4 := rfl
  simp only at ha
  split_ifs at ha with hg
  · simp only [List.cons_append, List.nil_append, List.mem_cons, List.mem_singleton,
      List.not_mem_nil, or_false] at ha
    rcases ha with ha | ha <;> subst ha <;> simp only [acceso_valido, decide_eq_true_eq] <;>
      omega
  · simp only [List.append_nil, List.mem_singleton] at ha
    subst ha
    simp only [acceso_valido, decide_eq_true_eq]
    omega

theorem hay_desbordamiento_accesos_validos (p : piezas_t) (y : Int) (hp : p.tamano ≤ 4)
    (a : acceso_t) (h : a ∈ cubeta_hay_desbordamiento_accesos p y) :
    acceso_valido a = true := by
  obtain ⟨⟨i, j⟩, hij, ha⟩ := mem_recorrer_pares _ _ a h
  rw [mem_pares] at hij
  unfold cubeta_hay_desbordamiento_paso at ha
  have h4 : PIEZAS_TAM_MATRIZ = 4 := rfl
  simp only [List.mem_singleton] at ha
  subst ha
  simp only [acceso_valido, decide_eq_true_eq]
  omega

theorem piezas_rotar_accesos_validos (p : piezas_t) (sentido : Nat) (hp : p.tamano ≤ 4)
    (a : acceso_t) (h : a ∈ piezas_rotar_accesos p sentido) : acceso_valido a = true := by
  have h4 : PIEZAS_TAM_MATRIZ = 4 := rfl
  unfold piezas_rotar_accesos at h
  rcases List.mem_append.mp h with h1 | h2
  · obtain ⟨⟨i, j⟩, hij, ha⟩ := mem_recorrer_pares _ _ a h1
    rw [mem_pares] at hij
    simp only at ha
    split_ifs at ha <;>
      simp only [List.mem_cons, List.mem_singleton, List.not_mem_nil, or_false] at ha <;>
      rcases ha with ha | ha <;> subst ha <;>
      simp only [acceso_valido, decide_eq_true_eq] <;> omega
  · obtain ⟨⟨i, j⟩, hij, ha⟩ := mem_recorrer_pares _ _ a h2
    rw [mem_pares] at hij
    simp only [List.mem_cons, List.mem_singleton, List.not_mem_nil, or_false] at ha
    rcases ha with ha | ha <;> subst ha <;>
      simp only [acceso_valido, decide_eq_true_eq] <;> omega

theorem eliminar_fila_rango (c : cubeta_t) (i : Nat) (hi : i < CUBETA_ALTO) :
    0 ≤ int16 i ∧ int16 i < CUBETA_ALTO ∧ ∃ c', cubeta_eliminar_fila c (int16 i) = some c' := by
  have h17 : CUBETA_ALTO = 17 := rfl
  have hi16 : int16 i = i := int16_nat i (by omega)
  rw [hi16]
  refine ⟨by omega, by omega, ?_⟩
  unfold cubeta_eliminar_fila
  rw [if_pos ⟨by omega, by omega⟩]
  exact ⟨_, rfl⟩

theorem juego_iteracion_no_detenido (s : estado_t) (tecla_pulsada rnd : Nat) :
    juego_iteracion s tecla_pulsada rnd ≠ resultado_t.detenido := by
  intro hdet
  unfold juego_iteracion at hdet
  by_cases htick : s.contador_ms ≥ s.tiempo_paso
  · rw [if_pos htick] at hdet
    by_cases hcol : cubeta_hay_interseccion s.cubeta s.piezas_actual s.x_piezas_actual
        (int16 (s.y_piezas_actual + 1)) = true
    · simp only [hcol, if_true] at hdet
      by_cases hover : cubeta_hay_desbordamiento s.cubeta s.piezas_actual
          s.y_piezas_actual = true
      · simp only [hover, if_true] at hdet
        exact resultado_t.noConfusion hdet
      · simp only [hover] at hdet
        obtain ⟨c', n, nueva, _, _, _, heq⟩ := juego_fijar_eq { s with contador_ms := 0 } rnd
        rw [heq] at hdet
        exact resultado_t.noConfusion hdet
    · simp only [hcol] at hdet
      exact resultado_t.noConfusion hdet
  · rw [if_neg htick] at hdet
    by_cases hk : tecla_pulsada ≠ JOYSTICK_NADA
    · rw [if_pos hk] at hdet
      exact resultado_t.noConfusion hdet
    · rw [if_neg hk] at hdet
      exact resultado_t.noConfusion hdet

theorem juego_inicio_total (cubeta0 : cubeta_t) (ms rnd1 rnd2 : Nat) :
    ∃ s, juego_inicio cubeta0 ms rnd1 rnd2 = some s := by
  obtain ⟨p1, h1⟩ := inicializar_resto rnd1
  obtain ⟨p2, h2⟩ := inicializar_resto rnd2
  unfold juego_inicio
  rw [h1, h2]
  exact ⟨_, rfl⟩

/-- C27. No precondition violation is reachable in the Tetris core: every
call of `piezas_inicializar` in `juego` receives one of the seven kinds, every
call of `cubeta_eliminar_fila` made by `cubeta_revisar_filas` has
0 <= fila < 17, and for every piece with tamano <= 4 and every position (x, y)
the functions `cubeta_fijar_pieza`, `cubeta_hay_interseccion`,
`cubeta_hay_desbordamiento` and `piezas_rotar` index the 17 x 10 board and the
4 x 4 matrices only inside their bounds (the pieces of every reachable state
have tamano <= 4); so `juego` starts and no loop pass stops on an `ASSERT` or
`ERROR`. -/
theorem nucleo_sin_paradas (c : cubeta_t) (p : piezas_t) (x y : Int) (sentido : Nat)
    (hp : p.tamano ≤ 4) :
    (∀ a, a ∈ cubeta_fijar_pieza_accesos p x y → acceso_valido a = true) ∧
    (∀ a, a ∈ cubeta_hay_interseccion_accesos c p x y → acceso_valido a = true) ∧
    (∀ a, a ∈ cubeta_hay_desbordamiento_accesos p y → acceso_valido a = true) ∧
    (∀ a, a ∈ piezas_rotar_accesos p sentido → acceso_valido a = true) ∧
    (∀ rnd, rnd % PIEZAS_NUM_PIEZAS < 7 ∧
      ∃ q, piezas_inicializar (rnd % PIEZAS_NUM_PIEZAS) = some q) ∧
    ((∃ c' n, cubeta_revisar_filas c = some (c', n)) ∧
      ∀ (c0 : cubeta_t) (i : Nat), i < CUBETA_ALTO →
        0 ≤ int16 i ∧ int16 i < CUBETA_ALTO ∧
          ∃ c', cubeta_eliminar_fila c0 (int16 i) = some c') ∧
    (∀ cubeta0 ms rnd1 rnd2, ∃ s, juego_inicio cubeta0 ms rnd1 rnd2 = some s) ∧
    (∀ s tecla_pulsada rnd, juego_iteracion s tecla_pulsada rnd ≠ resultado_t.detenido) ∧
    (∀ s, Alcanzable s → s.piezas_actual.tamano ≤ 4 ∧ s.piezas_siguiente.tamano ≤ 4) := by
  refine ⟨fijar_pieza_accesos_validos p x y hp, hay_interseccion_accesos_validos c p x y hp,
    hay_desbordamiento_accesos_validos p y hp, piezas_rotar_accesos_validos p sentido hp,
    ?_, ⟨?_, fun c0 i hi => eliminar_fila_rango c0 i hi⟩, juego_inicio_total,
    juego_iteracion_no_detenido, ?_⟩
  · intro rnd
    exact ⟨Nat.mod_lt _ (by decide), inicializar_resto rnd⟩
  · obtain ⟨c', h1, _⟩ := revisar_filas_eq c
    exact ⟨c', _, h1⟩
  · intro s hs
    obtain ⟨_, h1, h2, _⟩ := juego_invariante_nivel s hs
    exact ⟨h1, h2⟩

set_option maxRecDepth 100000 in
theorem nucleo_sin_paradas_witness :
    (∀ a, a ∈ cubeta_fijar_pieza_accesos piezas_te (-1) 16 → acceso_valido a = true) ∧
      cubeta_fijar_pieza_accesos piezas_te (-1) 16 =
        [acceso_t.pieza 0 1, acceso_t.cubeta 16 0, acceso_t.pieza 0 2] :=
  ⟨(nucleo_sin_paradas cubeta_vacia piezas_te (-1) 16 DERECHA (by decide)).1, rfl⟩

/-- C21. Spawn placement: `juego` starts, and every lock of a reachable state
comes back to the loop, with the newly active piece of size s placed at
x = (10 + s - 4) / 2 and y = -s.  For every catalog piece this puts all filled
cells at row indices below 0 and at columns inside [0, 10), so on any board the
freshly spawned piece does not collide and does overflow the top. -/
theorem juego_aparicion :
    (∀ cubeta0 ms rnd1 rnd2, ∃ s p,
      piezas_inicializar (rnd1 % PIEZAS_NUM_PIEZAS) = some p ∧
      juego_inicio cubeta0 ms rnd1 rnd2 = some s ∧ s.piezas_actual = p ∧
      s.x_piezas_actual = (10 + (p.tamano : Int) - 4) / 2 ∧
      s.y_piezas_actual = -(p.tamano : Int)) ∧
    (∀ s tecla_pulsada rnd, s.piezas_siguiente.tamano ≤ 4 →
      s.contador_ms ≥ s.tiempo_paso →
      cubeta_hay_interseccion s.cubeta s.piezas_actual s.x_piezas_actual
        (int16 (s.y_piezas_actual + 1)) = true →
      cubeta_hay_desbordamiento s.cubeta s.piezas_actual s.y_piezas_actual = false →
      ∃ s', juego_iteracion s tecla_pulsada rnd = resultado_t.continua s' ∧
        s'.piezas_actual = s.piezas_siguiente ∧
        s'.x_piezas_actual = (10 + (s.piezas_siguiente.tamano : Int) - 4) / 2 ∧
        s'.y_piezas_actual = -(s.piezas_siguiente.tamano : Int)) ∧
    (∀ s, Alcanzable s → s.piezas_actual.tamano ≤ 4 ∧ s.piezas_siguiente.tamano ≤ 4) ∧
    (∀ k, k < PIEZAS_NUM_PIEZAS → ∃ p, piezas_inicializar k = some p ∧
      (∀ i j : Nat, p.matriz i j ≠ 0 →
        -(p.tamano : Int) + i < 0 ∧ 0 ≤ (10 + (p.tamano : Int) - 4) / 2 + j ∧
          (10 + (p.tamano : Int) - 4) / 2 + j < 10) ∧
      ∀ c : cubeta_t,
        cubeta_hay_interseccion c p ((10 + (p.tamano : Int) - 4) / 2)
          (-(p.tamano : Int)) = false ∧
        cubeta_hay_desbordamiento c p (-(p.tamano : Int)) = true) := by
  refine ⟨?_, ?_, ?_, ?_⟩
  · intro cubeta0 ms rnd1 rnd2
    obtain ⟨p1, h1⟩ := inicializar_resto rnd1
    obtain ⟨p2, h2⟩ := inicializar_resto rnd2
    have ht : p1.tamano ≤ 4 := by
      have := inicializar_tamano _ p1 h1
      omega
    cases hres : juego_inicio cubeta0 ms rnd1 rnd2 with
    | none =>
      unfold juego_inicio at hres
      rw [h1, h2] at hres
      exact Option.noConfusion hres
    | some s =>
      refine ⟨s, p1, h1, rfl, ?_⟩
      unfold juego_inicio at hres
      rw [h1, h2] at hres
      injection hres with hres
      subst hres
      exact ⟨rfl, (aparicion_int16 p1.tamano ht).1, (aparicion_int16 p1.tamano ht).2⟩
  · intro s tecla_pulsada rnd ht htick hcol hover
    obtain ⟨c0, n0, s', _, hstep, _⟩ :=
      juego_iteracion_fijar_campos s tecla_pulsada rnd htick hcol hover
    refine ⟨s', hstep, ?_⟩
    rcases juego_iteracion_casos s s' tecla_pulsada rnd hstep with
      ⟨_, hno, _⟩ | ⟨_, _, _, c', n, nueva, _, _, _, heq⟩ | ⟨hlt, _, _⟩ | ⟨hlt, _, _⟩
    · rw [hcol] at hno
      exact Bool.noConfusion hno
    · rw [heq]
      exact ⟨rfl, (aparicion_int16 _ ht).1, (aparicion_int16 _ ht).2⟩
    · omega
    · omega
  · intro s hs
    obtain ⟨_, h1, h2, _⟩ := juego_invariante_nivel s hs
    exact ⟨h1, h2⟩
  · intro k hk
    obtain ⟨p, h⟩ := inicializar_resto k
    rw [Nat.mod_eq_of_lt hk] at h
    refine ⟨p, h, aparicion_celdas k p h, ?_⟩
    intro c
    have ht : p.tamano ≤ 4 := by
      have := inicializar_tamano k p h
      omega
    have h1 := aparicion_sin_interseccion c p ht
    rw [(aparicion_int16 p.tamano ht).1, (aparicion_int16 p.tamano ht).2] at h1
    exact ⟨h1, aparicion_desborda k p h c⟩

set_option maxRecDepth 100000 in
theorem juego_aparicion_witness :
    (∃ s, juego_inicio cubeta_vacia 0 0 6 = some s ∧ s.piezas_actual = piezas_palo ∧
      s.x_piezas_actual = 5 ∧ s.y_piezas_actual = -4) ∧
    (∃ s', juego_iteracion estado_cuatro JOYSTICK_NADA 6 = resultado_t.continua s' ∧
      s'.piezas_actual = piezas_te ∧ s'.x_piezas_actual = 4 ∧ s'.y_piezas_actual = -3) := by
  constructor
  · obtain ⟨s, p, h1, h2, h3, h4, h5⟩ := juego_aparicion.1 cubeta_vacia 0 0 6
    have hp : p = piezas_palo := by
      have h6 : piezas_inicializar (0 % PIEZAS_NUM_PIEZAS) = some piezas_palo := rfl
      rw [h6] at h1
      injection h1 with h1
      exact h1.symm
    subst hp
    exact ⟨s, h2, h3, h4.trans (by decide), h5.trans (by decide)⟩
  · obtain ⟨s', h1, h2, h3, h4⟩ :=
      juego_aparicion.2.1 estado_cuatro JOYSTICK_NADA 6 (by decide) (by decide) (by decide)
        (by decide)
    exact ⟨s', h1, h2, h3.trans (by decide), h4.trans (by decide)⟩

/-! ## Building runs -/

theorem int16_rango (v : Int) (h : -32768 ≤ v ∧ v ≤ 32767) : int16 v = v := by
  unfold int16
  omega

theorem tics_contador (n : Nat) (s : estado_t) (h : s.contador_ms + n < 4294967296) :
    Nat.iterate TIMER0_IRQHandler n s = { s with contador_ms := s.contador_ms + n } := by
  induction n generalizing s with
  | zero => rfl
  | succ n ih =>
    have h1 : uint32 ((s.contador_ms : Int) + 1) = s.contador_ms + 1 := by
      unfold uint32
      omega
    have h2 : (TIMER0_IRQHandler s).contador_ms = s.contador_ms + 1 := h1
    rw [Function.iterate_succ, Function.comp, ih (TIMER0_IRQHandler s) (by rw [h2]; omega)]
    rw [h2]
    have h3 : s.contador_ms + 1 + n = s.contador_ms + (n + 1) := by omega
    rw [h3]
    rfl

theorem alcanzable_tics (n : Nat) (s : estado_t) (h : Alcanzable s) :
    Alcanzable (Nat.iterate TIMER0_IRQHandler n s) := by
  induction n generalizing s with
  | zero => exact h
  | succ n ih =>
    rw [Function.iterate_succ, Function.comp]
    exact ih (TIMER0_IRQHandler s) (Alcanzable.tic s h)

/-- From a reachable state the millisecond ticks bring `contador_ms` up to the
gravity period. -/
theorem alcanzable_tic_debido (s : estado_t) (h : Alcanzable s)
    (ht : s.contador_ms ≤ s.tiempo_paso) (hp : s.tiempo_paso < 4294967296) :
    Alcanzable { s with contador_ms := s.tiempo_paso } := by
  have h1 := alcanzable_tics (s.tiempo_paso - s.contador_ms) s h
  rw [tics_contador _ s (by omega)] at h1
  have h2 : s.contador_ms + (s.tiempo_paso - s.contador_ms) = s.tiempo_paso := by omega
  rw [h2] at h1
  exact h1

/-- One gravity step from a reachable state. -/
theorem alcanzable_gravedad (s : estado_t) (h : Alcanzable s)
    (ht : s.contador_ms ≤ s.tiempo_paso) (hp : s.tiempo_paso < 4294967296)
    (hno : cubeta_hay_interseccion s.cubeta s.piezas_actual s.x_piezas_actual
      (int16 (s.y_piezas_actual + 1)) = false) :
    Alcanzable { s with contador_ms := 0, y_piezas_actual := int16 (s.y_piezas_actual + 1) } :=
  Alcanzable.iteracion { s with contador_ms := s.tiempo_paso } _ JOYSTICK_NADA 0
    (alcanzable_tic_debido s h ht hp)
    (juego_iteracion_gravedad { s with contador_ms := s.tiempo_paso } JOYSTICK_NADA 0
      (Nat.le_refl _) hno)

/-- The piece falls `k + 1` rows when no position on the way collides. -/
theorem alcanzable_caer (k : Nat) (s : estado_t) (h : Alcanzable s)
    (ht : s.contador_ms ≤ s.tiempo_paso) (hp : s.tiempo_paso < 4294967296)
    (hr : -32768 ≤ s.y_piezas_actual ∧ s.y_piezas_actual + (k + 1 : Nat) ≤ 32767)
    (hno : ∀ m, m < k + 1 → cubeta_hay_interseccion s.cubeta s.piezas_actual
      s.x_piezas_actual (s.y_piezas_actual + (m : Int) + 1) = false) :
    Alcanzable { s with contador_ms := 0,
                        y_piezas_actual := s.y_piezas_actual + ((k + 1 : Nat) : Int) } := by
  induction k with
  | zero =>
    have h0 := hno 0 (by omega)
    have e : int16 (s.y_piezas_actual + 1) = s.y_piezas_actual + ((0 + 1 : Nat) : Int) := by
      rw [int16_rango _ (by omega)]
      rfl
    have h1 := alcanzable_gravedad s h ht hp (by
      rw [int16_rango _ (by omega)]
      simpa using h0)
    rw [e] at h1
    exact h1
  | succ k ih =>
    have hk := ih (by omega) (fun m hm => hno m (by omega))
    have hlast := hno (k + 1) (by omega)
    have e : int16 (s.y_piezas_actual + ((k + 1 : Nat) : Int) + 1) =
        s.y_piezas_actual + ((k + 1 + 1 : Nat) : Int) := by
      rw [int16_rango _ (by omega)]
      push_cast
      ring
    have h1 := alcanzable_gravedad
      { s with contador_ms := 0,
               y_piezas_actual := s.y_piezas_actual + ((k + 1 : Nat) : Int) } hk
      (Nat.zero_le _) hp (by
        rw [e]
        have e2 : s.y_piezas_actual + ((k + 1 + 1 : Nat) : Int) =
            s.y_piezas_actual + ((k + 1 : Nat) : Int) + 1 := by
          push_cast
          ring
        rw [e2]
        exact hlast)
    rw [e] at h1
    exact h1

/-- A Left press from a reachable state in which the tick is not due and the
position on the left is free. -/
theorem alcanzable_izquierda (s : estado_t) (h : Alcanzable s)
    (ht : s.contador_ms < s.tiempo_paso)
    (hno : cubeta_hay_interseccion s.cubeta s.piezas_actual (int16 (s.x_piezas_actual - 1))
      s.y_piezas_actual = false) :
    Alcanzable { s with tiempo_paso := s.temp_tiempo_paso,
                        x_piezas_actual := int16 (s.x_piezas_actual - 1) } := by
  apply Alcanzable.iteracion s _ JOYSTICK_IZQUIERDA 0 h
  rw [juego_iteracion_sin_tic s JOYSTICK_IZQUIERDA 0 ht, if_pos (by decide),
    juego_tecla_izquierda, hno]
  rfl

/-- The piece moves `k + 1` columns to the left when no position on the way
collides. -/
theorem alcanzable_izquierdas (k : Nat) (s : estado_t) (h : Alcanzable s)
    (ht : s.contador_ms < s.tiempo_paso) (ht2 : s.contador_ms < s.temp_tiempo_paso)
    (hr : -32768 ≤ s.x_piezas_actual - ((k + 1 : Nat) : Int) ∧ s.x_piezas_actual ≤ 32767)
    (hno : ∀ m, m < k + 1 → cubeta_hay_interseccion s.cubeta s.piezas_actual
      (s.x_piezas_actual - (m : Int) - 1) s.y_piezas_actual = false) :
    Alcanzable { s with tiempo_paso := s.temp_tiempo_paso,
                        x_piezas_actual := s.x_piezas_actual - ((k + 1 : Nat) : Int) } := by
  induction k with
  | zero =>
    have h0 := hno 0 (by omega)
    have e : int16 (s.x_piezas_actual - 1) = s.x_piezas_actual - ((0 + 1 : Nat) : Int) := by
      rw [int16_rango _ (by omega)]
      rfl
    have h1 := alcanzable_izquierda s h ht (by
      rw [int16_rango _ (by omega)]
      simpa using h0)
    rw [e] at h1
    exact h1
  | succ k ih =>
    have hk := ih (by omega) (fun m hm => hno m (by omega))
    have hlast := hno (k + 1) (by omega)
    have e : int16 (s.x_piezas_actual - ((k + 1 : Nat) : Int) - 1) =
        s.x_piezas_actual - ((k + 1 + 1 : Nat) : Int) := by
      rw [int16_rango _ (by omega)]
      push_cast
      ring
    have h1 := alcanzable_izquierda
      { s with tiempo_paso := s.temp_tiempo_paso,
               x_piezas_actual := s.x_piezas_actual - ((k + 1 : Nat) : Int) } hk ht2 (by
        rw [e]
        have e2 : s.x_piezas_actual - ((k + 1 + 1 : Nat) : Int) =
            s.x_piezas_actual - ((k + 1 : Nat) : Int) - 1 := by
          push_cast
          ring
        rw [e2]
        exact hlast)
    rw [e] at h1
    exact h1

/-- On a board without full rows `cubeta_revisar_filas` changes nothing and
returns 0. -/
theorem revisar_filas_nada (c : cubeta_t)
    (hc : ∀ r, r < CUBETA_ALTO → ∃ col, col < CUBETA_ANCHO ∧ c.matriz r col = 0) :
    cubeta_revisar_filas c = some (c, 0) := by
  have hfold : ∀ n, n ≤ CUBETA_ALTO →
      (List.range n).foldl revisar_fila (some (c, 0)) = some (c, 0) := by
    intro n
    induction n with
    | zero => intro _; rfl
    | succ n ih =>
      intro hn
      rw [foldl_range_succ, ih (by omega)]
      unfold revisar_fila
      have hne : ¬primera_vacia c n = CUBETA_ANCHO := by
        rw [primera_vacia_iff, fila_llena_iff]
        intro hfull
        obtain ⟨col, hcol, hz⟩ := hc n (by omega)
        exact hfull col hcol hz
      simp only [if_neg hne]
  unfold cubeta_revisar_filas
  rw [hfold CUBETA_ALTO (Nat.le_refl _)]
  rfl

/-- A lock that completes no row, from a reachable state. -/
theorem alcanzable_fijar (s : estado_t) (h : Alcanzable s)
    (ht : s.contador_ms ≤ s.tiempo_paso) (hp : s.tiempo_paso < 4294967296)
    (hcol : cubeta_hay_interseccion s.cubeta s.piezas_actual s.x_piezas_actual
      (int16 (s.y_piezas_actual + 1)) = true)
    (hover : cubeta_hay_desbordamiento s.cubeta s.piezas_actual s.y_piezas_actual = false)
    (hfilas : ∀ r, r < CUBETA_ALTO → ∃ col, col < CUBETA_ANCHO ∧
      (cubeta_fijar_pieza s.cubeta s.piezas_actual s.x_piezas_actual
        s.y_piezas_actual).matriz r col = 0)
    (rnd : Nat) (nueva : piezas_t)
    (hn : piezas_inicializar (rnd % PIEZAS_NUM_PIEZAS) = some nueva) :
    Alcanzable
      { s with
        contador_ms := 0
        cubeta := cubeta_fijar_pieza s.cubeta s.piezas_actual s.x_piezas_actual
          s.y_piezas_actual
        piezas_actual := s.piezas_siguiente
        x_piezas_actual :=
          int16 (((CUBETA_ANCHO : Int) + (s.piezas_siguiente.tamano : Int) - 4) / 2)
        y_piezas_actual := int16 (-(s.piezas_siguiente.tamano : Int))
        piezas_siguiente := nueva } := by
  have h1 := alcanzable_tic_debido s h ht hp
  obtain ⟨c0, n0, s', _, hstep, _⟩ :=
    juego_iteracion_fijar_campos { s with contador_ms := s.tiempo_paso } JOYSTICK_NADA rnd
      (Nat.le_refl _) hcol hover
  have h2 := Alcanzable.iteracion _ s' JOYSTICK_NADA rnd h1 hstep
  rcases juego_iteracion_casos _ s' JOYSTICK_NADA rnd hstep with
    ⟨_, hno, _⟩ | ⟨_, _, _, c', n, nueva2, hrev, _, hn2, heq⟩ | ⟨hlt, _, _⟩ | ⟨hlt, _, _⟩
  · rw [hcol] at hno
    exact Bool.noConfusion hno
  · have hrev2 := revisar_filas_nada _ hfilas
    simp only at hrev hn2
    rw [hrev2] at hrev
    injection hrev with hrev
    injection hrev with hc' hn0
    rw [hn] at hn2
    injection hn2 with hn2
    subst hc' hn0 hn2
    rw [heq] at h2
    simpa using h2
  · simp only at hlt
    omega
  · simp only at hlt
    omega

set_option maxRecDepth 1000000 in
set_option maxHeartbeats 4000000 in
/-- The state `estado_bloqueado` is reached by play: each piece is moved to
its column with Left presses, falls by gravity, and is fixed. -/
theorem bloqueado_alcanzable : Alcanzable estado_bloqueado := by
  have h0 : Alcanzable
      ({ piezas_actual := piezas_palo, piezas_siguiente := piezas_palo,
         cubeta := cubeta_inicializar cubeta_vacia,
         x_piezas_actual := 5, y_piezas_actual := -4,
         nivel := 1, filas_completadas := 0, puntos := 0,
         tiempo_paso := 750, temp_tiempo_paso := 750, contador_ms := 0 } : estado_t) :=
    Alcanzable.inicio cubeta_vacia 0 0 0 _ rfl
  have a1 : Alcanzable
      ({ piezas_actual := piezas_palo, piezas_siguiente := piezas_palo,
         cubeta := cubeta_inicializar cubeta_vacia,
         x_piezas_actual := 0, y_piezas_actual := -4,
         nivel := 1, filas_completadas := 0, puntos := 0,
         tiempo_paso := 750, temp_tiempo_paso := 750, contador_ms := 0 } : estado_t) :=
    alcanzable_izquierdas 4 _ h0 (by decide) (by decide) (by decide) (by decide)
  have a2 : Alcanzable
      ({ piezas_actual := piezas_palo, piezas_siguiente := piezas_palo,
         cubeta := cubeta_inicializar cubeta_vacia,
         x_piezas_actual := 0, y_piezas_actual := 13,
         nivel := 1, filas_completadas := 0, puntos := 0,
         tiempo_paso := 750, temp_tiempo_paso := 750, contador_ms := 0 } : estado_t) :=
    alcanzable_caer 16 _ a1 (by decide) (by decide) (by decide) (by decide)
  have a3 : Alcanzable
      ({ piezas_actual := piezas_palo, piezas_siguiente := piezas_cuadrado,
         cubeta := cubeta_torre1,
         x_piezas_actual := 5, y_piezas_actual := -4,
         nivel := 1, filas_completadas := 0, puntos := 0,
         tiempo_paso := 750, temp_tiempo_paso := 750, contador_ms := 0 } : estado_t) :=
    alcanzable_fijar _ a2 (by decide) (by decide) (by decide) (by decide) (by decide) 1
      piezas_cuadrado rfl
  have b1 : Alcanzable
      ({ piezas_actual := piezas_palo, piezas_siguiente := piezas_cuadrado,
         cubeta := cubeta_torre1,
         x_piezas_actual := 0, y_piezas_actual := -4,
         nivel := 1, filas_completadas := 0, puntos := 0,
         tiempo_paso := 750, temp_tiempo_paso := 750, contador_ms := 0 } : estado_t) :=
    alcanzable_izquierdas 4 _ a3 (by decide) (by decide) (by decide) (by decide)
  have b2 : Alcanzable
      ({ piezas_actual := piezas_palo, piezas_siguiente := piezas_cuadrado,
         cubeta := cubeta_torre1,
         x_piezas_actual := 0, y_piezas_actual := 9,
         nivel := 1, filas_completadas := 0, puntos := 0,
         tiempo_paso := 750, temp_tiempo_paso := 750, contador_ms := 0 } : estado_t) :=
    alcanzable_caer 12 _ b1 (by decide) (by decide) (by decide) (by decide)
  have b3 : Alcanzable
      ({ piezas_actual := piezas_cuadrado, piezas_siguiente := piezas_te,
         cubeta := cubeta_torre2,
         x_piezas_actual := 4, y_piezas_actual := -2,
         nivel := 1, filas_completadas := 0, puntos := 0,
         tiempo_paso := 750, temp_tiempo_paso := 750, contador_ms := 0 } : estado_t) :=
    alcanzable_fijar _ b2 (by decide) (by decide) (by decide) (by decide) (by decide) 6
      piezas_te rfl
  have c1 : Alcanzable
      ({ piezas_actual := piezas_cuadrado, piezas_siguiente := piezas_te,
         cubeta := cubeta_torre2,
         x_piezas_actual := 1, y_piezas_actual := -2,
         nivel := 1, filas_completadas := 0, puntos := 0,
         tiempo_paso := 750, temp_tiempo_paso := 750, contador_ms := 0 } : estado_t) :=
    alcanzable_izquierdas 2 _ b3 (by decide) (by decide) (by decide) (by decide)
  have c2 : Alcanzable
      ({ piezas_actual := piezas_cuadrado, piezas_siguiente := piezas_te,
         cubeta := cubeta_torre2,
         x_piezas_actual := 1, y_piezas_actual := 7,
         nivel := 1, filas_completadas := 0, puntos := 0,
         tiempo_paso := 750, temp_tiempo_paso := 750, contador_ms := 0 } : estado_t) :=
    alcanzable_caer 8 _ c1 (by decide) (by decide) (by decide) (by decide)
  have c3 : Alcanzable
      ({ piezas_actual := piezas_te, piezas_siguiente := piezas_palo,
         cubeta := cubeta_torre,
         x_piezas_actual := 4, y_piezas_actual := -3,
         nivel := 1, filas_completadas := 0, puntos := 0,
         tiempo_paso := 750, temp_tiempo_paso := 750, contador_ms := 0 } : estado_t) :=
    alcanzable_fijar _ c2 (by decide) (by decide) (by decide) (by decide) (by decide) 0
      piezas_palo rfl
  have d1 : Alcanzable
      ({ piezas_actual := piezas_te, piezas_siguiente := piezas_palo,
         cubeta := cubeta_torre,
         x_piezas_actual := 0, y_piezas_actual := -3,
         nivel := 1, filas_completadas := 0, puntos := 0,
         tiempo_paso := 750, temp_tiempo_paso := 750, contador_ms := 0 } : estado_t) :=
    alcanzable_izquierdas 3 _ c3 (by decide) (by decide) (by decide) (by decide)
  exact alcanzable_caer 7 _ d1 (by decide) (by decide) (by decide) (by decide)

/-- No state of a game has the TE in its initial orientation at (x = 0, y = 5)
with board cell row 6, column 0 occupied: the filled cell (1, 0) of the piece
would lie on that cell. -/
theorem vecino_no_alcanzable (s : estado_t) (hs : Alcanzable s) :
    ¬(s.piezas_actual = piezas_te ∧ s.x_piezas_actual = 0 ∧ s.y_piezas_actual = 5 ∧
      s.cubeta.matriz 6 0 ≠ 0) := by
  rintro ⟨hp, hx, hy, hc⟩
  have hlibre := (juego_invariante s hs).1
  have hcol : cubeta_hay_interseccion s.cubeta s.piezas_actual s.x_piezas_actual
      s.y_piezas_actual = true := by
    rw [hay_interseccion_iff, hp, hx, hy]
    refine ⟨1, 0, by decide, by decide, by decide, ?_⟩
    right; right; right
    exact ⟨by decide, by decide, by decide, by decide, hc⟩
  rw [hlibre] at hcol
  exact Bool.noConfusion hcol

set_option maxRecDepth 100000 in
/-- C25, counterexample.  With the TE in its initial orientation at
(x = 0, y = 5) and only board cell row 6, column 0 occupied, the rotate-right
probe (filled cells (0,1), (1,1), (1,2), (2,1), all in board columns 1 and 2)
does not collide, and the Up press replaces the active piece by that rotation.
The cell (6, 0) is the one the unrotated piece itself covers with its filled
cell (1, 0), so the configuration of the claim is not a state of any game. -/
theorem juego_rotacion_vecino_contraejemplo :
    celdas_llenas piezas_te = [(0, 1), (1, 0), (1, 1), (1, 2)] ∧
    celdas_llenas (piezas_rotar piezas_te DERECHA) = [(0, 1), (1, 1), (1, 2), (2, 1)] ∧
    cubeta_hay_interseccion cubeta_vecino (piezas_rotar piezas_te DERECHA) 0 5 = false ∧
    juego_iteracion estado_vecino JOYSTICK_ARRIBA 0 =
      resultado_t.continua
        { estado_vecino with piezas_actual := piezas_rotar piezas_te DERECHA } ∧
    (piezas_rotar piezas_te DERECHA).matriz 1 0 ≠ piezas_te.matriz 1 0 ∧
    cubeta_hay_interseccion cubeta_vecino piezas_te 0 5 = true ∧
    (∀ s, Alcanzable s →
      ¬(s.piezas_actual = piezas_te ∧ s.x_piezas_actual = 0 ∧ s.y_piezas_actual = 5 ∧
        s.cubeta.matriz 6 0 ≠ 0)) := by
  refine ⟨by decide, by decide, by decide, ?_, by decide, by decide, vecino_no_alcanzable⟩
  rw [juego_iteracion_sin_tic estado_vecino JOYSTICK_ARRIBA 0 (by decide), if_pos (by decide),
    juego_tecla_arriba]
  have h : cubeta_hay_interseccion estado_vecino.cubeta
      (piezas_rotar estado_vecino.piezas_actual DERECHA) estado_vecino.x_piezas_actual
      estado_vecino.y_piezas_actual = false := by decide
  rw [h]
  rfl

set_option maxRecDepth 100000 in
/-- C25, amended.  Rotation blocked by a neighbour: with a TE in its initial
orientation at (x = 0, y = 5) and board cell row 7, column 1 occupied (the
cell the right rotation covers with its filled cell (2, 1) and the unrotated
piece does not cover), the rotate-right probe collides, so an Up press (tick
not due) leaves the active piece and its position unchanged. -/
theorem juego_rotacion_vecino (s : estado_t) (rnd : Nat)
    (hp : s.piezas_actual = piezas_te) (hx : s.x_piezas_actual = 0)
    (hy : s.y_piezas_actual = 5) (hc : s.cubeta.matriz 7 1 ≠ 0)
    (h : s.contador_ms < s.tiempo_paso) :
    cubeta_hay_interseccion s.cubeta (piezas_rotar s.piezas_actual DERECHA)
      s.x_piezas_actual s.y_piezas_actual = true ∧
    juego_iteracion s JOYSTICK_ARRIBA rnd =
      resultado_t.continua { s with tiempo_paso := s.temp_tiempo_paso } ∧
    (∃ s', juego_iteracion s JOYSTICK_ARRIBA rnd = resultado_t.continua s' ∧
      s'.piezas_actual = piezas_te ∧ s'.x_piezas_actual = 0 ∧ s'.y_piezas_actual = 5 ∧
      s'.cubeta = s.cubeta) := by
  have hder : cubeta_hay_interseccion s.cubeta (piezas_rotar s.piezas_actual DERECHA)
      s.x_piezas_actual s.y_piezas_actual = true := by
    rw [hay_interseccion_iff, hp, hx, hy]
    refine ⟨2, 1, by decide, by decide, by decide, ?_⟩
    right; right; right
    exact ⟨by decide, by decide, by decide, by decide, hc⟩
  have hstep : juego_iteracion s JOYSTICK_ARRIBA rnd =
      resultado_t.continua { s with tiempo_paso := s.temp_tiempo_paso } := by
    rw [juego_iteracion_sin_tic s JOYSTICK_ARRIBA rnd h, if_pos (by decide),
      juego_tecla_arriba, hder]
    rfl
  exact ⟨hder, hstep, _, hstep, hp, hx, hy, rfl⟩

set_option maxRecDepth 1000000 in
theorem juego_rotacion_vecino_witness :
    Alcanzable estado_bloqueado ∧
    cubeta_hay_interseccion estado_bloqueado.cubeta estado_bloqueado.piezas_actual
      estado_bloqueado.x_piezas_actual estado_bloqueado.y_piezas_actual = false ∧
    cubeta_hay_interseccion estado_bloqueado.cubeta
      (piezas_rotar estado_bloqueado.piezas_actual DERECHA)
      estado_bloqueado.x_piezas_actual estado_bloqueado.y_piezas_actual = true ∧
    juego_iteracion estado_bloqueado JOYSTICK_ARRIBA 0 =
      resultado_t.continua estado_bloqueado :=
  ⟨bloqueado_alcanzable, by decide,
    (juego_rotacion_vecino estado_bloqueado 0 rfl rfl rfl (by decide) (by decide)).1,
    (juego_rotacion_vecino estado_bloqueado 0 rfl rfl rfl (by decide) (by decide)).2.1⟩

end Tetris
